import Mathlib

/-!
# auth0-operator, package api/v1

A shallow embedding of the Go package `api/v1` of the Auth0 operator: the custom
resource types (tenants, clients, client grants, connections, resource servers), the
JSON shape their struct tags give them, the validation markers, and the scheme
registration.

Conventions of the embedding:

* a Go pointer `*T` is `Option T` (`none` is the nil pointer);
* a Go slice `[]T` is `Option (List T)` (`none` is the nil slice, `some []` an empty
  non-nil slice: `omitempty` drops both, and decoding tells them apart);
* `int32` is `Int`;
* JSON texts are compared as JSON values (`JSON`): objects keep the order of their keys,
  insignificant white space and escaping are not represented.

The reconciliation engine that the design document describes (resolver, policy gate,
planner, state machine) has no source in this package; the definitions that stand for it
are marked `Modelled from the spec:` and follow the design document.
-/

namespace V1

/-! ## JSON values -/

/-- A JSON value. Objects are ordered lists of key/value pairs, as the encoder writes
them. -/
inductive JSON where
  | null : JSON
  | bool (b : Bool) : JSON
  | num (n : Int) : JSON
  | str (s : String) : JSON
  | arr (xs : List JSON) : JSON
  | obj (kvs : List (String × JSON)) : JSON

mutual
/-- Structural equality test on JSON values. -/
def JSON.beq : JSON → JSON → Bool
  | .null, .null => true
  | .bool a, .bool b => a == b
  | .num a, .num b => a == b
  | .str a, .str b => a == b
  | .arr xs, .arr ys => JSON.beqList xs ys
  | .obj xs, .obj ys => JSON.beqFields xs ys
  | _, _ => false
/-- Structural equality test on lists of JSON values. -/
def JSON.beqList : List JSON → List JSON → Bool
  | [], [] => true
  | x :: xs, y :: ys => JSON.beq x y && JSON.beqList xs ys
  | _, _ => false
/-- Structural equality test on the members of an object. -/
def JSON.beqFields : List (String × JSON) → List (String × JSON) → Bool
  | [], [] => true
  | (k, x) :: xs, (l, y) :: ys => k == l && JSON.beq x y && JSON.beqFields xs ys
  | _, _ => false
end

mutual
theorem JSON.beq_iff : ∀ (a b : JSON), JSON.beq a b = true ↔ a = b
  | .null, b => by cases b <;> simp [JSON.beq]
  | .bool x, b => by cases b <;> simp [JSON.beq]
  | .num x, b => by cases b <;> simp [JSON.beq]
  | .str x, b => by cases b <;> simp [JSON.beq]
  | .arr xs, b => by
      cases b <;> simp [JSON.beq]
      exact JSON.beqList_iff xs _
  | .obj xs, b => by
      cases b <;> simp [JSON.beq]
      exact JSON.beqFields_iff xs _
theorem JSON.beqList_iff : ∀ (a b : List JSON), JSON.beqList a b = true ↔ a = b
  | [], b => by cases b <;> simp [JSON.beqList]
  | x :: xs, b => by
      cases b with
      | nil => simp [JSON.beqList]
      | cons y ys => simp [JSON.beqList, JSON.beq_iff x y, JSON.beqList_iff xs ys]
theorem JSON.beqFields_iff : ∀ (a b : List (String × JSON)), JSON.beqFields a b = true ↔ a = b
  | [], b => by cases b <;> simp [JSON.beqFields]
  | (k, x) :: xs, b => by
      cases b with
      | nil => simp [JSON.beqFields]
      | cons y ys =>
        obtain ⟨l, y⟩ := y
        simp [JSON.beqFields, JSON.beq_iff x y, JSON.beqFields_iff xs ys, and_assoc]
end

instance : DecidableEq JSON := fun a b =>
  if h : JSON.beq a b = true then isTrue ((JSON.beq_iff a b).1 h)
  else isFalse (fun e => h ((JSON.beq_iff a b).2 e))

/-- The keys of a JSON object in order; any other value has none. -/
def JSON.keys : JSON → List String
  | .obj kvs => kvs.map Prod.fst
  | _ => []

/-- The value under the last occurrence of a key in a list of members (a decoder that
reads the members in order keeps the last one). -/
def lookupKey (k : String) : List (String × JSON) → Option JSON
  | [] => none
  | (l, v) :: rest =>
    match lookupKey k rest with
    | some w => some w
    | none => if l = k then some v else none

/-! ## Struct encoding as encoding/json does it -/

/-- One struct field as the encoder sees it: the key of its json tag, whether the tag
says `omitempty`, whether the Go value is empty (nil pointer, nil or zero-length slice,
empty string; a struct value is never empty) and the JSON its value encodes to. -/
structure FieldEnc where
  key : String
  omitempty : Bool
  empty : Bool
  value : JSON

/-- A pointer field: nil is empty and encodes as null. -/
def FieldEnc.ptr {α : Type} (key : String) (omitempty : Bool) (enc : α → JSON)
    (v : Option α) : FieldEnc :=
  ⟨key, omitempty, v.isNone, match v with | none => .null | some a => enc a⟩

/-- A slice field: nil and zero-length are empty, nil encodes as null. -/
def FieldEnc.slice {α : Type} (key : String) (omitempty : Bool) (enc : α → JSON)
    (v : Option (List α)) : FieldEnc :=
  ⟨key, omitempty, (v.getD []).isEmpty,
    match v with | none => .null | some xs => .arr (xs.map enc)⟩

/-- A string field: the empty string is empty. -/
def FieldEnc.string (key : String) (omitempty : Bool) (s : String) : FieldEnc :=
  ⟨key, omitempty, decide (s = ""), .str s⟩

/-- A field holding a struct by value: never empty, so `omitempty` never drops it. -/
def FieldEnc.struct (key : String) (omitempty : Bool) (j : JSON) : FieldEnc :=
  ⟨key, omitempty, false, j⟩

/-- The members written for a struct: every field in order, except an empty one whose
tag says `omitempty`. -/
def marshalFields (fs : List FieldEnc) : List (String × JSON) :=
  fs.filterMap fun f => if f.omitempty && f.empty then none else some (f.key, f.value)

/-- The JSON object written for a struct. -/
def marshalStruct (fs : List FieldEnc) : JSON :=
  .obj (marshalFields fs)

/-- Decoding a struct: null leaves the zero value, an object gives its members in order
to `setField` (an unknown key is skipped there, a later duplicate overwrites), anything
else is an error. A key is matched against the json key of a field exactly, as the
decoder of the API machinery does (it is case sensitive); the decoder of `encoding/json`
also accepts a key that differs from the json key in case only when no field matches it
exactly, which is not represented. On the output of the encoder, whose keys are the json
keys themselves, the two agree. -/
def unmarshalStruct {α : Type} (zero : α) (setField : α → String → JSON → Option α) :
    JSON → Option α
  | .null => some zero
  | .obj kvs => kvs.foldlM (fun s kv => setField s kv.1 kv.2) zero
  | _ => none

/-- Decoding into a `*string` field: null sets the nil pointer, a string a pointer to
it, anything else is a type error. -/
def decodeStringPtr : JSON → Option (Option String)
  | .null => some none
  | .str s => some (some s)
  | _ => none

/-! ## Types of the Kubernetes libraries that the package embeds -/

/-- The library type `runtime.RawExtension` (k8s.io/apimachinery), the type of every
`lastConf` and of the pass-through blocks: `Raw` holds the document, or nothing (a nil
`Raw`, as in the zero value). The second field of the library type, `Object`, is tagged
`json:"-"`, holds an object in memory only and is never set by a decoder; it is not
represented: the values here are the ones whose `Object` is nil, as every value decoded
from JSON is. -/
structure RawExtension where
  Raw : Option JSON
deriving DecidableEq

/-- `RawExtension.MarshalJSON`: a nil `Raw` is written as null, otherwise the document
itself. (With a nil `Raw` the library writes the `Object` when there is one; these
values have none.) -/
def RawExtension.toJSON (re : RawExtension) : JSON :=
  match re.Raw with
  | none => .null
  | some j => j

/-- Decoding into a `*runtime.RawExtension` field: null sets the nil pointer (the decoder
does this itself, before any `UnmarshalJSON`), any other value is kept as the document. -/
def decodeRawExtensionPtr : JSON → Option RawExtension
  | .null => none
  | j => some ⟨some j⟩

/-- The library type `metav1.TypeMeta`, inlined in every root type. -/
structure TypeMeta where
  Kind : String
  APIVersion : String

def TypeMeta.fields (x : TypeMeta) : List FieldEnc :=
  [FieldEnc.string "kind" true x.Kind,
   FieldEnc.string "apiVersion" true x.APIVersion]

/-- The library type `metav1.Time` held by value: the zero time (`none`) or a time by
its text. -/
abbrev Time := Option String

/-- `Time.MarshalJSON`: the zero time is written as null, any other as its text. -/
def Time.toJSON : Time → JSON
  | none => .null
  | some t => .str t

/-- The part of the library type `metav1.ObjectMeta` that identifies an object, dates
it and marks its removal. `CreationTimestamp` is a `metav1.Time` held by value, so its
`omitempty` never drops it: "creationTimestamp" is always written, as null for the zero
time. -/
structure ObjectMeta where
  Name : String
  Namespace : String
  CreationTimestamp : Time
  DeletionTimestamp : Option String
  Finalizers : Option (List String)

def ObjectMeta.fields (x : ObjectMeta) : List FieldEnc :=
  [FieldEnc.string "name" true x.Name,
   FieldEnc.string "namespace" true x.Namespace,
   FieldEnc.struct "creationTimestamp" true (Time.toJSON x.CreationTimestamp),
   FieldEnc.ptr "deletionTimestamp" true JSON.str x.DeletionTimestamp,
   FieldEnc.slice "finalizers" true JSON.str x.Finalizers]

def ObjectMeta.toJSON (x : ObjectMeta) : JSON :=
  marshalStruct (ObjectMeta.fields x)

/-- The part of the library type `metav1.ListMeta` that a list page carries. -/
structure ListMeta where
  ResourceVersion : String
  Continue : String

def ListMeta.fields (x : ListMeta) : List FieldEnc :=
  [FieldEnc.string "resourceVersion" true x.ResourceVersion,
   FieldEnc.string "continue" true x.Continue]

def ListMeta.toJSON (x : ListMeta) : JSON :=
  marshalStruct (ListMeta.fields x)

/-! ## common_types.go: policy types -/

/-- Go type `V1EntityPolicyType string` (common_types.go, line 5). -/
abbrev V1EntityPolicyType := String

/-- PolicyTypeCreate allows the operator to create the associated entity in the tenant. -/
def PolicyTypeCreate : V1EntityPolicyType := "Create"
/-- PolicyTypeUpdate allows the operator to update the associated entity in the tenant. -/
def PolicyTypeUpdate : V1EntityPolicyType := "Update"
/-- PolicyTypeDelete allows the operator to delete the associated entity in the tenant. -/
def PolicyTypeDelete : V1EntityPolicyType := "Delete"

/-- The values the marker `+kubebuilder:validation:Enum=Create;Update;Delete` on
V1EntityPolicyType admits (common_types.go, line 4). -/
def V1EntityPolicyType.Enum : List String := ["Create", "Update", "Delete"]

/-! ## The struct types of the package -/

/-- Go struct V1TenantReference (common_types.go, line 17), with its json-tagged fields and its encoding. -/
structure V1TenantReference where
  Namespace : Option String
  Name : String

def V1TenantReference.fields (x : V1TenantReference) : List FieldEnc :=
  [FieldEnc.ptr "namespace" true JSON.str x.Namespace,
   FieldEnc.string "name" false x.Name]

def V1TenantReference.toJSON (x : V1TenantReference) : JSON :=
  marshalStruct (V1TenantReference.fields x)

/-- Go struct V1SecretReference (common_types.go, line 29), with its json-tagged fields and its encoding. -/
structure V1SecretReference where
  Name : String
  Namespace : String

def V1SecretReference.fields (x : V1SecretReference) : List FieldEnc :=
  [FieldEnc.string "name" false x.Name,
   FieldEnc.string "namespace" false x.Namespace]

def V1SecretReference.toJSON (x : V1SecretReference) : JSON :=
  marshalStruct (V1SecretReference.fields x)

/-- Go struct V1ConnectionReference (common_types.go, line 40), with its json-tagged fields and its encoding. -/
structure V1ConnectionReference where
  Namespace : Option String
  Name : Option String
  Id : Option String

def V1ConnectionReference.fields (x : V1ConnectionReference) : List FieldEnc :=
  [FieldEnc.ptr "namespace" true JSON.str x.Namespace,
   FieldEnc.ptr "name" true JSON.str x.Name,
   FieldEnc.ptr "id" true JSON.str x.Id]

def V1ConnectionReference.toJSON (x : V1ConnectionReference) : JSON :=
  marshalStruct (V1ConnectionReference.fields x)

/-- Go struct V1ResourceServerReference (common_types.go, line 56), with its json-tagged fields and its encoding. -/
structure V1ResourceServerReference where
  Identifier : Option String
  Scopes : Option (List String)

def V1ResourceServerReference.fields (x : V1ResourceServerReference) : List FieldEnc :=
  [FieldEnc.ptr "identifier" true JSON.str x.Identifier,
   FieldEnc.slice "scopes" true JSON.str x.Scopes]

def V1ResourceServerReference.toJSON (x : V1ResourceServerReference) : JSON :=
  marshalStruct (V1ResourceServerReference.fields x)

/-- Go struct V1ClientReference (clientgrant_types.go, line 76), with its json-tagged fields and its encoding. -/
structure V1ClientReference where
  Namespace : Option String
  Name : Option String
  Id : Option String

def V1ClientReference.fields (x : V1ClientReference) : List FieldEnc :=
  [FieldEnc.ptr "namespace" true JSON.str x.Namespace,
   FieldEnc.ptr "name" true JSON.str x.Name,
   FieldEnc.ptr "id" true JSON.str x.Id]

def V1ClientReference.toJSON (x : V1ClientReference) : JSON :=
  marshalStruct (V1ClientReference.fields x)

/-- Go struct ClientGrantConf (clientgrant_types.go, line 61), with its json-tagged fields and its encoding. -/
structure ClientGrantConf where
  ClientRef : Option V1ClientReference
  Audience : Option V1ResourceServerReference
  Scope : Option (List String)

def ClientGrantConf.fields (x : ClientGrantConf) : List FieldEnc :=
  [FieldEnc.ptr "clientRef" true V1ClientReference.toJSON x.ClientRef,
   FieldEnc.ptr "audience" true V1ResourceServerReference.toJSON x.Audience,
   FieldEnc.slice "scope" true JSON.str x.Scope]

def ClientGrantConf.toJSON (x : ClientGrantConf) : JSON :=
  marshalStruct (ClientGrantConf.fields x)

/-- Go struct A0ClientGrantSpec (clientgrant_types.go, line 30), with its json-tagged fields and its encoding. -/
structure A0ClientGrantSpec where
  Policy : Option (List V1EntityPolicyType)
  TenantRef : Option V1TenantReference
  Init : Option ClientGrantConf
  Conf : Option ClientGrantConf

def A0ClientGrantSpec.fields (x : A0ClientGrantSpec) : List FieldEnc :=
  [FieldEnc.slice "policy" true JSON.str x.Policy,
   FieldEnc.ptr "tenantRef" false V1TenantReference.toJSON x.TenantRef,
   FieldEnc.ptr "init" true ClientGrantConf.toJSON x.Init,
   FieldEnc.ptr "conf" false ClientGrantConf.toJSON x.Conf]

def A0ClientGrantSpec.toJSON (x : A0ClientGrantSpec) : JSON :=
  marshalStruct (A0ClientGrantSpec.fields x)

/-- Go struct A0ClientGrantStatus (clientgrant_types.go, line 49), with its json-tagged fields and its encoding. -/
structure A0ClientGrantStatus where
  Id : Option String
  LastConf : Option RawExtension

def A0ClientGrantStatus.fields (x : A0ClientGrantStatus) : List FieldEnc :=
  [FieldEnc.ptr "id" true JSON.str x.Id,
   FieldEnc.ptr "lastConf" true RawExtension.toJSON x.LastConf]

def A0ClientGrantStatus.toJSON (x : A0ClientGrantStatus) : JSON :=
  marshalStruct (A0ClientGrantStatus.fields x)

/-- Go struct A0ClientGrant (clientgrant_types.go, line 13), with its json-tagged fields and its encoding. -/
structure A0ClientGrant where
  TypeMeta : TypeMeta
  ObjectMeta : ObjectMeta
  Spec : A0ClientGrantSpec
  Status : A0ClientGrantStatus

def A0ClientGrant.fields (x : A0ClientGrant) : List FieldEnc :=
  TypeMeta.fields x.TypeMeta ++
  [FieldEnc.struct "metadata" true (ObjectMeta.toJSON x.ObjectMeta),
   FieldEnc.struct "spec" true (A0ClientGrantSpec.toJSON x.Spec),
   FieldEnc.struct "status" true (A0ClientGrantStatus.toJSON x.Status)]

def A0ClientGrant.toJSON (x : A0ClientGrant) : JSON :=
  marshalStruct (A0ClientGrant.fields x)

/-- Go struct A0ClientGrantList (clientgrant_types.go, line 23), with its json-tagged fields and its encoding. -/
structure A0ClientGrantList where
  TypeMeta : TypeMeta
  ListMeta : ListMeta
  Items : Option (List A0ClientGrant)

def A0ClientGrantList.fields (x : A0ClientGrantList) : List FieldEnc :=
  TypeMeta.fields x.TypeMeta ++
  [FieldEnc.struct "metadata" true (ListMeta.toJSON x.ListMeta),
   FieldEnc.slice "items" false A0ClientGrant.toJSON x.Items]

def A0ClientGrantList.toJSON (x : A0ClientGrantList) : JSON :=
  marshalStruct (A0ClientGrantList.fields x)

/-- Go struct ClientFind (client_types.go, line 69), with its json-tagged fields and its encoding. -/
structure ClientFind where
  ClientId : Option String
  CallbackUrls : Option (List String)
  CallbackUrlMatchMode : Option String

def ClientFind.fields (x : ClientFind) : List FieldEnc :=
  [FieldEnc.ptr "client_id" true JSON.str x.ClientId,
   FieldEnc.slice "callback_urls" true JSON.str x.CallbackUrls,
   FieldEnc.ptr "callback_url_match_mode" true JSON.str x.CallbackUrlMatchMode]

def ClientFind.toJSON (x : ClientFind) : JSON :=
  marshalStruct (ClientFind.fields x)

/-- Go struct SigningKey (client_types.go, line 252), with its json-tagged fields and its encoding. -/
structure SigningKey where
  Cert : Option String
  Key : Option String
  Pkcs7 : Option String

def SigningKey.fields (x : SigningKey) : List FieldEnc :=
  [FieldEnc.ptr "cert" true JSON.str x.Cert,
   FieldEnc.ptr "key" true JSON.str x.Key,
   FieldEnc.ptr "pkcs7" true JSON.str x.Pkcs7]

def SigningKey.toJSON (x : SigningKey) : JSON :=
  marshalStruct (SigningKey.fields x)

/-- Go struct CredentialIdDef (client_types.go, line 276), with its json-tagged fields and its encoding. -/
structure CredentialIdDef where
  Id : Option String

def CredentialIdDef.fields (x : CredentialIdDef) : List FieldEnc :=
  [FieldEnc.ptr "id" true JSON.str x.Id]

def CredentialIdDef.toJSON (x : CredentialIdDef) : JSON :=
  marshalStruct (CredentialIdDef.fields x)

/-- Go struct PrivateKeyJwtDef (client_types.go, line 282), with its json-tagged fields and its encoding. -/
structure PrivateKeyJwtDef where
  Credentials : Option (List CredentialIdDef)

def PrivateKeyJwtDef.fields (x : PrivateKeyJwtDef) : List FieldEnc :=
  [FieldEnc.slice "credentials" true CredentialIdDef.toJSON x.Credentials]

def PrivateKeyJwtDef.toJSON (x : PrivateKeyJwtDef) : JSON :=
  marshalStruct (PrivateKeyJwtDef.fields x)

/-- Go struct TlsClientAuthDef (client_types.go, line 288), with its json-tagged fields and its encoding. -/
structure TlsClientAuthDef where
  Credentials : Option (List CredentialIdDef)

def TlsClientAuthDef.fields (x : TlsClientAuthDef) : List FieldEnc :=
  [FieldEnc.slice "credentials" true CredentialIdDef.toJSON x.Credentials]

def TlsClientAuthDef.toJSON (x : TlsClientAuthDef) : JSON :=
  marshalStruct (TlsClientAuthDef.fields x)

/-- Go struct SelfSignedTlsClientAuthDef (client_types.go, line 294), with its json-tagged fields and its encoding. -/
structure SelfSignedTlsClientAuthDef where
  Credentials : Option (List CredentialIdDef)

def SelfSignedTlsClientAuthDef.fields (x : SelfSignedTlsClientAuthDef) : List FieldEnc :=
  [FieldEnc.slice "credentials" true CredentialIdDef.toJSON x.Credentials]

def SelfSignedTlsClientAuthDef.toJSON (x : SelfSignedTlsClientAuthDef) : JSON :=
  marshalStruct (SelfSignedTlsClientAuthDef.fields x)

/-- Go struct ClientAuthenticationMethods (client_types.go, line 264), with its json-tagged fields and its encoding. -/
structure ClientAuthenticationMethods where
  PrivateKeyJwt : Option PrivateKeyJwtDef
  TlsClientAuth : Option TlsClientAuthDef
  SelfSignedTlsClientAuth : Option SelfSignedTlsClientAuthDef

def ClientAuthenticationMethods.fields (x : ClientAuthenticationMethods) : List FieldEnc :=
  [FieldEnc.ptr "private_key_jwt" true PrivateKeyJwtDef.toJSON x.PrivateKeyJwt,
   FieldEnc.ptr "tls_client_auth" true TlsClientAuthDef.toJSON x.TlsClientAuth,
   FieldEnc.ptr "self_signed_tls_client_auth" true SelfSignedTlsClientAuthDef.toJSON x.SelfSignedTlsClientAuth]

def ClientAuthenticationMethods.toJSON (x : ClientAuthenticationMethods) : JSON :=
  marshalStruct (ClientAuthenticationMethods.fields x)

/-- Go struct SignedRequestObject (client_types.go, line 300), with its json-tagged fields and its encoding. -/
structure SignedRequestObject where
  Required : Option Bool
  Credentials : Option (List CredentialIdDef)

def SignedRequestObject.fields (x : SignedRequestObject) : List FieldEnc :=
  [FieldEnc.ptr "required" true JSON.bool x.Required,
   FieldEnc.slice "credentials" true CredentialIdDef.toJSON x.Credentials]

def SignedRequestObject.toJSON (x : SignedRequestObject) : JSON :=
  marshalStruct (SignedRequestObject.fields x)

/-- Go struct EncryptionKey (client_types.go, line 337), with its json-tagged fields and its encoding. -/
structure EncryptionKey where
  Certificate : Option String
  PublicKey : Option String
  Subject : Option String

def EncryptionKey.fields (x : EncryptionKey) : List FieldEnc :=
  [FieldEnc.ptr "cert" true JSON.str x.Certificate,
   FieldEnc.ptr "pub" true JSON.str x.PublicKey,
   FieldEnc.ptr "subject" true JSON.str x.Subject]

def EncryptionKey.toJSON (x : EncryptionKey) : JSON :=
  marshalStruct (EncryptionKey.fields x)

/-- Go struct ScopeEntry (client_types.go, line 385), with its json-tagged fields and its encoding. -/
structure ScopeEntry where
  Actions : Option (List String)

def ScopeEntry.fields (x : ScopeEntry) : List FieldEnc :=
  [FieldEnc.slice "actions" true JSON.str x.Actions]

def ScopeEntry.toJSON (x : ScopeEntry) : JSON :=
  marshalStruct (ScopeEntry.fields x)

/-- Go struct Scopes (client_types.go, line 364), with its json-tagged fields and its encoding. -/
structure Scopes where
  Users : Option ScopeEntry
  UsersAppMetadata : Option ScopeEntry
  Clients : Option ScopeEntry
  ClientKeys : Option ScopeEntry
  Tokens : Option ScopeEntry
  Stats : Option ScopeEntry

def Scopes.fields (x : Scopes) : List FieldEnc :=
  [FieldEnc.ptr "users" true ScopeEntry.toJSON x.Users,
   FieldEnc.ptr "users_app_metadata" true ScopeEntry.toJSON x.UsersAppMetadata,
   FieldEnc.ptr "clients" true ScopeEntry.toJSON x.Clients,
   FieldEnc.ptr "client_keys" true ScopeEntry.toJSON x.ClientKeys,
   FieldEnc.ptr "tokens" true ScopeEntry.toJSON x.Tokens,
   FieldEnc.ptr "stats" true ScopeEntry.toJSON x.Stats]

def Scopes.toJSON (x : Scopes) : JSON :=
  marshalStruct (Scopes.fields x)

/-- Go struct JwtConfiguration (client_types.go, line 349), with its json-tagged fields and its encoding. -/
structure JwtConfiguration where
  IsSecretEncoded : Option Bool
  LifetimeInSeconds : Option Int
  Scopes : Option Scopes
  SigningAlgorithm : Option String

def JwtConfiguration.fields (x : JwtConfiguration) : List FieldEnc :=
  [FieldEnc.ptr "secret_encoded" true JSON.bool x.IsSecretEncoded,
   FieldEnc.ptr "lifetime_in_seconds" true JSON.num x.LifetimeInSeconds,
   FieldEnc.ptr "scopes" true Scopes.toJSON x.Scopes,
   FieldEnc.ptr "alg" true JSON.str x.SigningAlgorithm]

def JwtConfiguration.toJSON (x : JwtConfiguration) : JSON :=
  marshalStruct (JwtConfiguration.fields x)

/-- Go struct MobileAndroid (client_types.go, line 319), with its json-tagged fields and its encoding. -/
structure MobileAndroid where
  AppPackageName : Option String
  KeystoreHash : Option String

def MobileAndroid.fields (x : MobileAndroid) : List FieldEnc :=
  [FieldEnc.ptr "app_package_name" true JSON.str x.AppPackageName,
   FieldEnc.ptr "keystore_hash" true JSON.str x.KeystoreHash]

def MobileAndroid.toJSON (x : MobileAndroid) : JSON :=
  marshalStruct (MobileAndroid.fields x)

/-- Go struct MobileIos (client_types.go, line 328), with its json-tagged fields and its encoding. -/
structure MobileIos where
  AppBundleIdentifier : Option String
  TeamId : Option String

def MobileIos.fields (x : MobileIos) : List FieldEnc :=
  [FieldEnc.ptr "app_bundle_identifier" true JSON.str x.AppBundleIdentifier,
   FieldEnc.ptr "team_id" true JSON.str x.TeamId]

def MobileIos.toJSON (x : MobileIos) : JSON :=
  marshalStruct (MobileIos.fields x)

/-- Go struct Mobile (client_types.go, line 310), with its json-tagged fields and its encoding. -/
structure Mobile where
  Android : Option MobileAndroid
  Ios : Option MobileIos

def Mobile.fields (x : Mobile) : List FieldEnc :=
  [FieldEnc.ptr "android" true MobileAndroid.toJSON x.Android,
   FieldEnc.ptr "ios" true MobileIos.toJSON x.Ios]

def Mobile.toJSON (x : Mobile) : JSON :=
  marshalStruct (Mobile.fields x)

/-- Go struct BackchannelLogoutInitiators (client_types.go, line 400), with its json-tagged fields and its encoding. -/
structure BackchannelLogoutInitiators where
  Mode : Option String
  SelectedInitiators : Option (List String)

def BackchannelLogoutInitiators.fields (x : BackchannelLogoutInitiators) : List FieldEnc :=
  [FieldEnc.ptr "mode" true JSON.str x.Mode,
   FieldEnc.slice "selected_initiators" true JSON.str x.SelectedInitiators]

def BackchannelLogoutInitiators.toJSON (x : BackchannelLogoutInitiators) : JSON :=
  marshalStruct (BackchannelLogoutInitiators.fields x)

/-- Go struct OidcLogoutConfig (client_types.go, line 391), with its json-tagged fields and its encoding. -/
structure OidcLogoutConfig where
  BackchannelLogoutUrls : Option (List String)
  BackchannelLogoutInitiators : Option BackchannelLogoutInitiators

def OidcLogoutConfig.fields (x : OidcLogoutConfig) : List FieldEnc :=
  [FieldEnc.slice "backchannel_logout_urls" true JSON.str x.BackchannelLogoutUrls,
   FieldEnc.ptr "backchannel_logout_initiators" true BackchannelLogoutInitiators.toJSON x.BackchannelLogoutInitiators]

def OidcLogoutConfig.toJSON (x : OidcLogoutConfig) : JSON :=
  marshalStruct (OidcLogoutConfig.fields x)

/-- Go struct ClientResourceServerAssociation (client_types.go, line 437), with its json-tagged fields and its encoding. -/
structure ClientResourceServerAssociation where
  Identifier : Option String
  Scopes : Option (List String)

def ClientResourceServerAssociation.fields (x : ClientResourceServerAssociation) : List FieldEnc :=
  [FieldEnc.ptr "identifier" true JSON.str x.Identifier,
   FieldEnc.slice "scopes" true JSON.str x.Scopes]

def ClientResourceServerAssociation.toJSON (x : ClientResourceServerAssociation) : JSON :=
  marshalStruct (ClientResourceServerAssociation.fields x)

/-- Go struct RefreshToken (client_types.go, line 411), with its json-tagged fields and its encoding. -/
structure RefreshToken where
  RotationType : Option String
  ExpirationType : Option String
  Leeway : Option Int
  TokenLifetime : Option Int
  InfiniteTokenLifetime : Option Bool
  IdleTokenLifetime : Option Int
  InfiniteIdleTokenLifetime : Option Bool

def RefreshToken.fields (x : RefreshToken) : List FieldEnc :=
  [FieldEnc.ptr "rotation_type" true JSON.str x.RotationType,
   FieldEnc.ptr "expiration_type" true JSON.str x.ExpirationType,
   FieldEnc.ptr "leeway" true JSON.num x.Leeway,
   FieldEnc.ptr "token_lifetime" true JSON.num x.TokenLifetime,
   FieldEnc.ptr "infinite_token_lifetime" true JSON.bool x.InfiniteTokenLifetime,
   FieldEnc.ptr "idle_token_lifetime" true JSON.num x.IdleTokenLifetime,
   FieldEnc.ptr "infinite_idle_token_lifetime" true JSON.bool x.InfiniteIdleTokenLifetime]

def RefreshToken.toJSON (x : RefreshToken) : JSON :=
  marshalStruct (RefreshToken.fields x)

/-- Go struct DefaultOrganization (client_types.go, line 446), with its json-tagged fields and its encoding. -/
structure DefaultOrganization where
  OrganizationId : Option String
  Flows : Option (List String)

def DefaultOrganization.fields (x : DefaultOrganization) : List FieldEnc :=
  [FieldEnc.ptr "organization_id" true JSON.str x.OrganizationId,
   FieldEnc.slice "flows" true JSON.str x.Flows]

def DefaultOrganization.toJSON (x : DefaultOrganization) : JSON :=
  marshalStruct (DefaultOrganization.fields x)

/-- Go struct ClientConf (client_types.go, line 84), with its json-tagged fields and its encoding. -/
structure ClientConf where
  SigningKeys : Option (List SigningKey)
  ApplicationType : Option String
  TokenEndpointAuthMethod : Option String
  ClientAuthenticationMethods : Option ClientAuthenticationMethods
  SignedRequestObject : Option SignedRequestObject
  AddOns : Option RawExtension
  AllowedClients : Option (List String)
  AllowedLogoutUrls : Option (List String)
  AllowedOrigins : Option (List String)
  WebOrigins : Option (List String)
  InitiateLoginUri : Option String
  Callbacks : Option (List String)
  ClientAliases : Option (List String)
  ClientMetadata : Option RawExtension
  IsCustomLoginPageOn : Option Bool
  IsFirstParty : Option Bool
  CustomLoginPage : Option String
  CustomLoginPagePreview : Option String
  EncryptionKey : Option EncryptionKey
  FormTemplate : Option String
  GrantTypes : Option (List String)
  JwtConfiguration : Option JwtConfiguration
  Mobile : Option Mobile
  Name : Option String
  Description : Option String
  LogoUri : Option String
  OidcConformant : Option Bool
  OidcLogout : Option OidcLogoutConfig
  ResourceServers : Option (List ClientResourceServerAssociation)
  Sso : Option Bool
  RefreshToken : Option RefreshToken
  OrganizationUsage : Option String
  OrganizationRequireBehavior : Option String
  CrossOriginAuthentication : Option Bool
  RequirePushedAuthorizationRequests : Option Bool
  DefaultOrganization : Option DefaultOrganization
  ComplianceLevel : Option String
  RequireProofOfPossession : Option Bool
  EnabledConnections : Option (List V1ConnectionReference)

def ClientConf.fields (x : ClientConf) : List FieldEnc :=
  [FieldEnc.slice "signing_keys" true SigningKey.toJSON x.SigningKeys,
   FieldEnc.ptr "app_type" true JSON.str x.ApplicationType,
   FieldEnc.ptr "token_endpoint_auth_method" true JSON.str x.TokenEndpointAuthMethod,
   FieldEnc.ptr "client_authentication_methods" true ClientAuthenticationMethods.toJSON x.ClientAuthenticationMethods,
   FieldEnc.ptr "signed_request_object" true SignedRequestObject.toJSON x.SignedRequestObject,
   FieldEnc.ptr "addons" true RawExtension.toJSON x.AddOns,
   FieldEnc.slice "allowed_clients" true JSON.str x.AllowedClients,
   FieldEnc.slice "allowed_logout_urls" true JSON.str x.AllowedLogoutUrls,
   FieldEnc.slice "allowed_origins" true JSON.str x.AllowedOrigins,
   FieldEnc.slice "web_origins" true JSON.str x.WebOrigins,
   FieldEnc.ptr "initiate_login_uri" true JSON.str x.InitiateLoginUri,
   FieldEnc.slice "callbacks" true JSON.str x.Callbacks,
   FieldEnc.slice "client_aliases" true JSON.str x.ClientAliases,
   FieldEnc.ptr "client_metadata" true RawExtension.toJSON x.ClientMetadata,
   FieldEnc.ptr "custom_login_page_on" true JSON.bool x.IsCustomLoginPageOn,
   FieldEnc.ptr "is_first_party" true JSON.bool x.IsFirstParty,
   FieldEnc.ptr "custom_login_page" true JSON.str x.CustomLoginPage,
   FieldEnc.ptr "custom_login_page_preview" true JSON.str x.CustomLoginPagePreview,
   FieldEnc.ptr "encryption_key" true EncryptionKey.toJSON x.EncryptionKey,
   FieldEnc.ptr "form_template" true JSON.str x.FormTemplate,
   FieldEnc.slice "grant_types" true JSON.str x.GrantTypes,
   FieldEnc.ptr "jwt_configuration" true JwtConfiguration.toJSON x.JwtConfiguration,
   FieldEnc.ptr "mobile" true Mobile.toJSON x.Mobile,
   FieldEnc.ptr "name" true JSON.str x.Name,
   FieldEnc.ptr "description" true JSON.str x.Description,
   FieldEnc.ptr "logo_uri" true JSON.str x.LogoUri,
   FieldEnc.ptr "oidc_conformant" true JSON.bool x.OidcConformant,
   FieldEnc.ptr "oidc_logout" true OidcLogoutConfig.toJSON x.OidcLogout,
   FieldEnc.slice "resource_servers" true ClientResourceServerAssociation.toJSON x.ResourceServers,
   FieldEnc.ptr "sso" true JSON.bool x.Sso,
   FieldEnc.ptr "refresh_token" true RefreshToken.toJSON x.RefreshToken,
   FieldEnc.ptr "organization_usage" true JSON.str x.OrganizationUsage,
   FieldEnc.ptr "organization_require_behavior" true JSON.str x.OrganizationRequireBehavior,
   FieldEnc.ptr "cross_origin_authentication" true JSON.bool x.CrossOriginAuthentication,
   FieldEnc.ptr "require_pushed_authorization_requests" true JSON.bool x.RequirePushedAuthorizationRequests,
   FieldEnc.ptr "default_organization" true DefaultOrganization.toJSON x.DefaultOrganization,
   FieldEnc.ptr "compliance_level" true JSON.str x.ComplianceLevel,
   FieldEnc.ptr "require_proof_of_possession" true JSON.bool x.RequireProofOfPossession,
   FieldEnc.slice "enabled_connections" true V1ConnectionReference.toJSON x.EnabledConnections]

def ClientConf.toJSON (x : ClientConf) : JSON :=
  marshalStruct (ClientConf.fields x)

/-- Go struct A0ClientSpec (client_types.go, line 30), with its json-tagged fields and its encoding. -/
structure A0ClientSpec where
  Policy : Option (List V1EntityPolicyType)
  TenantRef : Option V1TenantReference
  SecretRef : Option V1SecretReference
  Find : Option ClientFind
  Init : Option ClientConf
  Conf : Option ClientConf

def A0ClientSpec.fields (x : A0ClientSpec) : List FieldEnc :=
  [FieldEnc.slice "policy" true JSON.str x.Policy,
   FieldEnc.ptr "tenantRef" false V1TenantReference.toJSON x.TenantRef,
   FieldEnc.ptr "secretRef" true V1SecretReference.toJSON x.SecretRef,
   FieldEnc.ptr "find" true ClientFind.toJSON x.Find,
   FieldEnc.ptr "init" true ClientConf.toJSON x.Init,
   FieldEnc.ptr "conf" false ClientConf.toJSON x.Conf]

def A0ClientSpec.toJSON (x : A0ClientSpec) : JSON :=
  marshalStruct (A0ClientSpec.fields x)

/-- Go struct A0ClientStatus (client_types.go, line 57), with its json-tagged fields and its encoding. -/
structure A0ClientStatus where
  Id : Option String
  LastConf : Option RawExtension

def A0ClientStatus.fields (x : A0ClientStatus) : List FieldEnc :=
  [FieldEnc.ptr "id" true JSON.str x.Id,
   FieldEnc.ptr "lastConf" true RawExtension.toJSON x.LastConf]

def A0ClientStatus.toJSON (x : A0ClientStatus) : JSON :=
  marshalStruct (A0ClientStatus.fields x)

/-- Go struct A0Client (client_types.go, line 13), with its json-tagged fields and its encoding. -/
structure A0Client where
  TypeMeta : TypeMeta
  ObjectMeta : ObjectMeta
  Spec : A0ClientSpec
  Status : A0ClientStatus

def A0Client.fields (x : A0Client) : List FieldEnc :=
  TypeMeta.fields x.TypeMeta ++
  [FieldEnc.struct "metadata" true (ObjectMeta.toJSON x.ObjectMeta),
   FieldEnc.struct "spec" true (A0ClientSpec.toJSON x.Spec),
   FieldEnc.struct "status" true (A0ClientStatus.toJSON x.Status)]

def A0Client.toJSON (x : A0Client) : JSON :=
  marshalStruct (A0Client.fields x)

/-- Go struct A0ClientList (client_types.go, line 23), with its json-tagged fields and its encoding. -/
structure A0ClientList where
  TypeMeta : TypeMeta
  ListMeta : ListMeta
  Items : Option (List A0Client)

def A0ClientList.fields (x : A0ClientList) : List FieldEnc :=
  TypeMeta.fields x.TypeMeta ++
  [FieldEnc.struct "metadata" true (ListMeta.toJSON x.ListMeta),
   FieldEnc.slice "items" false A0Client.toJSON x.Items]

def A0ClientList.toJSON (x : A0ClientList) : JSON :=
  marshalStruct (A0ClientList.fields x)

/-- Go struct ConnectionFind (connection_types.go, line 65), with its json-tagged fields and its encoding. -/
structure ConnectionFind where
  ConnectionId : Option String

def ConnectionFind.fields (x : ConnectionFind) : List FieldEnc :=
  [FieldEnc.ptr "id" true JSON.str x.ConnectionId]

def ConnectionFind.toJSON (x : ConnectionFind) : JSON :=
  marshalStruct (ConnectionFind.fields x)

/-- Go struct ConnectionConf (connection_types.go, line 72), with its json-tagged fields and its encoding. -/
structure ConnectionConf where
  Name : Option String
  DisplayName : Option String
  Strategy : Option String
  Options : Option RawExtension
  ProvisioningTicketUrl : Option String
  Metadata : Option RawExtension
  Realms : Option (List String)
  ShowAsButton : Option Bool
  IsDomainConnection : Option Bool

def ConnectionConf.fields (x : ConnectionConf) : List FieldEnc :=
  [FieldEnc.ptr "name" true JSON.str x.Name,
   FieldEnc.ptr "display_name" true JSON.str x.DisplayName,
   FieldEnc.ptr "strategy" true JSON.str x.Strategy,
   FieldEnc.ptr "options" true RawExtension.toJSON x.Options,
   FieldEnc.ptr "provisioning_ticket_url" true JSON.str x.ProvisioningTicketUrl,
   FieldEnc.ptr "metadata" true RawExtension.toJSON x.Metadata,
   FieldEnc.slice "realms" true JSON.str x.Realms,
   FieldEnc.ptr "show_as_button" true JSON.bool x.ShowAsButton,
   FieldEnc.ptr "is_domain_connection" true JSON.bool x.IsDomainConnection]

def ConnectionConf.toJSON (x : ConnectionConf) : JSON :=
  marshalStruct (ConnectionConf.fields x)

/-- Go struct A0ConnectionSpec (connection_types.go, line 30), with its json-tagged fields and its encoding. -/
structure A0ConnectionSpec where
  Policy : Option (List V1EntityPolicyType)
  TenantRef : Option V1TenantReference
  Find : Option ConnectionFind
  Init : Option ConnectionConf
  Conf : Option ConnectionConf

def A0ConnectionSpec.fields (x : A0ConnectionSpec) : List FieldEnc :=
  [FieldEnc.slice "policy" true JSON.str x.Policy,
   FieldEnc.ptr "tenantRef" false V1TenantReference.toJSON x.TenantRef,
   FieldEnc.ptr "find" true ConnectionFind.toJSON x.Find,
   FieldEnc.ptr "init" true ConnectionConf.toJSON x.Init,
   FieldEnc.ptr "conf" false ConnectionConf.toJSON x.Conf]

def A0ConnectionSpec.toJSON (x : A0ConnectionSpec) : JSON :=
  marshalStruct (A0ConnectionSpec.fields x)

/-- Go struct A0ConnectionStatus (connection_types.go, line 53), with its json-tagged fields and its encoding. -/
structure A0ConnectionStatus where
  Id : Option String
  LastConf : Option RawExtension

def A0ConnectionStatus.fields (x : A0ConnectionStatus) : List FieldEnc :=
  [FieldEnc.ptr "id" true JSON.str x.Id,
   FieldEnc.ptr "lastConf" true RawExtension.toJSON x.LastConf]

def A0ConnectionStatus.toJSON (x : A0ConnectionStatus) : JSON :=
  marshalStruct (A0ConnectionStatus.fields x)

/-- Go struct A0Connection (connection_types.go, line 13), with its json-tagged fields and its encoding. -/
structure A0Connection where
  TypeMeta : TypeMeta
  ObjectMeta : ObjectMeta
  Spec : A0ConnectionSpec
  Status : A0ConnectionStatus

def A0Connection.fields (x : A0Connection) : List FieldEnc :=
  TypeMeta.fields x.TypeMeta ++
  [FieldEnc.struct "metadata" true (ObjectMeta.toJSON x.ObjectMeta),
   FieldEnc.struct "spec" true (A0ConnectionSpec.toJSON x.Spec),
   FieldEnc.struct "status" true (A0ConnectionStatus.toJSON x.Status)]

def A0Connection.toJSON (x : A0Connection) : JSON :=
  marshalStruct (A0Connection.fields x)

/-- Go struct A0ConnectionList (connection_types.go, line 23), with its json-tagged fields and its encoding. -/
structure A0ConnectionList where
  TypeMeta : TypeMeta
  ListMeta : ListMeta
  Items : Option (List A0Connection)

def A0ConnectionList.fields (x : A0ConnectionList) : List FieldEnc :=
  TypeMeta.fields x.TypeMeta ++
  [FieldEnc.struct "metadata" true (ListMeta.toJSON x.ListMeta),
   FieldEnc.slice "items" false A0Connection.toJSON x.Items]

def A0ConnectionList.toJSON (x : A0ConnectionList) : JSON :=
  marshalStruct (A0ConnectionList.fields x)

/-- Go struct ResourceServerScope (resourceserver_types.go, line 146), with its json-tagged fields and its encoding. -/
structure ResourceServerScope where
  Value : Option String
  Description : Option String

def ResourceServerScope.fields (x : ResourceServerScope) : List FieldEnc :=
  [FieldEnc.ptr "value" true JSON.str x.Value,
   FieldEnc.ptr "description" true JSON.str x.Description]

def ResourceServerScope.toJSON (x : ResourceServerScope) : JSON :=
  marshalStruct (ResourceServerScope.fields x)

/-- Go struct ResourceServerAuthorizationDetail (resourceserver_types.go, line 157), with its json-tagged fields and its encoding. -/
structure ResourceServerAuthorizationDetail where
  Type_ : Option String

def ResourceServerAuthorizationDetail.fields (x : ResourceServerAuthorizationDetail) : List FieldEnc :=
  [FieldEnc.ptr "type" true JSON.str x.Type_]

def ResourceServerAuthorizationDetail.toJSON (x : ResourceServerAuthorizationDetail) : JSON :=
  marshalStruct (ResourceServerAuthorizationDetail.fields x)

/-- Go struct TokenEncryptionKey (resourceserver_types.go, line 176), with its json-tagged fields and its encoding. -/
structure TokenEncryptionKey where
  Name : Option String
  Algorithm : Option String
  KeyId : Option String
  Pem : Option String

def TokenEncryptionKey.fields (x : TokenEncryptionKey) : List FieldEnc :=
  [FieldEnc.ptr "name" true JSON.str x.Name,
   FieldEnc.ptr "alg" true JSON.str x.Algorithm,
   FieldEnc.ptr "kid" true JSON.str x.KeyId,
   FieldEnc.ptr "pem" true JSON.str x.Pem]

def TokenEncryptionKey.toJSON (x : TokenEncryptionKey) : JSON :=
  marshalStruct (TokenEncryptionKey.fields x)

/-- Go struct TokenEncryption (resourceserver_types.go, line 164), with its json-tagged fields and its encoding. -/
structure TokenEncryption where
  EncryptionKey : Option TokenEncryptionKey
  Format : Option String

def TokenEncryption.fields (x : TokenEncryption) : List FieldEnc :=
  [FieldEnc.ptr "encryption_key" true TokenEncryptionKey.toJSON x.EncryptionKey,
   FieldEnc.ptr "format" true JSON.str x.Format]

def TokenEncryption.toJSON (x : TokenEncryption) : JSON :=
  marshalStruct (TokenEncryption.fields x)

/-- Go struct ProofOfPossession (resourceserver_types.go, line 195), with its json-tagged fields and its encoding. -/
structure ProofOfPossession where
  Mechanism : Option String
  Required : Option Bool

def ProofOfPossession.fields (x : ProofOfPossession) : List FieldEnc :=
  [FieldEnc.ptr "mechanism" true JSON.str x.Mechanism,
   FieldEnc.ptr "required" true JSON.bool x.Required]

def ProofOfPossession.toJSON (x : ProofOfPossession) : JSON :=
  marshalStruct (ProofOfPossession.fields x)

/-- Go struct ResourceServerConf (resourceserver_types.go, line 65), with its json-tagged fields and its encoding. -/
structure ResourceServerConf where
  Id : Option String
  Identifier : Option String
  Name : Option String
  Scopes : Option (List ResourceServerScope)
  SigningAlgorithm : Option String
  SigningSecret : Option String
  AllowOfflineAccess : Option Bool
  TokenLifetime : Option Int
  TokenLifetimeForWeb : Option Int
  SkipConsentForVerifiableFirstPartyClients : Option Bool
  VerificationLocation : Option String
  Options : Option RawExtension
  EnforcePolicy : Option Bool
  TokenDialect : Option String
  ConsentPolicy : Option String
  AuthorizationDetails : Option (List ResourceServerAuthorizationDetail)
  TokenEncryption : Option TokenEncryption
  ProofOfPossession : Option ProofOfPossession

def ResourceServerConf.fields (x : ResourceServerConf) : List FieldEnc :=
  [FieldEnc.ptr "id" true JSON.str x.Id,
   FieldEnc.ptr "identifier" true JSON.str x.Identifier,
   FieldEnc.ptr "name" true JSON.str x.Name,
   FieldEnc.slice "scopes" true ResourceServerScope.toJSON x.Scopes,
   FieldEnc.ptr "signing_alg" true JSON.str x.SigningAlgorithm,
   FieldEnc.ptr "signing_secret" true JSON.str x.SigningSecret,
   FieldEnc.ptr "allow_offline_access" true JSON.bool x.AllowOfflineAccess,
   FieldEnc.ptr "token_lifetime" true JSON.num x.TokenLifetime,
   FieldEnc.ptr "token_lifetime_for_web" true JSON.num x.TokenLifetimeForWeb,
   FieldEnc.ptr "skip_consent_for_verifiable_first_party_clients" true JSON.bool x.SkipConsentForVerifiableFirstPartyClients,
   FieldEnc.ptr "verification_location" true JSON.str x.VerificationLocation,
   FieldEnc.ptr "options" true RawExtension.toJSON x.Options,
   FieldEnc.ptr "enforce_policies" true JSON.bool x.EnforcePolicy,
   FieldEnc.ptr "token_dialect" true JSON.str x.TokenDialect,
   FieldEnc.ptr "consent_policy" true JSON.str x.ConsentPolicy,
   FieldEnc.slice "authorization_details" true ResourceServerAuthorizationDetail.toJSON x.AuthorizationDetails,
   FieldEnc.ptr "token_encryption" true TokenEncryption.toJSON x.TokenEncryption,
   FieldEnc.ptr "proof_of_possession" true ProofOfPossession.toJSON x.ProofOfPossession]

def ResourceServerConf.toJSON (x : ResourceServerConf) : JSON :=
  marshalStruct (ResourceServerConf.fields x)

/-- Go struct A0ResourceServerSpec (resourceserver_types.go, line 30), with its json-tagged fields and its encoding. -/
structure A0ResourceServerSpec where
  Policy : Option (List V1EntityPolicyType)
  TenantRef : Option V1TenantReference
  Init : Option ResourceServerConf
  Conf : Option ResourceServerConf

def A0ResourceServerSpec.fields (x : A0ResourceServerSpec) : List FieldEnc :=
  [FieldEnc.slice "policy" true JSON.str x.Policy,
   FieldEnc.ptr "tenantRef" false V1TenantReference.toJSON x.TenantRef,
   FieldEnc.ptr "init" true ResourceServerConf.toJSON x.Init,
   FieldEnc.ptr "conf" false ResourceServerConf.toJSON x.Conf]

def A0ResourceServerSpec.toJSON (x : A0ResourceServerSpec) : JSON :=
  marshalStruct (A0ResourceServerSpec.fields x)

/-- Go struct A0ResourceServerStatus (resourceserver_types.go, line 49), with its json-tagged fields and its encoding. -/
structure A0ResourceServerStatus where
  Id : Option String
  Identifier : Option String
  LastConf : Option RawExtension

def A0ResourceServerStatus.fields (x : A0ResourceServerStatus) : List FieldEnc :=
  [FieldEnc.ptr "id" true JSON.str x.Id,
   FieldEnc.ptr "identifier" true JSON.str x.Identifier,
   FieldEnc.ptr "lastConf" true RawExtension.toJSON x.LastConf]

def A0ResourceServerStatus.toJSON (x : A0ResourceServerStatus) : JSON :=
  marshalStruct (A0ResourceServerStatus.fields x)

/-- Go struct A0ResourceServer (resourceserver_types.go, line 13), with its json-tagged fields and its encoding. -/
structure A0ResourceServer where
  TypeMeta : TypeMeta
  ObjectMeta : ObjectMeta
  Spec : A0ResourceServerSpec
  Status : A0ResourceServerStatus

def A0ResourceServer.fields (x : A0ResourceServer) : List FieldEnc :=
  TypeMeta.fields x.TypeMeta ++
  [FieldEnc.struct "metadata" true (ObjectMeta.toJSON x.ObjectMeta),
   FieldEnc.struct "spec" true (A0ResourceServerSpec.toJSON x.Spec),
   FieldEnc.struct "status" true (A0ResourceServerStatus.toJSON x.Status)]

def A0ResourceServer.toJSON (x : A0ResourceServer) : JSON :=
  marshalStruct (A0ResourceServer.fields x)

/-- Go struct A0ResourceServerList (resourceserver_types.go, line 23), with its json-tagged fields and its encoding. -/
structure A0ResourceServerList where
  TypeMeta : TypeMeta
  ListMeta : ListMeta
  Items : Option (List A0ResourceServer)

def A0ResourceServerList.fields (x : A0ResourceServerList) : List FieldEnc :=
  TypeMeta.fields x.TypeMeta ++
  [FieldEnc.struct "metadata" true (ListMeta.toJSON x.ListMeta),
   FieldEnc.slice "items" false A0ResourceServer.toJSON x.Items]

def A0ResourceServerList.toJSON (x : A0ResourceServerList) : JSON :=
  marshalStruct (A0ResourceServerList.fields x)

/-- Go struct TenantAuth (tenant_types.go, line 61), with its json-tagged fields and its encoding. -/
structure TenantAuth where
  Domain : Option String
  SecretRef : Option V1SecretReference

def TenantAuth.fields (x : TenantAuth) : List FieldEnc :=
  [FieldEnc.ptr "domain" false JSON.str x.Domain,
   FieldEnc.ptr "secretRef" false V1SecretReference.toJSON x.SecretRef]

def TenantAuth.toJSON (x : TenantAuth) : JSON :=
  marshalStruct (TenantAuth.fields x)

/-- Go struct TenantChangePassword (tenant_types.go, line 151), with its json-tagged fields and its encoding. -/
structure TenantChangePassword where
  Enabled : Option Bool
  Html : Option String

def TenantChangePassword.fields (x : TenantChangePassword) : List FieldEnc :=
  [FieldEnc.ptr "enabled" true JSON.bool x.Enabled,
   FieldEnc.ptr "html" true JSON.str x.Html]

def TenantChangePassword.toJSON (x : TenantChangePassword) : JSON :=
  marshalStruct (TenantChangePassword.fields x)

/-- Go struct TenantGuardianMfaPage (tenant_types.go, line 162), with its json-tagged fields and its encoding. -/
structure TenantGuardianMfaPage where
  Enabled : Option Bool
  Html : Option String

def TenantGuardianMfaPage.fields (x : TenantGuardianMfaPage) : List FieldEnc :=
  [FieldEnc.ptr "enabled" true JSON.bool x.Enabled,
   FieldEnc.ptr "html" true JSON.str x.Html]

def TenantGuardianMfaPage.toJSON (x : TenantGuardianMfaPage) : JSON :=
  marshalStruct (TenantGuardianMfaPage.fields x)

/-- Go struct TenantErrorPage (tenant_types.go, line 173), with its json-tagged fields and its encoding. -/
structure TenantErrorPage where
  Html : Option String
  ShowLogLink : Option Bool
  Url : Option String

def TenantErrorPage.fields (x : TenantErrorPage) : List FieldEnc :=
  [FieldEnc.ptr "html" true JSON.str x.Html,
   FieldEnc.ptr "show_log_link" true JSON.bool x.ShowLogLink,
   FieldEnc.ptr "url" true JSON.str x.Url]

def TenantErrorPage.toJSON (x : TenantErrorPage) : JSON :=
  marshalStruct (TenantErrorPage.fields x)

/-- Go struct TenantDeviceFlow (tenant_types.go, line 188), with its json-tagged fields and its encoding. -/
structure TenantDeviceFlow where
  Charset : Option String
  Mask : Option String

def TenantDeviceFlow.fields (x : TenantDeviceFlow) : List FieldEnc :=
  [FieldEnc.ptr "charset" true JSON.str x.Charset,
   FieldEnc.ptr "mask" true JSON.str x.Mask]

def TenantDeviceFlow.toJSON (x : TenantDeviceFlow) : JSON :=
  marshalStruct (TenantDeviceFlow.fields x)

/-- Go struct TenantFlags (tenant_types.go, line 200), with its json-tagged fields and its encoding. -/
structure TenantFlags where
  ChangePasswordFlowV1 : Option Bool
  EnableClientConnections : Option Bool
  EnableApisSection : Option Bool
  EnablePipelineV2 : Option Bool
  EnableDynamicClientRegistration : Option Bool
  EnableCustomDomainInEmails : Option Bool
  UniversalLogin : Option Bool
  EnableLegacyLogsSearchV2 : Option Bool
  DisableClickjackProtectionHeaders : Option Bool
  EnablePublicSignupUserExistsError : Option Bool
  UseScope : Option String
  AllowLegacyDelegationGrantTypes : Option Bool
  AllowLegacyROGrantTypes : Option Bool
  AllowLegacyTokenInfoEndpoint : Option Bool
  EnableLegacyProfile : Option Bool
  EnableIdTokenAPI : Option Bool
  EnableIdTokenImplicitGrant : Option Bool

def TenantFlags.fields (x : TenantFlags) : List FieldEnc :=
  [FieldEnc.ptr "change_pwd_flow_v1" true JSON.bool x.ChangePasswordFlowV1,
   FieldEnc.ptr "enable_client_connections" true JSON.bool x.EnableClientConnections,
   FieldEnc.ptr "enable_apis_section" true JSON.bool x.EnableApisSection,
   FieldEnc.ptr "enable_pipeline2" true JSON.bool x.EnablePipelineV2,
   FieldEnc.ptr "enable_dynamic_client_registration" true JSON.bool x.EnableDynamicClientRegistration,
   FieldEnc.ptr "enable_custom_domain_in_emails" true JSON.bool x.EnableCustomDomainInEmails,
   FieldEnc.ptr "universal_login" true JSON.bool x.UniversalLogin,
   FieldEnc.ptr "enable_legacy_logs_search_v2" true JSON.bool x.EnableLegacyLogsSearchV2,
   FieldEnc.ptr "disable_clickjack_protection_headers" true JSON.bool x.DisableClickjackProtectionHeaders,
   FieldEnc.ptr "enable_public_signup_user_exists_error" true JSON.bool x.EnablePublicSignupUserExistsError,
   FieldEnc.ptr "use_scope" true JSON.str x.UseScope,
   FieldEnc.ptr "allow_legacy_delegation_grant_types" true JSON.bool x.AllowLegacyDelegationGrantTypes,
   FieldEnc.ptr "allow_legacy_ro_grant_types" true JSON.bool x.AllowLegacyROGrantTypes,
   FieldEnc.ptr "allow_legacy_tokeninfo_endpoint" true JSON.bool x.AllowLegacyTokenInfoEndpoint,
   FieldEnc.ptr "enable_legacy_profile" true JSON.bool x.EnableLegacyProfile,
   FieldEnc.ptr "enable_idtoken_api2" true JSON.bool x.EnableIdTokenAPI,
   FieldEnc.ptr "enable_impersonation" true JSON.bool x.EnableIdTokenImplicitGrant]

def TenantFlags.toJSON (x : TenantFlags) : JSON :=
  marshalStruct (TenantFlags.fields x)

/-- Go struct SessionCookie (tenant_types.go, line 271), with its json-tagged fields and its encoding. -/
structure SessionCookie where
  Mode : Option String

def SessionCookie.fields (x : SessionCookie) : List FieldEnc :=
  [FieldEnc.ptr "mode" true JSON.str x.Mode]

def SessionCookie.toJSON (x : SessionCookie) : JSON :=
  marshalStruct (SessionCookie.fields x)

/-- Go struct TenantConf (tenant_types.go, line 72), with its json-tagged fields and its encoding. -/
structure TenantConf where
  FriendlyName : Option String
  SupportEmail : Option String
  SupportUrl : Option String
  EnabledLocales : Option (List String)
  ChangePassword : Option TenantChangePassword
  GuardianMfaPage : Option TenantGuardianMfaPage
  DefaultAudience : Option String
  DefaultDirectory : Option String
  ErrorPage : Option TenantErrorPage
  DeviceFlow : Option TenantDeviceFlow
  Flags : Option TenantFlags
  SessionCookie : Option SessionCookie
  Sessions : Option RawExtension
  SandboxVersion : Option String
  IdleSessionLifetime : Option Int
  SessionLifetime : Option Int
  AllowedLogoutUrls : Option (List String)
  SessionCookieMode : Option String

def TenantConf.fields (x : TenantConf) : List FieldEnc :=
  [FieldEnc.ptr "friendly_name" true JSON.str x.FriendlyName,
   FieldEnc.ptr "support_email" true JSON.str x.SupportEmail,
   FieldEnc.ptr "support_url" true JSON.str x.SupportUrl,
   FieldEnc.slice "enabled_locales" true JSON.str x.EnabledLocales,
   FieldEnc.ptr "change_password" true TenantChangePassword.toJSON x.ChangePassword,
   FieldEnc.ptr "guardian_mfa_page" true TenantGuardianMfaPage.toJSON x.GuardianMfaPage,
   FieldEnc.ptr "default_audience" true JSON.str x.DefaultAudience,
   FieldEnc.ptr "default_directory" true JSON.str x.DefaultDirectory,
   FieldEnc.ptr "error_page" true TenantErrorPage.toJSON x.ErrorPage,
   FieldEnc.ptr "device_flow" true TenantDeviceFlow.toJSON x.DeviceFlow,
   FieldEnc.ptr "flags" true TenantFlags.toJSON x.Flags,
   FieldEnc.ptr "session_cookie" true SessionCookie.toJSON x.SessionCookie,
   FieldEnc.ptr "sessions" true RawExtension.toJSON x.Sessions,
   FieldEnc.ptr "sandbox_version" true JSON.str x.SandboxVersion,
   FieldEnc.ptr "idle_session_lifetime" true JSON.num x.IdleSessionLifetime,
   FieldEnc.ptr "session_lifetime" true JSON.num x.SessionLifetime,
   FieldEnc.slice "allowed_logout_urls" true JSON.str x.AllowedLogoutUrls,
   FieldEnc.ptr "session_cookie_mode" true JSON.str x.SessionCookieMode]

def TenantConf.toJSON (x : TenantConf) : JSON :=
  marshalStruct (TenantConf.fields x)

/-- Go struct A0TenantSpec (tenant_types.go, line 30), with its json-tagged fields and its encoding. -/
structure A0TenantSpec where
  Policy : Option (List V1EntityPolicyType)
  Name : String
  Auth : Option TenantAuth
  Init : Option TenantConf
  Conf : Option TenantConf

def A0TenantSpec.fields (x : A0TenantSpec) : List FieldEnc :=
  [FieldEnc.slice "policy" true JSON.str x.Policy,
   FieldEnc.string "name" false x.Name,
   FieldEnc.ptr "auth" false TenantAuth.toJSON x.Auth,
   FieldEnc.ptr "init" true TenantConf.toJSON x.Init,
   FieldEnc.ptr "conf" false TenantConf.toJSON x.Conf]

def A0TenantSpec.toJSON (x : A0TenantSpec) : JSON :=
  marshalStruct (A0TenantSpec.fields x)

/-- Go struct A0TenantStatus (tenant_types.go, line 53), with its json-tagged fields and its encoding. -/
structure A0TenantStatus where
  LastConf : Option RawExtension

def A0TenantStatus.fields (x : A0TenantStatus) : List FieldEnc :=
  [FieldEnc.ptr "lastConf" true RawExtension.toJSON x.LastConf]

def A0TenantStatus.toJSON (x : A0TenantStatus) : JSON :=
  marshalStruct (A0TenantStatus.fields x)

/-- Go struct A0Tenant (tenant_types.go, line 13), with its json-tagged fields and its encoding. -/
structure A0Tenant where
  TypeMeta : TypeMeta
  ObjectMeta : ObjectMeta
  Spec : A0TenantSpec
  Status : A0TenantStatus

def A0Tenant.fields (x : A0Tenant) : List FieldEnc :=
  TypeMeta.fields x.TypeMeta ++
  [FieldEnc.struct "metadata" true (ObjectMeta.toJSON x.ObjectMeta),
   FieldEnc.struct "spec" true (A0TenantSpec.toJSON x.Spec),
   FieldEnc.struct "status" true (A0TenantStatus.toJSON x.Status)]

def A0Tenant.toJSON (x : A0Tenant) : JSON :=
  marshalStruct (A0Tenant.fields x)

/-- Go struct A0TenantList (tenant_types.go, line 23), with its json-tagged fields and its encoding. -/
structure A0TenantList where
  TypeMeta : TypeMeta
  ListMeta : ListMeta
  Items : Option (List A0Tenant)

def A0TenantList.fields (x : A0TenantList) : List FieldEnc :=
  TypeMeta.fields x.TypeMeta ++
  [FieldEnc.struct "metadata" true (ListMeta.toJSON x.ListMeta),
   FieldEnc.slice "items" false A0Tenant.toJSON x.Items]

def A0TenantList.toJSON (x : A0TenantList) : JSON :=
  marshalStruct (A0TenantList.fields x)

/-! ## Declaration tables: tags and markers -/

/-- One field of a struct declaration as written in the source: the Go field name, the Go
type, the key of the json tag, the options after the key, and the `+` markers of the
comment above the field. -/
structure FieldDecl where
  goName : String
  goType : String
  jsonKey : String
  tagOptions : List String
  markers : List String

/-- A struct declaration: its name and its fields in order. -/
structure StructDecl where
  name : String
  fields : List FieldDecl

/-- The tag of the field says `omitempty`. -/
def FieldDecl.omitempty (f : FieldDecl) : Bool :=
  f.tagOptions.contains "omitempty"

/-- The field carries the marker `+kubebuilder:validation:Required`. -/
def FieldDecl.required (f : FieldDecl) : Bool :=
  f.markers.contains "kubebuilder:validation:Required"

/-- The field carries `+kubebuilder:validation:Optional` or `+optional`. -/
def FieldDecl.optional (f : FieldDecl) : Bool :=
  f.markers.contains "kubebuilder:validation:Optional" || f.markers.contains "optional"

/-- The json keys a struct declares, in order (an inlined field has no key of its own). -/
def StructDecl.jsonKeys (d : StructDecl) : List String :=
  (d.fields.filter fun f => !f.tagOptions.contains "inline").map FieldDecl.jsonKey

/-- The keys of the fields marked Required. -/
def StructDecl.requiredKeys (d : StructDecl) : List String :=
  (d.fields.filter FieldDecl.required).map FieldDecl.jsonKey

/-- The Required markers as the API server checks them on a submitted object: every
required key is present with a value other than null. -/
def StructDecl.admits (d : StructDecl) (j : JSON) : Bool :=
  match j with
  | .obj kvs => d.requiredKeys.all fun k =>
      match lookupKey k kvs with
      | some v => v != JSON.null
      | none => false
  | _ => false

/-- Declaration of V1TenantReference (common_types.go, line 17): Go field name, Go type, json key, tag options, markers. -/
def V1TenantReference.decl : StructDecl :=
  ⟨"V1TenantReference", [
    ⟨"Namespace", "*string", "namespace", ["omitempty"], ["optional"]⟩,
    ⟨"Name", "string", "name", [], ["kubebuilder:validation:Required"]⟩]⟩

/-- Declaration of V1SecretReference (common_types.go, line 29): Go field name, Go type, json key, tag options, markers. -/
def V1SecretReference.decl : StructDecl :=
  ⟨"V1SecretReference", [
    ⟨"Name", "string", "name", [], ["kubebuilder:validation:Required"]⟩,
    ⟨"Namespace", "string", "namespace", [], ["kubebuilder:validation:Required"]⟩]⟩

/-- Declaration of V1ConnectionReference (common_types.go, line 40): Go field name, Go type, json key, tag options, markers. -/
def V1ConnectionReference.decl : StructDecl :=
  ⟨"V1ConnectionReference", [
    ⟨"Namespace", "*string", "namespace", ["omitempty"], ["optional"]⟩,
    ⟨"Name", "*string", "name", ["omitempty"], ["optional"]⟩,
    ⟨"Id", "*string", "id", ["omitempty"], ["optional"]⟩]⟩

/-- Declaration of V1ResourceServerReference (common_types.go, line 56): Go field name, Go type, json key, tag options, markers. -/
def V1ResourceServerReference.decl : StructDecl :=
  ⟨"V1ResourceServerReference", [
    ⟨"Identifier", "*string", "identifier", ["omitempty"], ["optional"]⟩,
    ⟨"Scopes", "[]string", "scopes", ["omitempty"], ["optional"]⟩]⟩

/-- Declaration of A0ClientGrant (clientgrant_types.go, line 13): Go field name, Go type, json key, tag options, markers. -/
def A0ClientGrant.decl : StructDecl :=
  ⟨"A0ClientGrant", [
    ⟨"TypeMeta", "metav1.TypeMeta", "", ["inline"], []⟩,
    ⟨"ObjectMeta", "metav1.ObjectMeta", "metadata", ["omitempty"], []⟩,
    ⟨"Spec", "A0ClientGrantSpec", "spec", ["omitempty"], []⟩,
    ⟨"Status", "A0ClientGrantStatus", "status", ["omitempty"], []⟩]⟩

/-- Declaration of A0ClientGrantList (clientgrant_types.go, line 23): Go field name, Go type, json key, tag options, markers. -/
def A0ClientGrantList.decl : StructDecl :=
  ⟨"A0ClientGrantList", [
    ⟨"TypeMeta", "metav1.TypeMeta", "", ["inline"], []⟩,
    ⟨"ListMeta", "metav1.ListMeta", "metadata", ["omitempty"], []⟩,
    ⟨"Items", "[]A0ClientGrant", "items", [], []⟩]⟩

/-- Declaration of A0ClientGrantSpec (clientgrant_types.go, line 30): Go field name, Go type, json key, tag options, markers. -/
def A0ClientGrantSpec.decl : StructDecl :=
  ⟨"A0ClientGrantSpec", [
    ⟨"Policy", "[]V1EntityPolicyType", "policy", ["omitempty"], ["kubebuilder:validation:Optional"]⟩,
    ⟨"TenantRef", "*V1TenantReference", "tenantRef", [], ["kubebuilder:validation:Required"]⟩,
    ⟨"Init", "*ClientGrantConf", "init", ["omitempty"], ["kubebuilder:validation:Optional"]⟩,
    ⟨"Conf", "*ClientGrantConf", "conf", [], ["kubebuilder:validation:Required"]⟩]⟩

/-- Declaration of A0ClientGrantStatus (clientgrant_types.go, line 49): Go field name, Go type, json key, tag options, markers. -/
def A0ClientGrantStatus.decl : StructDecl :=
  ⟨"A0ClientGrantStatus", [
    ⟨"Id", "*string", "id", ["omitempty"], ["kubebuilder:validation:Optional"]⟩,
    ⟨"LastConf", "*runtime.RawExtension", "lastConf", ["omitempty"], ["kubebuilder:validation:Optional", "kubebuilder:pruning:PreserveUnknownFields"]⟩]⟩

/-- Declaration of ClientGrantConf (clientgrant_types.go, line 61): Go field name, Go type, json key, tag options, markers. -/
def ClientGrantConf.decl : StructDecl :=
  ⟨"ClientGrantConf", [
    ⟨"ClientRef", "*V1ClientReference", "clientRef", ["omitempty"], ["kubebuilder:validation:Optional"]⟩,
    ⟨"Audience", "*V1ResourceServerReference", "audience", ["omitempty"], ["kubebuilder:validation:Optional"]⟩,
    ⟨"Scope", "[]string", "scope", ["omitempty"], ["kubebuilder:validation:Optional"]⟩]⟩

/-- Declaration of V1ClientReference (clientgrant_types.go, line 76): Go field name, Go type, json key, tag options, markers. -/
def V1ClientReference.decl : StructDecl :=
  ⟨"V1ClientReference", [
    ⟨"Namespace", "*string", "namespace", ["omitempty"], ["optional"]⟩,
    ⟨"Name", "*string", "name", ["omitempty"], ["optional"]⟩,
    ⟨"Id", "*string", "id", ["omitempty"], ["optional"]⟩]⟩

/-- Declaration of A0Client (client_types.go, line 13): Go field name, Go type, json key, tag options, markers. -/
def A0Client.decl : StructDecl :=
  ⟨"A0Client", [
    ⟨"TypeMeta", "metav1.TypeMeta", "", ["inline"], []⟩,
    ⟨"ObjectMeta", "metav1.ObjectMeta", "metadata", ["omitempty"], []⟩,
    ⟨"Spec", "A0ClientSpec", "spec", ["omitempty"], []⟩,
    ⟨"Status", "A0ClientStatus", "status", ["omitempty"], []⟩]⟩

/-- Declaration of A0ClientList (client_types.go, line 23): Go field name, Go type, json key, tag options, markers. -/
def A0ClientList.decl : StructDecl :=
  ⟨"A0ClientList", [
    ⟨"TypeMeta", "metav1.TypeMeta", "", ["inline"], []⟩,
    ⟨"ListMeta", "metav1.ListMeta", "metadata", ["omitempty"], []⟩,
    ⟨"Items", "[]A0Client", "items", [], []⟩]⟩

/-- Declaration of A0ClientSpec (client_types.go, line 30): Go field name, Go type, json key, tag options, markers. -/
def A0ClientSpec.decl : StructDecl :=
  ⟨"A0ClientSpec", [
    ⟨"Policy", "[]V1EntityPolicyType", "policy", ["omitempty"], ["kubebuilder:validation:Optional"]⟩,
    ⟨"TenantRef", "*V1TenantReference", "tenantRef", [], ["kubebuilder:validation:Required"]⟩,
    ⟨"SecretRef", "*V1SecretReference", "secretRef", ["omitempty"], ["kubebuilder:validation:Optional"]⟩,
    ⟨"Find", "*ClientFind", "find", ["omitempty"], ["kubebuilder:validation:Optional"]⟩,
    ⟨"Init", "*ClientConf", "init", ["omitempty"], ["kubebuilder:validation:Optional"]⟩,
    ⟨"Conf", "*ClientConf", "conf", [], ["kubebuilder:validation:Required"]⟩]⟩

/-- Declaration of A0ClientStatus (client_types.go, line 57): Go field name, Go type, json key, tag options, markers. -/
def A0ClientStatus.decl : StructDecl :=
  ⟨"A0ClientStatus", [
    ⟨"Id", "*string", "id", ["omitempty"], ["kubebuilder:validation:Optional"]⟩,
    ⟨"LastConf", "*runtime.RawExtension", "lastConf", ["omitempty"], ["kubebuilder:validation:Optional", "kubebuilder:pruning:PreserveUnknownFields"]⟩]⟩

/-- Declaration of ClientFind (client_types.go, line 69): Go field name, Go type, json key, tag options, markers. -/
def ClientFind.decl : StructDecl :=
  ⟨"ClientFind", [
    ⟨"ClientId", "*string", "client_id", ["omitempty"], ["kubebuilder:validation:Optional"]⟩,
    ⟨"CallbackUrls", "[]string", "callback_urls", ["omitempty"], ["kubebuilder:validation:Optional"]⟩,
    ⟨"CallbackUrlMatchMode", "*string", "callback_url_match_mode", ["omitempty"], ["kubebuilder:validation:Optional"]⟩]⟩

/-- Declaration of ClientConf (client_types.go, line 84): Go field name, Go type, json key, tag options, markers. -/
def ClientConf.decl : StructDecl :=
  ⟨"ClientConf", [
    ⟨"SigningKeys", "[]SigningKey", "signing_keys", ["omitempty"], ["kubebuilder:validation:Optional"]⟩,
    ⟨"ApplicationType", "*string", "app_type", ["omitempty"], ["kubebuilder:validation:Optional", "kubebuilder:validation:Enum=box;cloudbees;concur;dropbox;echosign;egnyte;mscrm;native;newrelic;non_interactive;office365;regular_web;rms;salesforce;sentry;sharepoint;slack;springcm;spa;zendesk;zoom"]⟩,
    ⟨"TokenEndpointAuthMethod", "*string", "token_endpoint_auth_method", ["omitempty"], ["kubebuilder:validation:Optional", "kubebuilder:validation:Enum=none;client_secret_post;client_secret_basic"]⟩,
    ⟨"ClientAuthenticationMethods", "*ClientAuthenticationMethods", "client_authentication_methods", ["omitempty"], ["kubebuilder:validation:Optional"]⟩,
    ⟨"SignedRequestObject", "*SignedRequestObject", "signed_request_object", ["omitempty"], ["kubebuilder:validation:Optional"]⟩,
    ⟨"AddOns", "*runtime.RawExtension", "addons", ["omitempty"], ["kubebuilder:validation:Optional", "kubebuilder:pruning:PreserveUnknownFields"]⟩,
    ⟨"AllowedClients", "[]string", "allowed_clients", ["omitempty"], ["kubebuilder:validation:Optional"]⟩,
    ⟨"AllowedLogoutUrls", "[]string", "allowed_logout_urls", ["omitempty"], ["kubebuilder:validation:Optional"]⟩,
    ⟨"AllowedOrigins", "[]string", "allowed_origins", ["omitempty"], ["kubebuilder:validation:Optional"]⟩,
    ⟨"WebOrigins", "[]string", "web_origins", ["omitempty"], ["kubebuilder:validation:Optional"]⟩,
    ⟨"InitiateLoginUri", "*string", "initiate_login_uri", ["omitempty"], ["kubebuilder:validation:Optional"]⟩,
    ⟨"Callbacks", "[]string", "callbacks", ["omitempty"], ["kubebuilder:validation:Optional"]⟩,
    ⟨"ClientAliases", "[]string", "client_aliases", ["omitempty"], ["kubebuilder:validation:Optional"]⟩,
    ⟨"ClientMetadata", "*runtime.RawExtension", "client_metadata", ["omitempty"], ["kubebuilder:validation:Optional", "kubebuilder:pruning:PreserveUnknownFields"]⟩,
    ⟨"IsCustomLoginPageOn", "*bool", "custom_login_page_on", ["omitempty"], ["kubebuilder:validation:Optional"]⟩,
    ⟨"IsFirstParty", "*bool", "is_first_party", ["omitempty"], ["kubebuilder:validation:Optional"]⟩,
    ⟨"CustomLoginPage", "*string", "custom_login_page", ["omitempty"], ["kubebuilder:validation:Optional"]⟩,
    ⟨"CustomLoginPagePreview", "*string", "custom_login_page_preview", ["omitempty"], ["kubebuilder:validation:Optional"]⟩,
    ⟨"EncryptionKey", "*EncryptionKey", "encryption_key", ["omitempty"], ["kubebuilder:validation:Optional"]⟩,
    ⟨"FormTemplate", "*string", "form_template", ["omitempty"], ["kubebuilder:validation:Optional"]⟩,
    ⟨"GrantTypes", "[]string", "grant_types", ["omitempty"], ["kubebuilder:validation:Optional"]⟩,
    ⟨"JwtConfiguration", "*JwtConfiguration", "jwt_configuration", ["omitempty"], ["kubebuilder:validation:Optional"]⟩,
    ⟨"Mobile", "*Mobile", "mobile", ["omitempty"], ["kubebuilder:validation:Optional"]⟩,
    ⟨"Name", "*string", "name", ["omitempty"], ["kubebuilder:validation:Optional"]⟩,
    ⟨"Description", "*string", "description", ["omitempty"], ["kubebuilder:validation:Optional"]⟩,
    ⟨"LogoUri", "*string", "logo_uri", ["omitempty"], ["kubebuilder:validation:Optional"]⟩,
    ⟨"OidcConformant", "*bool", "oidc_conformant", ["omitempty"], ["kubebuilder:validation:Optional"]⟩,
    ⟨"OidcLogout", "*OidcLogoutConfig", "oidc_logout", ["omitempty"], ["kubebuilder:validation:Optional"]⟩,
    ⟨"ResourceServers", "[]ClientResourceServerAssociation", "resource_servers", ["omitempty"], ["kubebuilder:validation:Optional"]⟩,
    ⟨"Sso", "*bool", "sso", ["omitempty"], ["kubebuilder:validation:Optional"]⟩,
    ⟨"RefreshToken", "*RefreshToken", "refresh_token", ["omitempty"], ["kubebuilder:validation:Optional"]⟩,
    ⟨"OrganizationUsage", "*string", "organization_usage", ["omitempty"], ["kubebuilder:validation:Optional", "kubebuilder:validation:Enum=deny;allow;require"]⟩,
    ⟨"OrganizationRequireBehavior", "*string", "organization_require_behavior", ["omitempty"], ["kubebuilder:validation:Optional", "kubebuilder:validation:Enum=no_prompt;pre_login_prompt;post_login_prompt"]⟩,
    ⟨"CrossOriginAuthentication", "*bool", "cross_origin_authentication", ["omitempty"], ["kubebuilder:validation:Optional"]⟩,
    ⟨"RequirePushedAuthorizationRequests", "*bool", "require_pushed_authorization_requests", ["omitempty"], ["kubebuilder:validation:Optional"]⟩,
    ⟨"DefaultOrganization", "*DefaultOrganization", "default_organization", ["omitempty"], ["kubebuilder:validation:Optional"]⟩,
    ⟨"ComplianceLevel", "*string", "compliance_level", ["omitempty"], ["kubebuilder:validation:Optional", "kubebuilder:validation:Enum=none;fapi1_adv_pkj_par;fapi1_adv_mtls_par"]⟩,
    ⟨"RequireProofOfPossession", "*bool", "require_proof_of_possession", ["omitempty"], ["kubebuilder:validation:Optional"]⟩,
    ⟨"EnabledConnections", "[]V1ConnectionReference", "enabled_connections", ["omitempty"], ["kubebuilder:validation:Optional"]⟩]⟩

/-- Declaration of SigningKey (client_types.go, line 252): Go field name, Go type, json key, tag options, markers. -/
def SigningKey.decl : StructDecl :=
  ⟨"SigningKey", [
    ⟨"Cert", "*string", "cert", ["omitempty"], ["kubebuilder:validation:Optional"]⟩,
    ⟨"Key", "*string", "key", ["omitempty"], ["kubebuilder:validation:Optional"]⟩,
    ⟨"Pkcs7", "*string", "pkcs7", ["omitempty"], ["kubebuilder:validation:Optional"]⟩]⟩

/-- Declaration of ClientAuthenticationMethods (client_types.go, line 264): Go field name, Go type, json key, tag options, markers. -/
def ClientAuthenticationMethods.decl : StructDecl :=
  ⟨"ClientAuthenticationMethods", [
    ⟨"PrivateKeyJwt", "*PrivateKeyJwtDef", "private_key_jwt", ["omitempty"], ["kubebuilder:validation:Optional"]⟩,
    ⟨"TlsClientAuth", "*TlsClientAuthDef", "tls_client_auth", ["omitempty"], ["kubebuilder:validation:Optional"]⟩,
    ⟨"SelfSignedTlsClientAuth", "*SelfSignedTlsClientAuthDef", "self_signed_tls_client_auth", ["omitempty"], ["kubebuilder:validation:Optional"]⟩]⟩

/-- Declaration of CredentialIdDef (client_types.go, line 276): Go field name, Go type, json key, tag options, markers. -/
def CredentialIdDef.decl : StructDecl :=
  ⟨"CredentialIdDef", [
    ⟨"Id", "*string", "id", ["omitempty"], ["kubebuilder:validation:Optional"]⟩]⟩

/-- Declaration of PrivateKeyJwtDef (client_types.go, line 282): Go field name, Go type, json key, tag options, markers. -/
def PrivateKeyJwtDef.decl : StructDecl :=
  ⟨"PrivateKeyJwtDef", [
    ⟨"Credentials", "[]CredentialIdDef", "credentials", ["omitempty"], ["kubebuilder:validation:Optional"]⟩]⟩

/-- Declaration of TlsClientAuthDef (client_types.go, line 288): Go field name, Go type, json key, tag options, markers. -/
def TlsClientAuthDef.decl : StructDecl :=
  ⟨"TlsClientAuthDef", [
    ⟨"Credentials", "[]CredentialIdDef", "credentials", ["omitempty"], ["kubebuilder:validation:Optional"]⟩]⟩

/-- Declaration of SelfSignedTlsClientAuthDef (client_types.go, line 294): Go field name, Go type, json key, tag options, markers. -/
def SelfSignedTlsClientAuthDef.decl : StructDecl :=
  ⟨"SelfSignedTlsClientAuthDef", [
    ⟨"Credentials", "[]CredentialIdDef", "credentials", ["omitempty"], ["kubebuilder:validation:Optional"]⟩]⟩

/-- Declaration of SignedRequestObject (client_types.go, line 300): Go field name, Go type, json key, tag options, markers. -/
def SignedRequestObject.decl : StructDecl :=
  ⟨"SignedRequestObject", [
    ⟨"Required", "*bool", "required", ["omitempty"], ["kubebuilder:validation:Optional"]⟩,
    ⟨"Credentials", "[]CredentialIdDef", "credentials", ["omitempty"], ["kubebuilder:validation:Optional"]⟩]⟩

/-- Declaration of Mobile (client_types.go, line 310): Go field name, Go type, json key, tag options, markers. -/
def Mobile.decl : StructDecl :=
  ⟨"Mobile", [
    ⟨"Android", "*MobileAndroid", "android", ["omitempty"], ["kubebuilder:validation:Optional"]⟩,
    ⟨"Ios", "*MobileIos", "ios", ["omitempty"], ["kubebuilder:validation:Optional"]⟩]⟩

/-- Declaration of MobileAndroid (client_types.go, line 319): Go field name, Go type, json key, tag options, markers. -/
def MobileAndroid.decl : StructDecl :=
  ⟨"MobileAndroid", [
    ⟨"AppPackageName", "*string", "app_package_name", ["omitempty"], ["kubebuilder:validation:Optional"]⟩,
    ⟨"KeystoreHash", "*string", "keystore_hash", ["omitempty"], ["kubebuilder:validation:Optional"]⟩]⟩

/-- Declaration of MobileIos (client_types.go, line 328): Go field name, Go type, json key, tag options, markers. -/
def MobileIos.decl : StructDecl :=
  ⟨"MobileIos", [
    ⟨"AppBundleIdentifier", "*string", "app_bundle_identifier", ["omitempty"], ["kubebuilder:validation:Optional"]⟩,
    ⟨"TeamId", "*string", "team_id", ["omitempty"], ["kubebuilder:validation:Optional"]⟩]⟩

/-- Declaration of EncryptionKey (client_types.go, line 337): Go field name, Go type, json key, tag options, markers. -/
def EncryptionKey.decl : StructDecl :=
  ⟨"EncryptionKey", [
    ⟨"Certificate", "*string", "cert", ["omitempty"], ["kubebuilder:validation:Optional"]⟩,
    ⟨"PublicKey", "*string", "pub", ["omitempty"], ["kubebuilder:validation:Optional"]⟩,
    ⟨"Subject", "*string", "subject", ["omitempty"], ["kubebuilder:validation:Optional"]⟩]⟩

/-- Declaration of JwtConfiguration (client_types.go, line 349): Go field name, Go type, json key, tag options, markers. -/
def JwtConfiguration.decl : StructDecl :=
  ⟨"JwtConfiguration", [
    ⟨"IsSecretEncoded", "*bool", "secret_encoded", ["omitempty"], ["kubebuilder:validation:Optional"]⟩,
    ⟨"LifetimeInSeconds", "*int32", "lifetime_in_seconds", ["omitempty"], ["kubebuilder:validation:Optional"]⟩,
    ⟨"Scopes", "*Scopes", "scopes", ["omitempty"], ["kubebuilder:validation:Optional"]⟩,
    ⟨"SigningAlgorithm", "*string", "alg", ["omitempty"], ["kubebuilder:validation:Optional"]⟩]⟩

/-- Declaration of Scopes (client_types.go, line 364): Go field name, Go type, json key, tag options, markers. -/
def Scopes.decl : StructDecl :=
  ⟨"Scopes", [
    ⟨"Users", "*ScopeEntry", "users", ["omitempty"], ["kubebuilder:validation:Optional"]⟩,
    ⟨"UsersAppMetadata", "*ScopeEntry", "users_app_metadata", ["omitempty"], ["kubebuilder:validation:Optional"]⟩,
    ⟨"Clients", "*ScopeEntry", "clients", ["omitempty"], ["kubebuilder:validation:Optional"]⟩,
    ⟨"ClientKeys", "*ScopeEntry", "client_keys", ["omitempty"], ["kubebuilder:validation:Optional"]⟩,
    ⟨"Tokens", "*ScopeEntry", "tokens", ["omitempty"], ["kubebuilder:validation:Optional"]⟩,
    ⟨"Stats", "*ScopeEntry", "stats", ["omitempty"], ["kubebuilder:validation:Optional"]⟩]⟩

/-- Declaration of ScopeEntry (client_types.go, line 385): Go field name, Go type, json key, tag options, markers. -/
def ScopeEntry.decl : StructDecl :=
  ⟨"ScopeEntry", [
    ⟨"Actions", "[]string", "actions", ["omitempty"], ["kubebuilder:validation:Optional"]⟩]⟩

/-- Declaration of OidcLogoutConfig (client_types.go, line 391): Go field name, Go type, json key, tag options, markers. -/
def OidcLogoutConfig.decl : StructDecl :=
  ⟨"OidcLogoutConfig", [
    ⟨"BackchannelLogoutUrls", "[]string", "backchannel_logout_urls", ["omitempty"], ["kubebuilder:validation:Optional"]⟩,
    ⟨"BackchannelLogoutInitiators", "*BackchannelLogoutInitiators", "backchannel_logout_initiators", ["omitempty"], ["kubebuilder:validation:Optional"]⟩]⟩

/-- Declaration of BackchannelLogoutInitiators (client_types.go, line 400): Go field name, Go type, json key, tag options, markers. -/
def BackchannelLogoutInitiators.decl : StructDecl :=
  ⟨"BackchannelLogoutInitiators", [
    ⟨"Mode", "*string", "mode", ["omitempty"], ["kubebuilder:validation:Optional", "kubebuilder:validation:Enum=all;custom"]⟩,
    ⟨"SelectedInitiators", "[]string", "selected_initiators", ["omitempty"], ["kubebuilder:validation:Optional", "kubebuilder:validation:Enum=rp-logout;idp-logout;password-changed;session-expired"]⟩]⟩

/-- Declaration of RefreshToken (client_types.go, line 411): Go field name, Go type, json key, tag options, markers. -/
def RefreshToken.decl : StructDecl :=
  ⟨"RefreshToken", [
    ⟨"RotationType", "*string", "rotation_type", ["omitempty"], ["kubebuilder:validation:Optional", "kubebuilder:validation:Enum=rotating;non-rotating"]⟩,
    ⟨"ExpirationType", "*string", "expiration_type", ["omitempty"], ["kubebuilder:validation:Optional", "kubebuilder:validation:Enum=expiring;non-expiring"]⟩,
    ⟨"Leeway", "*int32", "leeway", ["omitempty"], ["kubebuilder:validation:Optional"]⟩,
    ⟨"TokenLifetime", "*int32", "token_lifetime", ["omitempty"], ["kubebuilder:validation:Optional"]⟩,
    ⟨"InfiniteTokenLifetime", "*bool", "infinite_token_lifetime", ["omitempty"], ["kubebuilder:validation:Optional"]⟩,
    ⟨"IdleTokenLifetime", "*int32", "idle_token_lifetime", ["omitempty"], ["kubebuilder:validation:Optional"]⟩,
    ⟨"InfiniteIdleTokenLifetime", "*bool", "infinite_idle_token_lifetime", ["omitempty"], ["kubebuilder:validation:Optional"]⟩]⟩

/-- Declaration of ClientResourceServerAssociation (client_types.go, line 437): Go field name, Go type, json key, tag options, markers. -/
def ClientResourceServerAssociation.decl : StructDecl :=
  ⟨"ClientResourceServerAssociation", [
    ⟨"Identifier", "*string", "identifier", ["omitempty"], ["kubebuilder:validation:Optional"]⟩,
    ⟨"Scopes", "[]string", "scopes", ["omitempty"], ["kubebuilder:validation:Optional"]⟩]⟩

/-- Declaration of DefaultOrganization (client_types.go, line 446): Go field name, Go type, json key, tag options, markers. -/
def DefaultOrganization.decl : StructDecl :=
  ⟨"DefaultOrganization", [
    ⟨"OrganizationId", "*string", "organization_id", ["omitempty"], ["kubebuilder:validation:Optional"]⟩,
    ⟨"Flows", "[]string", "flows", ["omitempty"], ["kubebuilder:validation:Optional", "kubebuilder:validation:Enum=client_credentials"]⟩]⟩

/-- Declaration of A0Connection (connection_types.go, line 13): Go field name, Go type, json key, tag options, markers. -/
def A0Connection.decl : StructDecl :=
  ⟨"A0Connection", [
    ⟨"TypeMeta", "metav1.TypeMeta", "", ["inline"], []⟩,
    ⟨"ObjectMeta", "metav1.ObjectMeta", "metadata", ["omitempty"], []⟩,
    ⟨"Spec", "A0ConnectionSpec", "spec", ["omitempty"], []⟩,
    ⟨"Status", "A0ConnectionStatus", "status", ["omitempty"], []⟩]⟩

/-- Declaration of A0ConnectionList (connection_types.go, line 23): Go field name, Go type, json key, tag options, markers. -/
def A0ConnectionList.decl : StructDecl :=
  ⟨"A0ConnectionList", [
    ⟨"TypeMeta", "metav1.TypeMeta", "", ["inline"], []⟩,
    ⟨"ListMeta", "metav1.ListMeta", "metadata", ["omitempty"], []⟩,
    ⟨"Items", "[]A0Connection", "items", [], []⟩]⟩

/-- Declaration of A0ConnectionSpec (connection_types.go, line 30): Go field name, Go type, json key, tag options, markers. -/
def A0ConnectionSpec.decl : StructDecl :=
  ⟨"A0ConnectionSpec", [
    ⟨"Policy", "[]V1EntityPolicyType", "policy", ["omitempty"], ["kubebuilder:validation:Optional"]⟩,
    ⟨"TenantRef", "*V1TenantReference", "tenantRef", [], ["kubebuilder:validation:Required"]⟩,
    ⟨"Find", "*ConnectionFind", "find", ["omitempty"], ["kubebuilder:validation:Optional"]⟩,
    ⟨"Init", "*ConnectionConf", "init", ["omitempty"], ["kubebuilder:validation:Optional"]⟩,
    ⟨"Conf", "*ConnectionConf", "conf", [], ["kubebuilder:validation:Required"]⟩]⟩

/-- Declaration of A0ConnectionStatus (connection_types.go, line 53): Go field name, Go type, json key, tag options, markers. -/
def A0ConnectionStatus.decl : StructDecl :=
  ⟨"A0ConnectionStatus", [
    ⟨"Id", "*string", "id", ["omitempty"], ["kubebuilder:validation:Optional"]⟩,
    ⟨"LastConf", "*runtime.RawExtension", "lastConf", ["omitempty"], ["kubebuilder:validation:Optional", "kubebuilder:pruning:PreserveUnknownFields"]⟩]⟩

/-- Declaration of ConnectionFind (connection_types.go, line 65): Go field name, Go type, json key, tag options, markers. -/
def ConnectionFind.decl : StructDecl :=
  ⟨"ConnectionFind", [
    ⟨"ConnectionId", "*string", "id", ["omitempty"], ["kubebuilder:validation:Optional"]⟩]⟩

/-- Declaration of ConnectionConf (connection_types.go, line 72): Go field name, Go type, json key, tag options, markers. -/
def ConnectionConf.decl : StructDecl :=
  ⟨"ConnectionConf", [
    ⟨"Name", "*string", "name", ["omitempty"], ["kubebuilder:validation:Optional"]⟩,
    ⟨"DisplayName", "*string", "display_name", ["omitempty"], ["kubebuilder:validation:Optional"]⟩,
    ⟨"Strategy", "*string", "strategy", ["omitempty"], ["kubebuilder:validation:Optional"]⟩,
    ⟨"Options", "*runtime.RawExtension", "options", ["omitempty"], ["kubebuilder:validation:Optional", "kubebuilder:pruning:PreserveUnknownFields"]⟩,
    ⟨"ProvisioningTicketUrl", "*string", "provisioning_ticket_url", ["omitempty"], ["kubebuilder:validation:Optional"]⟩,
    ⟨"Metadata", "*runtime.RawExtension", "metadata", ["omitempty"], ["kubebuilder:validation:Optional", "kubebuilder:pruning:PreserveUnknownFields"]⟩,
    ⟨"Realms", "[]string", "realms", ["omitempty"], ["kubebuilder:validation:Optional"]⟩,
    ⟨"ShowAsButton", "*bool", "show_as_button", ["omitempty"], ["kubebuilder:validation:Optional"]⟩,
    ⟨"IsDomainConnection", "*bool", "is_domain_connection", ["omitempty"], ["kubebuilder:validation:Optional", "kubebuilder:default:=false"]⟩]⟩

/-- Declaration of A0ResourceServer (resourceserver_types.go, line 13): Go field name, Go type, json key, tag options, markers. -/
def A0ResourceServer.decl : StructDecl :=
  ⟨"A0ResourceServer", [
    ⟨"TypeMeta", "metav1.TypeMeta", "", ["inline"], []⟩,
    ⟨"ObjectMeta", "metav1.ObjectMeta", "metadata", ["omitempty"], []⟩,
    ⟨"Spec", "A0ResourceServerSpec", "spec", ["omitempty"], []⟩,
    ⟨"Status", "A0ResourceServerStatus", "status", ["omitempty"], []⟩]⟩

/-- Declaration of A0ResourceServerList (resourceserver_types.go, line 23): Go field name, Go type, json key, tag options, markers. -/
def A0ResourceServerList.decl : StructDecl :=
  ⟨"A0ResourceServerList", [
    ⟨"TypeMeta", "metav1.TypeMeta", "", ["inline"], []⟩,
    ⟨"ListMeta", "metav1.ListMeta", "metadata", ["omitempty"], []⟩,
    ⟨"Items", "[]A0ResourceServer", "items", [], []⟩]⟩

/-- Declaration of A0ResourceServerSpec (resourceserver_types.go, line 30): Go field name, Go type, json key, tag options, markers. -/
def A0ResourceServerSpec.decl : StructDecl :=
  ⟨"A0ResourceServerSpec", [
    ⟨"Policy", "[]V1EntityPolicyType", "policy", ["omitempty"], ["kubebuilder:validation:Optional"]⟩,
    ⟨"TenantRef", "*V1TenantReference", "tenantRef", [], ["kubebuilder:validation:Required"]⟩,
    ⟨"Init", "*ResourceServerConf", "init", ["omitempty"], ["kubebuilder:validation:Optional"]⟩,
    ⟨"Conf", "*ResourceServerConf", "conf", [], ["kubebuilder:validation:Required"]⟩]⟩

/-- Declaration of A0ResourceServerStatus (resourceserver_types.go, line 49): Go field name, Go type, json key, tag options, markers. -/
def A0ResourceServerStatus.decl : StructDecl :=
  ⟨"A0ResourceServerStatus", [
    ⟨"Id", "*string", "id", ["omitempty"], ["kubebuilder:validation:Optional"]⟩,
    ⟨"Identifier", "*string", "identifier", ["omitempty"], ["kubebuilder:validation:Optional"]⟩,
    ⟨"LastConf", "*runtime.RawExtension", "lastConf", ["omitempty"], ["kubebuilder:validation:Optional", "kubebuilder:pruning:PreserveUnknownFields"]⟩]⟩

/-- Declaration of ResourceServerConf (resourceserver_types.go, line 65): Go field name, Go type, json key, tag options, markers. -/
def ResourceServerConf.decl : StructDecl :=
  ⟨"ResourceServerConf", [
    ⟨"Id", "*string", "id", ["omitempty"], ["kubebuilder:validation:Optional"]⟩,
    ⟨"Identifier", "*string", "identifier", ["omitempty"], ["kubebuilder:validation:Optional"]⟩,
    ⟨"Name", "*string", "name", ["omitempty"], ["kubebuilder:validation:Optional"]⟩,
    ⟨"Scopes", "[]ResourceServerScope", "scopes", ["omitempty"], ["kubebuilder:validation:Optional"]⟩,
    ⟨"SigningAlgorithm", "*string", "signing_alg", ["omitempty"], ["kubebuilder:validation:Optional", "kubebuilder:validation:Enum=HS256;RS256;PS256"]⟩,
    ⟨"SigningSecret", "*string", "signing_secret", ["omitempty"], ["kubebuilder:validation:Optional"]⟩,
    ⟨"AllowOfflineAccess", "*bool", "allow_offline_access", ["omitempty"], ["kubebuilder:validation:Optional"]⟩,
    ⟨"TokenLifetime", "*int32", "token_lifetime", ["omitempty"], ["kubebuilder:validation:Optional", "kubebuilder:validation:Minimum=1"]⟩,
    ⟨"TokenLifetimeForWeb", "*int32", "token_lifetime_for_web", ["omitempty"], ["kubebuilder:validation:Optional", "kubebuilder:validation:Minimum=1"]⟩,
    ⟨"SkipConsentForVerifiableFirstPartyClients", "*bool", "skip_consent_for_verifiable_first_party_clients", ["omitempty"], ["kubebuilder:validation:Optional"]⟩,
    ⟨"VerificationLocation", "*string", "verification_location", ["omitempty"], ["kubebuilder:validation:Optional"]⟩,
    ⟨"Options", "*runtime.RawExtension", "options", ["omitempty"], ["kubebuilder:validation:Optional", "kubebuilder:pruning:PreserveUnknownFields"]⟩,
    ⟨"EnforcePolicy", "*bool", "enforce_policies", ["omitempty"], ["kubebuilder:validation:Optional"]⟩,
    ⟨"TokenDialect", "*string", "token_dialect", ["omitempty"], ["kubebuilder:validation:Optional", "kubebuilder:validation:Enum=access_token;access_token_authz"]⟩,
    ⟨"ConsentPolicy", "*string", "consent_policy", ["omitempty"], ["kubebuilder:validation:Optional", "kubebuilder:validation:Enum=null;transactional-authorization-with-mfa"]⟩,
    ⟨"AuthorizationDetails", "[]ResourceServerAuthorizationDetail", "authorization_details", ["omitempty"], ["kubebuilder:validation:Optional"]⟩,
    ⟨"TokenEncryption", "*TokenEncryption", "token_encryption", ["omitempty"], ["kubebuilder:validation:Optional"]⟩,
    ⟨"ProofOfPossession", "*ProofOfPossession", "proof_of_possession", ["omitempty"], ["kubebuilder:validation:Optional"]⟩]⟩

/-- Declaration of ResourceServerScope (resourceserver_types.go, line 146): Go field name, Go type, json key, tag options, markers. -/
def ResourceServerScope.decl : StructDecl :=
  ⟨"ResourceServerScope", [
    ⟨"Value", "*string", "value", ["omitempty"], ["kubebuilder:validation:Optional"]⟩,
    ⟨"Description", "*string", "description", ["omitempty"], ["kubebuilder:validation:Optional"]⟩]⟩

/-- Declaration of ResourceServerAuthorizationDetail (resourceserver_types.go, line 157): Go field name, Go type, json key, tag options, markers. -/
def ResourceServerAuthorizationDetail.decl : StructDecl :=
  ⟨"ResourceServerAuthorizationDetail", [
    ⟨"Type", "*string", "type", ["omitempty"], ["kubebuilder:validation:Optional"]⟩]⟩

/-- Declaration of TokenEncryption (resourceserver_types.go, line 164): Go field name, Go type, json key, tag options, markers. -/
def TokenEncryption.decl : StructDecl :=
  ⟨"TokenEncryption", [
    ⟨"EncryptionKey", "*TokenEncryptionKey", "encryption_key", ["omitempty"], ["kubebuilder:validation:Optional"]⟩,
    ⟨"Format", "*string", "format", ["omitempty"], ["kubebuilder:validation:Optional", "kubebuilder:validation:Enum=compact-nested-jwe"]⟩]⟩

/-- Declaration of TokenEncryptionKey (resourceserver_types.go, line 176): Go field name, Go type, json key, tag options, markers. -/
def TokenEncryptionKey.decl : StructDecl :=
  ⟨"TokenEncryptionKey", [
    ⟨"Name", "*string", "name", ["omitempty"], ["kubebuilder:validation:Optional"]⟩,
    ⟨"Algorithm", "*string", "alg", ["omitempty"], ["kubebuilder:validation:Optional"]⟩,
    ⟨"KeyId", "*string", "kid", ["omitempty"], ["kubebuilder:validation:Optional"]⟩,
    ⟨"Pem", "*string", "pem", ["omitempty"], ["kubebuilder:validation:Optional"]⟩]⟩

/-- Declaration of ProofOfPossession (resourceserver_types.go, line 195): Go field name, Go type, json key, tag options, markers. -/
def ProofOfPossession.decl : StructDecl :=
  ⟨"ProofOfPossession", [
    ⟨"Mechanism", "*string", "mechanism", ["omitempty"], ["kubebuilder:validation:Optional", "kubebuilder:validation:Enum=mtls"]⟩,
    ⟨"Required", "*bool", "required", ["omitempty"], ["kubebuilder:validation:Optional"]⟩]⟩

/-- Declaration of A0Tenant (tenant_types.go, line 13): Go field name, Go type, json key, tag options, markers. -/
def A0Tenant.decl : StructDecl :=
  ⟨"A0Tenant", [
    ⟨"TypeMeta", "metav1.TypeMeta", "", ["inline"], []⟩,
    ⟨"ObjectMeta", "metav1.ObjectMeta", "metadata", ["omitempty"], []⟩,
    ⟨"Spec", "A0TenantSpec", "spec", ["omitempty"], []⟩,
    ⟨"Status", "A0TenantStatus", "status", ["omitempty"], []⟩]⟩

/-- Declaration of A0TenantList (tenant_types.go, line 23): Go field name, Go type, json key, tag options, markers. -/
def A0TenantList.decl : StructDecl :=
  ⟨"A0TenantList", [
    ⟨"TypeMeta", "metav1.TypeMeta", "", ["inline"], []⟩,
    ⟨"ListMeta", "metav1.ListMeta", "metadata", ["omitempty"], []⟩,
    ⟨"Items", "[]A0Tenant", "items", [], []⟩]⟩

/-- Declaration of A0TenantSpec (tenant_types.go, line 30): Go field name, Go type, json key, tag options, markers. -/
def A0TenantSpec.decl : StructDecl :=
  ⟨"A0TenantSpec", [
    ⟨"Policy", "[]V1EntityPolicyType", "policy", ["omitempty"], ["kubebuilder:validation:Optional"]⟩,
    ⟨"Name", "string", "name", [], ["kubebuilder:validation:Required"]⟩,
    ⟨"Auth", "*TenantAuth", "auth", [], ["kubebuilder:validation:Required"]⟩,
    ⟨"Init", "*TenantConf", "init", ["omitempty"], ["kubebuilder:validation:Optional"]⟩,
    ⟨"Conf", "*TenantConf", "conf", [], ["kubebuilder:validation:Required"]⟩]⟩

/-- Declaration of A0TenantStatus (tenant_types.go, line 53): Go field name, Go type, json key, tag options, markers. -/
def A0TenantStatus.decl : StructDecl :=
  ⟨"A0TenantStatus", [
    ⟨"LastConf", "*runtime.RawExtension", "lastConf", ["omitempty"], ["kubebuilder:validation:Optional", "kubebuilder:pruning:PreserveUnknownFields"]⟩]⟩

/-- Declaration of TenantAuth (tenant_types.go, line 61): Go field name, Go type, json key, tag options, markers. -/
def TenantAuth.decl : StructDecl :=
  ⟨"TenantAuth", [
    ⟨"Domain", "*string", "domain", [], ["kubebuilder:validation:Required"]⟩,
    ⟨"SecretRef", "*V1SecretReference", "secretRef", [], ["kubebuilder:validation:Required"]⟩]⟩

/-- Declaration of TenantConf (tenant_types.go, line 72): Go field name, Go type, json key, tag options, markers. -/
def TenantConf.decl : StructDecl :=
  ⟨"TenantConf", [
    ⟨"FriendlyName", "*string", "friendly_name", ["omitempty"], ["kubebuilder:validation:Optional"]⟩,
    ⟨"SupportEmail", "*string", "support_email", ["omitempty"], ["kubebuilder:validation:Optional"]⟩,
    ⟨"SupportUrl", "*string", "support_url", ["omitempty"], ["kubebuilder:validation:Optional"]⟩,
    ⟨"EnabledLocales", "[]string", "enabled_locales", ["omitempty"], ["kubebuilder:validation:Optional"]⟩,
    ⟨"ChangePassword", "*TenantChangePassword", "change_password", ["omitempty"], ["kubebuilder:validation:Optional"]⟩,
    ⟨"GuardianMfaPage", "*TenantGuardianMfaPage", "guardian_mfa_page", ["omitempty"], ["kubebuilder:validation:Optional"]⟩,
    ⟨"DefaultAudience", "*string", "default_audience", ["omitempty"], ["kubebuilder:validation:Optional"]⟩,
    ⟨"DefaultDirectory", "*string", "default_directory", ["omitempty"], ["kubebuilder:validation:Optional"]⟩,
    ⟨"ErrorPage", "*TenantErrorPage", "error_page", ["omitempty"], ["kubebuilder:validation:Optional"]⟩,
    ⟨"DeviceFlow", "*TenantDeviceFlow", "device_flow", ["omitempty"], ["kubebuilder:validation:Optional"]⟩,
    ⟨"Flags", "*TenantFlags", "flags", ["omitempty"], ["kubebuilder:validation:Optional"]⟩,
    ⟨"SessionCookie", "*SessionCookie", "session_cookie", ["omitempty"], ["kubebuilder:validation:Optional"]⟩,
    ⟨"Sessions", "*runtime.RawExtension", "sessions", ["omitempty"], ["kubebuilder:validation:Optional", "kubebuilder:pruning:PreserveUnknownFields"]⟩,
    ⟨"SandboxVersion", "*string", "sandbox_version", ["omitempty"], ["kubebuilder:validation:Optional"]⟩,
    ⟨"IdleSessionLifetime", "*int32", "idle_session_lifetime", ["omitempty"], ["kubebuilder:validation:Optional", "kubebuilder:validation:Minimum=1"]⟩,
    ⟨"SessionLifetime", "*int32", "session_lifetime", ["omitempty"], ["kubebuilder:validation:Optional", "kubebuilder:validation:Minimum=1"]⟩,
    ⟨"AllowedLogoutUrls", "[]string", "allowed_logout_urls", ["omitempty"], ["kubebuilder:validation:Optional"]⟩,
    ⟨"SessionCookieMode", "*string", "session_cookie_mode", ["omitempty"], ["kubebuilder:validation:Optional", "kubebuilder:validation:Enum=persistent;non-persistent"]⟩]⟩

/-- Declaration of TenantChangePassword (tenant_types.go, line 151): Go field name, Go type, json key, tag options, markers. -/
def TenantChangePassword.decl : StructDecl :=
  ⟨"TenantChangePassword", [
    ⟨"Enabled", "*bool", "enabled", ["omitempty"], ["kubebuilder:validation:Optional"]⟩,
    ⟨"Html", "*string", "html", ["omitempty"], ["kubebuilder:validation:Optional"]⟩]⟩

/-- Declaration of TenantGuardianMfaPage (tenant_types.go, line 162): Go field name, Go type, json key, tag options, markers. -/
def TenantGuardianMfaPage.decl : StructDecl :=
  ⟨"TenantGuardianMfaPage", [
    ⟨"Enabled", "*bool", "enabled", ["omitempty"], ["kubebuilder:validation:Optional"]⟩,
    ⟨"Html", "*string", "html", ["omitempty"], ["kubebuilder:validation:Optional"]⟩]⟩

/-- Declaration of TenantErrorPage (tenant_types.go, line 173): Go field name, Go type, json key, tag options, markers. -/
def TenantErrorPage.decl : StructDecl :=
  ⟨"TenantErrorPage", [
    ⟨"Html", "*string", "html", ["omitempty"], ["kubebuilder:validation:Optional"]⟩,
    ⟨"ShowLogLink", "*bool", "show_log_link", ["omitempty"], ["kubebuilder:validation:Optional"]⟩,
    ⟨"Url", "*string", "url", ["omitempty"], ["kubebuilder:validation:Optional"]⟩]⟩

/-- Declaration of TenantDeviceFlow (tenant_types.go, line 188): Go field name, Go type, json key, tag options, markers. -/
def TenantDeviceFlow.decl : StructDecl :=
  ⟨"TenantDeviceFlow", [
    ⟨"Charset", "*string", "charset", ["omitempty"], ["kubebuilder:validation:Optional", "kubebuilder:validation:Enum=base20;digits"]⟩,
    ⟨"Mask", "*string", "mask", ["omitempty"], ["kubebuilder:validation:Optional"]⟩]⟩

/-- Declaration of TenantFlags (tenant_types.go, line 200): Go field name, Go type, json key, tag options, markers. -/
def TenantFlags.decl : StructDecl :=
  ⟨"TenantFlags", [
    ⟨"ChangePasswordFlowV1", "*bool", "change_pwd_flow_v1", ["omitempty"], ["kubebuilder:validation:Optional"]⟩,
    ⟨"EnableClientConnections", "*bool", "enable_client_connections", ["omitempty"], ["kubebuilder:validation:Optional"]⟩,
    ⟨"EnableApisSection", "*bool", "enable_apis_section", ["omitempty"], ["kubebuilder:validation:Optional"]⟩,
    ⟨"EnablePipelineV2", "*bool", "enable_pipeline2", ["omitempty"], ["kubebuilder:validation:Optional"]⟩,
    ⟨"EnableDynamicClientRegistration", "*bool", "enable_dynamic_client_registration", ["omitempty"], ["kubebuilder:validation:Optional"]⟩,
    ⟨"EnableCustomDomainInEmails", "*bool", "enable_custom_domain_in_emails", ["omitempty"], ["kubebuilder:validation:Optional"]⟩,
    ⟨"UniversalLogin", "*bool", "universal_login", ["omitempty"], ["kubebuilder:validation:Optional"]⟩,
    ⟨"EnableLegacyLogsSearchV2", "*bool", "enable_legacy_logs_search_v2", ["omitempty"], ["kubebuilder:validation:Optional"]⟩,
    ⟨"DisableClickjackProtectionHeaders", "*bool", "disable_clickjack_protection_headers", ["omitempty"], ["kubebuilder:validation:Optional"]⟩,
    ⟨"EnablePublicSignupUserExistsError", "*bool", "enable_public_signup_user_exists_error", ["omitempty"], ["kubebuilder:validation:Optional"]⟩,
    ⟨"UseScope", "*string", "use_scope", ["omitempty"], ["kubebuilder:validation:Optional"]⟩,
    ⟨"AllowLegacyDelegationGrantTypes", "*bool", "allow_legacy_delegation_grant_types", ["omitempty"], ["kubebuilder:validation:Optional"]⟩,
    ⟨"AllowLegacyROGrantTypes", "*bool", "allow_legacy_ro_grant_types", ["omitempty"], ["kubebuilder:validation:Optional"]⟩,
    ⟨"AllowLegacyTokenInfoEndpoint", "*bool", "allow_legacy_tokeninfo_endpoint", ["omitempty"], ["kubebuilder:validation:Optional"]⟩,
    ⟨"EnableLegacyProfile", "*bool", "enable_legacy_profile", ["omitempty"], ["kubebuilder:validation:Optional"]⟩,
    ⟨"EnableIdTokenAPI", "*bool", "enable_idtoken_api2", ["omitempty"], ["kubebuilder:validation:Optional"]⟩,
    ⟨"EnableIdTokenImplicitGrant", "*bool", "enable_impersonation", ["omitempty"], ["kubebuilder:validation:Optional"]⟩]⟩

/-- Declaration of SessionCookie (tenant_types.go, line 271): Go field name, Go type, json key, tag options, markers. -/
def SessionCookie.decl : StructDecl :=
  ⟨"SessionCookie", [
    ⟨"Mode", "*string", "mode", ["omitempty"], ["kubebuilder:validation:Optional", "kubebuilder:validation:Enum=persistent;non-persistent"]⟩]⟩

/-- Every struct type the package declares, in source order per file. -/
def allStructDecls : List StructDecl :=
  [V1TenantReference.decl,
   V1SecretReference.decl,
   V1ConnectionReference.decl,
   V1ResourceServerReference.decl,
   A0ClientGrant.decl,
   A0ClientGrantList.decl,
   A0ClientGrantSpec.decl,
   A0ClientGrantStatus.decl,
   ClientGrantConf.decl,
   V1ClientReference.decl,
   A0Client.decl,
   A0ClientList.decl,
   A0ClientSpec.decl,
   A0ClientStatus.decl,
   ClientFind.decl,
   ClientConf.decl,
   SigningKey.decl,
   ClientAuthenticationMethods.decl,
   CredentialIdDef.decl,
   PrivateKeyJwtDef.decl,
   TlsClientAuthDef.decl,
   SelfSignedTlsClientAuthDef.decl,
   SignedRequestObject.decl,
   Mobile.decl,
   MobileAndroid.decl,
   MobileIos.decl,
   EncryptionKey.decl,
   JwtConfiguration.decl,
   Scopes.decl,
   ScopeEntry.decl,
   OidcLogoutConfig.decl,
   BackchannelLogoutInitiators.decl,
   RefreshToken.decl,
   ClientResourceServerAssociation.decl,
   DefaultOrganization.decl,
   A0Connection.decl,
   A0ConnectionList.decl,
   A0ConnectionSpec.decl,
   A0ConnectionStatus.decl,
   ConnectionFind.decl,
   ConnectionConf.decl,
   A0ResourceServer.decl,
   A0ResourceServerList.decl,
   A0ResourceServerSpec.decl,
   A0ResourceServerStatus.decl,
   ResourceServerConf.decl,
   ResourceServerScope.decl,
   ResourceServerAuthorizationDetail.decl,
   TokenEncryption.decl,
   TokenEncryptionKey.decl,
   ProofOfPossession.decl,
   A0Tenant.decl,
   A0TenantList.decl,
   A0TenantSpec.decl,
   A0TenantStatus.decl,
   TenantAuth.decl,
   TenantConf.decl,
   TenantChangePassword.decl,
   TenantGuardianMfaPage.decl,
   TenantErrorPage.decl,
   TenantDeviceFlow.decl,
   TenantFlags.decl,
   SessionCookie.decl]

/-! ## Managed resources and their statuses -/

/-- The five kinds of managed resource, one per root type of the package. -/
inductive Kind where
  | Tenant | Client | ClientGrant | Connection | ResourceServer
deriving DecidableEq

/-- A status value of any of the five root types. -/
inductive Status where
  | client (s : A0ClientStatus)
  | clientGrant (s : A0ClientGrantStatus)
  | connection (s : A0ConnectionStatus)
  | resourceServer (s : A0ResourceServerStatus)
  | tenant (s : A0TenantStatus)

/-- The kind a status belongs to. -/
def Status.kind : Status → Kind
  | .client _ => .Client
  | .clientGrant _ => .ClientGrant
  | .connection _ => .Connection
  | .resourceServer _ => .ResourceServer
  | .tenant _ => .Tenant

/-- The `Id` field of a status; A0TenantStatus declares none. -/
def Status.id : Status → Option String
  | .client s => s.Id
  | .clientGrant s => s.Id
  | .connection s => s.Id
  | .resourceServer s => s.Id
  | .tenant _ => none

/-- The `Identifier` field of a status; only A0ResourceServerStatus declares one. -/
def Status.identifier : Status → Option String
  | .resourceServer s => s.Identifier
  | _ => none

/-- The `LastConf` field of a status. -/
def Status.lastConf : Status → Option RawExtension
  | .client s => s.LastConf
  | .clientGrant s => s.LastConf
  | .connection s => s.LastConf
  | .resourceServer s => s.LastConf
  | .tenant s => s.LastConf

/-- The JSON encoding of a status. -/
def Status.toJSON : Status → JSON
  | .client s => s.toJSON
  | .clientGrant s => s.toJSON
  | .connection s => s.toJSON
  | .resourceServer s => s.toJSON
  | .tenant s => s.toJSON

/-- Decoding one member into an A0ClientStatus. -/
def A0ClientStatus.setField (s : A0ClientStatus) (k : String) (v : JSON) :
    Option A0ClientStatus :=
  if k = "id" then (decodeStringPtr v).map fun p => { s with Id := p }
  else if k = "lastConf" then some { s with LastConf := decodeRawExtensionPtr v }
  else some s

/-- Decoding one member into an A0ClientGrantStatus. -/
def A0ClientGrantStatus.setField (s : A0ClientGrantStatus) (k : String) (v : JSON) :
    Option A0ClientGrantStatus :=
  if k = "id" then (decodeStringPtr v).map fun p => { s with Id := p }
  else if k = "lastConf" then some { s with LastConf := decodeRawExtensionPtr v }
  else some s

/-- Decoding one member into an A0ConnectionStatus. -/
def A0ConnectionStatus.setField (s : A0ConnectionStatus) (k : String) (v : JSON) :
    Option A0ConnectionStatus :=
  if k = "id" then (decodeStringPtr v).map fun p => { s with Id := p }
  else if k = "lastConf" then some { s with LastConf := decodeRawExtensionPtr v }
  else some s

/-- Decoding one member into an A0ResourceServerStatus. -/
def A0ResourceServerStatus.setField (s : A0ResourceServerStatus) (k : String) (v : JSON) :
    Option A0ResourceServerStatus :=
  if k = "id" then (decodeStringPtr v).map fun p => { s with Id := p }
  else if k = "identifier" then (decodeStringPtr v).map fun p => { s with Identifier := p }
  else if k = "lastConf" then some { s with LastConf := decodeRawExtensionPtr v }
  else some s

/-- Decoding one member into an A0TenantStatus. -/
def A0TenantStatus.setField (s : A0TenantStatus) (k : String) (v : JSON) :
    Option A0TenantStatus :=
  if k = "lastConf" then some { s with LastConf := decodeRawExtensionPtr v }
  else some s

/-- Decoding a JSON value as the status of the given kind (json.Unmarshal into a zero
status). -/
def Status.fromJSON (kind : Kind) (j : JSON) : Option Status :=
  match kind with
  | .Client => (unmarshalStruct ⟨none, none⟩ A0ClientStatus.setField j).map Status.client
  | .ClientGrant =>
      (unmarshalStruct ⟨none, none⟩ A0ClientGrantStatus.setField j).map Status.clientGrant
  | .Connection =>
      (unmarshalStruct ⟨none, none⟩ A0ConnectionStatus.setField j).map Status.connection
  | .ResourceServer =>
      (unmarshalStruct ⟨none, none, none⟩ A0ResourceServerStatus.setField j).map
        Status.resourceServer
  | .Tenant => (unmarshalStruct ⟨none⟩ A0TenantStatus.setField j).map Status.tenant

/-- The `lastConf` of a status is absent, or it holds a document other than null. -/
def Status.lastConfHoldsDocument (s : Status) : Bool :=
  match s.lastConf with
  | none => true
  | some ⟨none⟩ => false
  | some ⟨some .null⟩ => false
  | some ⟨some _⟩ => true

/-- A resource-server status with id, identifier and a nested lastConf document. -/
def sampleStatus : Status :=
  .resourceServer ⟨some "rs_1", some "https://api.example", some ⟨some
    (JSON.obj [("name", JSON.str "api"),
      ("options", JSON.obj [("vendor_x", JSON.arr [JSON.num 1, JSON.null])])])⟩⟩

/-- A configuration value of any of the five configuration types. -/
inductive Conf where
  | tenant (c : TenantConf)
  | client (c : ClientConf)
  | clientGrant (c : ClientGrantConf)
  | connection (c : ConnectionConf)
  | resourceServer (c : ResourceServerConf)

/-- The fields of a configuration value as the encoder sees them. -/
def Conf.fields : Conf → List FieldEnc
  | .tenant c => c.fields
  | .client c => c.fields
  | .clientGrant c => c.fields
  | .connection c => c.fields
  | .resourceServer c => c.fields

/-- The JSON object a configuration value serializes to. -/
def Conf.toJSON : Conf → JSON
  | .tenant c => c.toJSON
  | .client c => c.toJSON
  | .clientGrant c => c.toJSON
  | .connection c => c.toJSON
  | .resourceServer c => c.toJSON

/-- The TenantConf with no field set. -/
def TenantConf.unset : TenantConf :=
  { FriendlyName := none, SupportEmail := none, SupportUrl := none, EnabledLocales := none,
    ChangePassword := none, GuardianMfaPage := none, DefaultAudience := none,
    DefaultDirectory := none, ErrorPage := none, DeviceFlow := none, Flags := none,
    SessionCookie := none, Sessions := none, SandboxVersion := none,
    IdleSessionLifetime := none, SessionLifetime := none, AllowedLogoutUrls := none,
    SessionCookieMode := none }


/-- The TenantConf whose only set field is FriendlyName = "Acme". -/
def TenantConf.acme : TenantConf :=
  { TenantConf.unset with FriendlyName := some "Acme" }

/-! ## Ownership and references -/

/-- A spec of one of the four root types that belong to a tenant. -/
inductive OwnedSpec where
  | client (s : A0ClientSpec)
  | clientGrant (s : A0ClientGrantSpec)
  | connection (s : A0ConnectionSpec)
  | resourceServer (s : A0ResourceServerSpec)

/-- The `TenantRef` field of the spec. -/
def OwnedSpec.tenantRef : OwnedSpec → Option V1TenantReference
  | .client s => s.TenantRef
  | .clientGrant s => s.TenantRef
  | .connection s => s.TenantRef
  | .resourceServer s => s.TenantRef

/-- The tenants the spec designates through tenantRef: none for a nil pointer, otherwise
the one referenced. -/
def OwnedSpec.owners (s : OwnedSpec) : List V1TenantReference :=
  s.tenantRef.toList

/-- The declaration of the spec type. -/
def OwnedSpec.decl : OwnedSpec → StructDecl
  | .client _ => A0ClientSpec.decl
  | .clientGrant _ => A0ClientGrantSpec.decl
  | .connection _ => A0ConnectionSpec.decl
  | .resourceServer _ => A0ResourceServerSpec.decl

/-- The JSON encoding of the spec. -/
def OwnedSpec.toJSON : OwnedSpec → JSON
  | .client s => s.toJSON
  | .clientGrant s => s.toJSON
  | .connection s => s.toJSON
  | .resourceServer s => s.toJSON

/-- The spec, as submitted, passes the Required markers of its type. -/
def OwnedSpec.admitted (s : OwnedSpec) : Bool :=
  s.decl.admits s.toJSON

/-- A reference document in the local-pointer form: it names the object (key "name", with
or without "namespace") and carries no remote identifier. -/
def isLocalPointer (j : JSON) : Bool :=
  j.keys.contains "name" && !j.keys.contains "id" && !j.keys.contains "identifier"

/-- A reference document in the direct form: it carries a remote identifier (key "id", or
"identifier") and neither a name nor a namespace. -/
def isRemoteIdentifier (j : JSON) : Bool :=
  (j.keys.contains "id" || j.keys.contains "identifier") &&
    !j.keys.contains "name" && !j.keys.contains "namespace"


/-! ## Managed resources -/

/-- A managed resource: an object of one of the five root types. -/
inductive ManagedResource where
  | tenant (o : A0Tenant)
  | client (o : A0Client)
  | clientGrant (o : A0ClientGrant)
  | connection (o : A0Connection)
  | resourceServer (o : A0ResourceServer)

namespace ManagedResource

/-- The kind of the resource. -/
def kind : ManagedResource → Kind
  | .tenant _ => .Tenant
  | .client _ => .Client
  | .clientGrant _ => .ClientGrant
  | .connection _ => .Connection
  | .resourceServer _ => .ResourceServer

/-- The object metadata. -/
def objectMeta : ManagedResource → ObjectMeta
  | .tenant o => o.ObjectMeta
  | .client o => o.ObjectMeta
  | .clientGrant o => o.ObjectMeta
  | .connection o => o.ObjectMeta
  | .resourceServer o => o.ObjectMeta

/-- The `Spec.Policy` field. -/
def policy : ManagedResource → Option (List V1EntityPolicyType)
  | .tenant o => o.Spec.Policy
  | .client o => o.Spec.Policy
  | .clientGrant o => o.Spec.Policy
  | .connection o => o.Spec.Policy
  | .resourceServer o => o.Spec.Policy

/-- The `Spec.TenantRef` field; A0TenantSpec declares none. -/
def tenantRef : ManagedResource → Option V1TenantReference
  | .tenant _ => none
  | .client o => o.Spec.TenantRef
  | .clientGrant o => o.Spec.TenantRef
  | .connection o => o.Spec.TenantRef
  | .resourceServer o => o.Spec.TenantRef

/-- The `Status` field. -/
def status : ManagedResource → Status
  | .tenant o => .tenant o.Status
  | .client o => .client o.Status
  | .clientGrant o => .clientGrant o.Status
  | .connection o => .connection o.Status
  | .resourceServer o => .resourceServer o.Status

/-- The `Spec.Conf` field as the JSON document it serializes to. -/
def conf : ManagedResource → Option JSON
  | .tenant o => o.Spec.Conf.map TenantConf.toJSON
  | .client o => o.Spec.Conf.map ClientConf.toJSON
  | .clientGrant o => o.Spec.Conf.map ClientGrantConf.toJSON
  | .connection o => o.Spec.Conf.map ConnectionConf.toJSON
  | .resourceServer o => o.Spec.Conf.map ResourceServerConf.toJSON

/-- The `Spec.Init` field as the JSON document it serializes to. -/
def init : ManagedResource → Option JSON
  | .tenant o => o.Spec.Init.map TenantConf.toJSON
  | .client o => o.Spec.Init.map ClientConf.toJSON
  | .clientGrant o => o.Spec.Init.map ClientGrantConf.toJSON
  | .connection o => o.Spec.Init.map ConnectionConf.toJSON
  | .resourceServer o => o.Spec.Init.map ResourceServerConf.toJSON

/-- The `Spec.Find` field as a JSON document; only A0ClientSpec and A0ConnectionSpec
declare one. -/
def find : ManagedResource → Option JSON
  | .client o => o.Spec.Find.map ClientFind.toJSON
  | .connection o => o.Spec.Find.map ConnectionFind.toJSON
  | _ => none

/-- Modelled from the spec: the local declaration is removed (section 3, lifecycle), which
the reconciler, missing from the sources, reads off the deletion timestamp of the object. -/
def removed (r : ManagedResource) : Bool :=
  r.objectMeta.DeletionTimestamp.isSome

/-- The resource with `Status.Id` set; a tenant status has no such field and stays as it
is. -/
def setId (i : String) : ManagedResource → ManagedResource
  | .tenant o => .tenant o
  | .client o => .client { o with Status := { o.Status with Id := some i } }
  | .clientGrant o => .clientGrant { o with Status := { o.Status with Id := some i } }
  | .connection o => .connection { o with Status := { o.Status with Id := some i } }
  | .resourceServer o => .resourceServer { o with Status := { o.Status with Id := some i } }

/-- The resource with `Status.Identifier` set, for the one status type that has it. -/
def setIdentifier (n : Option String) : ManagedResource → ManagedResource
  | .resourceServer o =>
      .resourceServer { o with Status := { o.Status with Identifier := n } }
  | r => r

/-- The resource with `Status.LastConf` holding the document `d`. -/
def setLastConf (d : JSON) : ManagedResource → ManagedResource
  | .tenant o => .tenant { o with Status := { o.Status with LastConf := some ⟨some d⟩ } }
  | .client o => .client { o with Status := { o.Status with LastConf := some ⟨some d⟩ } }
  | .clientGrant o =>
      .clientGrant { o with Status := { o.Status with LastConf := some ⟨some d⟩ } }
  | .connection o =>
      .connection { o with Status := { o.Status with LastConf := some ⟨some d⟩ } }
  | .resourceServer o =>
      .resourceServer { o with Status := { o.Status with LastConf := some ⟨some d⟩ } }

/-- The resource with its finalization markers removed. -/
def clearFinalizers : ManagedResource → ManagedResource
  | .tenant o => .tenant { o with ObjectMeta := { o.ObjectMeta with Finalizers := none } }
  | .client o => .client { o with ObjectMeta := { o.ObjectMeta with Finalizers := none } }
  | .clientGrant o =>
      .clientGrant { o with ObjectMeta := { o.ObjectMeta with Finalizers := none } }
  | .connection o =>
      .connection { o with ObjectMeta := { o.ObjectMeta with Finalizers := none } }
  | .resourceServer o =>
      .resourceServer { o with ObjectMeta := { o.ObjectMeta with Finalizers := none } }

end ManagedResource

/-! ## The reconciliation engine of the design document

Nothing below has source in the package: the definitions follow the design document,
over the types above. -/

/-- Modelled from the spec: the mutating operations a policy names (section 3, `policy`:
set of permitted operations Create, Update, Delete). The reconciler that performs them is
missing from the sources. -/
inductive Operation where
  | Create | Update | Delete
deriving DecidableEq

/-- Modelled from the spec: the policy constant that names an operation; the Policy
Gate that reads it is missing from the sources. -/
def Operation.policyType : Operation → V1EntityPolicyType
  | .Create => PolicyTypeCreate
  | .Update => PolicyTypeUpdate
  | .Delete => PolicyTypeDelete

/-- Modelled from the spec: the Policy Gate, which is missing from the sources (section
4.3): `Allows(resource, operation)`, a pure function of the declared policy set; an
operation absent from the set is never allowed. -/
def Allows (policy : Option (List V1EntityPolicyType)) (op : Operation) : Bool :=
  (policy.getD []).contains op.policyType

/-- Modelled from the spec: the resolution errors of the Reference Resolver, which is
missing from the sources (section 4.1). -/
inductive ResolveError where
  | ReferenceNotFound | ReferenceNotReady | ReferenceAmbiguous
deriving DecidableEq

/-- Modelled from the spec: a Reference as the Reference Resolver reads it, the resolver
being missing from the sources (section 3): the kind of the target, a local pointer
(namespace, name) and a remote identifier, each possibly absent. -/
structure Reference where
  kind : Kind
  ns : Option String
  name : Option String
  id : Option String

/-- Modelled from the spec: the reference a V1TenantReference makes for the resolver, which
is missing from the sources: namespace and name, no identifier. -/
def V1TenantReference.reference (r : V1TenantReference) : Reference :=
  ⟨.Tenant, r.Namespace, some r.Name, none⟩

/-- Modelled from the spec: the reference a V1ClientReference makes for the resolver, which
is missing from the sources: namespace, name and id as declared. -/
def V1ClientReference.reference (r : V1ClientReference) : Reference :=
  ⟨.Client, r.Namespace, r.Name, r.Id⟩

/-- Modelled from the spec: the reference a V1ConnectionReference makes for the resolver,
which is missing from the sources: namespace, name and id as declared. -/
def V1ConnectionReference.reference (r : V1ConnectionReference) : Reference :=
  ⟨.Connection, r.Namespace, r.Name, r.Id⟩

/-- Modelled from the spec: the reference a V1ResourceServerReference makes for the
resolver, which is missing from the sources: the identifier only. -/
def V1ResourceServerReference.reference (r : V1ResourceServerReference) : Reference :=
  ⟨.ResourceServer, none, none, r.Identifier⟩

/-- Modelled from the spec: the remote identity of a managed resource as the resolver and
the planner, both missing from the sources, read it: `status.id`. A tenant status has no id field;
following the Tenant scenario of section 8 (after Create the status is the lastConf alone,
and the next plan is NoOp) a tenant counts as bound once its lastConf is recorded, under
its declared name. -/
def ManagedResource.remoteIdentity : ManagedResource → Option String
  | .tenant o => if o.Status.LastConf.isSome then some o.Spec.Name else none
  | r => r.status.id

/-- Modelled from the spec: a local lookup performed by the Reference Resolver, which is
missing from the sources: kind, namespace and name of the object looked up. -/
structure Lookup where
  kind : Kind
  ns : String
  name : String
deriving DecidableEq

/-- Modelled from the spec: the lookup capability over local managed resources that the
resolution context carries (section 4.1); the object store is missing from the sources. -/
abbrev Store := Kind → String → String → Option ManagedResource

/-- Modelled from the spec: the Reference Resolver, which is missing from the sources
(section 4.1). Given a reference and a resolution context (the lookup capability and the
current namespace) it returns a remote identifier or fails with ReferenceNotFound (target
absent), ReferenceNotReady (target without remote identity) or ReferenceAmbiguous
(neither name nor id). When the id is present it takes precedence and no local lookup is
performed. An empty namespace stands for the current one. The second component lists the
local lookups performed. -/
def resolve (store : Store) (current : String) (ref : Reference) :
    Except ResolveError String × List Lookup :=
  match ref.id with
  | some i => (.ok i, [])
  | none =>
    match ref.name with
    | none => (.error .ReferenceAmbiguous, [])
    | some n =>
      let ns := match ref.ns with
        | none => current
        | some s => if s = "" then current else s
      match store ref.kind ns n with
      | none => (.error .ReferenceNotFound, [⟨ref.kind, ns, n⟩])
      | some target =>
        match target.remoteIdentity with
        | none => (.error .ReferenceNotReady, [⟨ref.kind, ns, n⟩])
        | some i => (.ok i, [⟨ref.kind, ns, n⟩])


/-- Modelled from the spec: the references a resource must have resolved before it is
planned (section 4.2), read by the Dependency Orderer, which is missing from the sources:
its tenantRef, and the references inside its conf (the client and the audience of a
client grant, the enabled connections of a client). -/
def ManagedResource.references : ManagedResource → List Reference
  | .tenant _ => []
  | .client o =>
      (o.Spec.TenantRef.toList.map V1TenantReference.reference) ++
      (match o.Spec.Conf with
        | some c => (c.EnabledConnections.getD []).map V1ConnectionReference.reference
        | none => [])
  | .clientGrant o =>
      (o.Spec.TenantRef.toList.map V1TenantReference.reference) ++
      (match o.Spec.Conf with
        | some c =>
            (c.ClientRef.toList.map V1ClientReference.reference) ++
            (c.Audience.toList.map V1ResourceServerReference.reference)
        | none => [])
  | .connection o => o.Spec.TenantRef.toList.map V1TenantReference.reference
  | .resourceServer o => o.Spec.TenantRef.toList.map V1TenantReference.reference

/-- Modelled from the spec: resolving a list of references in order, stopping at the
first that fails (the Resolving state of section 4.5, whose code is missing from the
sources). -/
def resolveAll (store : Store) (current : String) :
    List Reference → Except ResolveError (List String)
  | [] => .ok []
  | ref :: rest =>
    match (resolve store current ref).1 with
    | .error e => .error e
    | .ok i =>
      match resolveAll store current rest with
      | .error e => .error e
      | .ok is => .ok (i :: is)

/-- Modelled from the spec: the classification every remote-call error carries (section
6: not-found, conflict, transient, permanent); the Remote State Client is an external
collaborator with no source here. -/
inductive ErrorClass where
  | NotFound | Conflict | Transient | Permanent
deriving DecidableEq

/-- Modelled from the spec: what a mutating remote call comes back with, the Remote State
Client being missing from the sources: the write is confirmed successful, or it was
applied in part only, or it failed (section 3: a failed or partial write). -/
inductive WriteResult (α : Type) where
  | confirmed (a : α)
  | incomplete (e : ErrorClass)
  | failed (e : ErrorClass)

/-- Modelled from the spec: the remote write was confirmed successful (section 3); the
Remote State Client is missing from the sources. -/
def WriteResult.isConfirmed {α : Type} : WriteResult α → Bool
  | .confirmed _ => true
  | _ => false

/-- Modelled from the spec: a call on the Remote State Client capability, which is
missing from the sources (section 6): Find(kind, descriptor), Create(kind, payload),
Update(kind, id, delta), Delete(kind, id). -/
inductive RemoteCall where
  | Find (kind : Kind) (descriptor : JSON)
  | Create (kind : Kind) (payload : JSON)
  | Update (kind : Kind) (id : String) (delta : JSON)
  | Delete (kind : Kind) (id : String)

/-- Modelled from the spec: the mutating operation a call on the Remote State Client, which
is missing from the sources, performs; Find performs none. -/
def RemoteCall.operation : RemoteCall → Option Operation
  | .Find _ _ => none
  | .Create _ _ => some .Create
  | .Update _ _ _ => some .Update
  | .Delete _ _ => some .Delete

/-- Modelled from the spec: everything outside the core that one reconciliation run
consults, none of it in the sources (section 6): the local object store, the live remote
state of an object (absent when the remote lookup returns not-found), the answers of the
Remote State Client, and the status writer, which accepts a status update or reports an
optimistic-concurrency conflict. -/
structure Env where
  store : Store
  liveRemote : Kind → String → Option JSON
  find : Kind → JSON → Except ErrorClass (Option String)
  create : Kind → JSON → WriteResult (String × JSON)
  update : Kind → String → JSON → WriteResult JSON
  delete : Kind → String → WriteResult Unit
  statusWrite : ManagedResource → Bool

/-- Modelled from the spec: the Remote State Client, which is missing from the sources,
answered this call with a confirmed write. -/
def Env.confirmed (env : Env) : RemoteCall → Bool
  | .Find _ _ => false
  | .Create k p => (env.create k p).isConfirmed
  | .Update k i d => (env.update k i d).isConfirmed
  | .Delete k i => (env.delete k i).isConfirmed

/-- Modelled from the spec: the plans of the Drift Detector, which is missing from the
sources (section 4.4: NoOp, Create, Adopt, Update(delta), Recreate), and the remote delete
of a removed declaration (section 3, lifecycle). -/
inductive Plan where
  | NoOp
  | Create (payload : JSON)
  | Adopt (id : String)
  | Update (id : String) (delta : JSON)
  | Recreate (payload : JSON)
  | Delete (id : String)

/-- Modelled from the spec: the operation the Policy Gate is asked about for a plan
(section 4.5, the corresponding operation); Recreate requires Create (section 4.4), NoOp
and Adopt perform no mutating call. The gate is missing from the sources. -/
def Plan.operation : Plan → Option Operation
  | .NoOp => none
  | .Create _ => some .Create
  | .Adopt _ => none
  | .Update _ _ => some .Update
  | .Recreate _ => some .Create
  | .Delete _ => some .Delete

/-- Modelled from the spec: why a run ends in Failed (section 7); the error handling is
missing from the sources. -/
inductive Failure where
  | InvalidResource
  | Remote (e : ErrorClass)
  | OrphanedReference
  | StatusConflict

/-- The members of a JSON object; any other value has none. -/
def JSON.members : JSON → List (String × JSON)
  | .obj kvs => kvs
  | _ => []

/-- Modelled from the spec: the desired configuration of a resource, the members of its
conf (section 3, `conf`); the planner is missing from the sources. -/
def ManagedResource.desired (r : ManagedResource) : List (String × JSON) :=
  match r.conf with
  | some j => j.members
  | none => []

/-- Modelled from the spec: init merged under conf (section 3, `init`): the members of
init that conf does not declare, then the members of conf. Used by the planner, which is
missing from the sources, for the create request only. -/
def mergeUnder (init conf : List (String × JSON)) : List (String × JSON) :=
  (init.filter fun kv => !(conf.map Prod.fst).contains kv.1) ++ conf

/-- Modelled from the spec: the payload of a create request (section 4.4: Create, using
init merged with conf); the planner is missing from the sources. -/
def ManagedResource.createPayload (r : ManagedResource) : JSON :=
  .obj (mergeUnder (match r.init with | some j => j.members | none => []) r.desired)

/-- Modelled from the spec: lastConf equals the desired conf, by structural equality
(section 4.4); the Drift Detector is missing from the sources. -/
def lastConfMatches (last : Option RawExtension) (conf : List (String × JSON)) : Bool :=
  match last with
  | some ⟨some d⟩ => d == JSON.obj conf
  | _ => false

/-- Modelled from the spec: the delta of an Update (section 4.4), the members of conf
whose value differs from the one recorded in lastConf; a member conf does not declare is
never sent. The Drift Detector is missing from the sources. -/
def delta (last : Option RawExtension) (conf : List (String × JSON)) :
    List (String × JSON) :=
  let recorded := match last with
    | some ⟨some d⟩ => d.members
    | _ => []
  conf.filter fun kv => lookupKey kv.1 recorded != some kv.2

/-- Modelled from the spec: the Drift Detector, which is missing from the sources
(section 4.4, `Plan(desired, lastConf, liveRemote)`), with the calls planning issues.
A removed declaration plans the remote Delete when the resource is bound (section 3,
lifecycle). Without a remote identity the plan is Create, unless a find descriptor is
present and the remote has a match, which gives Adopt. With a remote identity: Recreate
when the live remote object is gone, which needs Create in the policy and is the
OrphanedReference error without it; NoOp when lastConf equals conf; Update with the
delta otherwise. -/
def planFor (env : Env) (r : ManagedResource) : Except Failure Plan × List RemoteCall :=
  if r.removed then
    match r.remoteIdentity with
    | some i => (.ok (.Delete i), [])
    | none => (.ok .NoOp, [])
  else
    match r.remoteIdentity with
    | none =>
      match r.find with
      | some d =>
        match env.find r.kind d with
        | .ok (some i) => (.ok (.Adopt i), [.Find r.kind d])
        | .ok none => (.ok (.Create r.createPayload), [.Find r.kind d])
        | .error e => (.error (.Remote e), [.Find r.kind d])
      | none => (.ok (.Create r.createPayload), [])
    | some i =>
      match env.liveRemote r.kind i with
      | none =>
        if Allows r.policy .Create then (.ok (.Recreate r.createPayload), [])
        else (.error .OrphanedReference, [])
      | some _ =>
        if lastConfMatches r.status.lastConf r.desired then (.ok .NoOp, [])
        else (.ok (.Update i (.obj (delta r.status.lastConf r.desired))), [])

/-- Modelled from the spec: the states of the Reconciler Core, which is missing from the
sources (section 4.5): Pending, Resolving, Planning, Applying, Settled, with Blocked and
Failed as re-entrant states. -/
inductive Phase where
  | Pending
  | Resolving
  | Planning
  | Applying (p : Plan)
  | Settled
  | Blocked (e : ResolveError)
  | Failed (f : Failure)

/-- Modelled from the spec: one state machine instance, scoped to one resource (section
4.5); the Reconciler Core is missing from the sources. It holds the state, the resource
with its status as written so far, and the remote calls issued so far, oldest first. -/
structure Machine where
  phase : Phase
  resource : ManagedResource
  calls : List RemoteCall

/-- Modelled from the spec: the status-write step that ends Applying (section 4.5: id,
identifier and lastConf are written as a single status update); the Reconciler Core is
missing from the sources. A conflict on the write leaves the status as it was and the run
is re-entered. -/
def commit (env : Env) (m : Machine) (updated : ManagedResource) : Machine :=
  if env.statusWrite updated then { m with phase := .Settled, resource := updated }
  else { m with phase := .Failed .StatusConflict }

/-- Modelled from the spec: the identifier that the remote state returned by a create
reports, if any, written to `status.identifier` (section 3); the Reconciler Core is
missing from the sources. -/
def identifierOf (remote : JSON) : Option String :=
  match lookupKey "identifier" remote.members with
  | some (.str s) => some s
  | _ => none

/-- Modelled from the spec: the Applying state (section 4.5), whose code is missing from
the sources: the one remote call of the plan is issued; on a confirmed write the status is
written (the identifiers the remote assigned, and conf as the new lastConf); a failed or
partial write ends in Failed and leaves the status untouched. Adopt binds the identifier
that Find returned and issues no write. A confirmed Delete removes the finalization
markers. -/
def applyPlan (env : Env) (m : Machine) : Plan → Machine
  | .NoOp => { m with phase := .Settled }
  | .Adopt i => commit env m (m.resource.setId i)
  | .Create payload =>
    let m1 : Machine := { m with calls := m.calls ++ [RemoteCall.Create m.resource.kind payload] }
    match env.create m.resource.kind payload with
    | .confirmed (i, remote) =>
      commit env m1 (((m.resource.setId i).setIdentifier (identifierOf remote)).setLastConf
        (.obj m.resource.desired))
    | .incomplete e => { m1 with phase := .Failed (.Remote e) }
    | .failed e => { m1 with phase := .Failed (.Remote e) }
  | .Recreate payload =>
    let m1 : Machine := { m with calls := m.calls ++ [RemoteCall.Create m.resource.kind payload] }
    match env.create m.resource.kind payload with
    | .confirmed (i, remote) =>
      commit env m1 (((m.resource.setId i).setIdentifier (identifierOf remote)).setLastConf
        (.obj m.resource.desired))
    | .incomplete e => { m1 with phase := .Failed (.Remote e) }
    | .failed e => { m1 with phase := .Failed (.Remote e) }
  | .Update i d =>
    let m1 : Machine := { m with calls := m.calls ++ [RemoteCall.Update m.resource.kind i d] }
    match env.update m.resource.kind i d with
    | .confirmed _ => commit env m1 (m.resource.setLastConf (.obj m.resource.desired))
    | .incomplete e => { m1 with phase := .Failed (.Remote e) }
    | .failed e => { m1 with phase := .Failed (.Remote e) }
  | .Delete i =>
    let m1 : Machine := { m with calls := m.calls ++ [RemoteCall.Delete m.resource.kind i] }
    match env.delete m.resource.kind i with
    | .confirmed _ => { m1 with phase := .Settled, resource := m.resource.clearFinalizers }
    | .incomplete e => { m1 with phase := .Failed (.Remote e) }
    | .failed e => { m1 with phase := .Failed (.Remote e) }

/-- Modelled from the spec: one transition of the Reconciler Core state machine, which is
missing from the sources (section 4.5). A resource other than a tenant with no tenantRef
is invalid and goes no further (section 3). Resolving ends in Blocked when a reference
does not resolve. Planning goes to Applying when the plan is not NoOp and the Policy Gate
allows its operation; a NoOp plan and a denied plan end in Settled, and a removed
declaration that is not deleted remotely only loses its finalization markers. Settled,
Blocked and Failed end the run. -/
def step (env : Env) (m : Machine) : Machine :=
  match m.phase with
  | .Pending =>
    if m.resource.kind = .Tenant ∨ m.resource.tenantRef.isSome then
      { m with phase := .Resolving }
    else { m with phase := .Failed .InvalidResource }
  | .Resolving =>
    match resolveAll env.store m.resource.objectMeta.Namespace m.resource.references with
    | .error e => { m with phase := .Blocked e }
    | .ok _ => { m with phase := .Planning }
  | .Planning =>
    let planned := planFor env m.resource
    let m1 : Machine := { m with calls := m.calls ++ planned.2 }
    match planned.1 with
    | .error f => { m1 with phase := .Failed f }
    | .ok p =>
      match p.operation with
      | none =>
        match p with
        | .NoOp =>
          if m.resource.removed then
            { m1 with phase := .Settled, resource := m.resource.clearFinalizers }
          else { m1 with phase := .Settled }
        | _ => { m1 with phase := .Applying p }
      | some op =>
        if Allows m.resource.policy op then { m1 with phase := .Applying p }
        else if m.resource.removed then
          { m1 with phase := .Settled, resource := m.resource.clearFinalizers }
        else { m1 with phase := .Settled }
  | .Applying p => applyPlan env m p
  | .Settled => m
  | .Blocked _ => m
  | .Failed _ => m

/-- Modelled from the spec: the machine after `n` transitions; the Reconciler Core is
missing from the sources. -/
def runFrom (env : Env) : Nat → Machine → Machine
  | 0, m => m
  | n + 1, m => runFrom env n (step env m)

/-- Modelled from the spec: one reconciliation run of a resource, from Pending through
Resolving, Planning and Applying to the state that ends it (section 4.5); the Reconciler
Core is missing from the sources. -/
def reconcile (env : Env) (r : ManagedResource) : Machine :=
  runFrom env 4 ⟨.Pending, r, []⟩


/-! ## Sample data for the scenarios of the design document -/

/-- The ResourceServerConf with no field set. -/
def ResourceServerConf.unset : ResourceServerConf :=
  { Id := none, Identifier := none, Name := none, Scopes := none, SigningAlgorithm := none,
    SigningSecret := none, AllowOfflineAccess := none, TokenLifetime := none,
    TokenLifetimeForWeb := none, SkipConsentForVerifiableFirstPartyClients := none,
    VerificationLocation := none, Options := none, EnforcePolicy := none,
    TokenDialect := none, ConsentPolicy := none, AuthorizationDetails := none,
    TokenEncryption := none, ProofOfPossession := none }

/-- A tenant `t1` that has been created: conf and lastConf both hold friendly_name
"Acme". -/
def sampleTenant : A0Tenant :=
  { TypeMeta := ⟨"A0Tenant", "kubernetes.auth0.com/v1"⟩,
    ObjectMeta := ⟨"t1", "default", none, none, none⟩,
    Spec := ⟨some [PolicyTypeCreate, PolicyTypeUpdate], "t1", none, none,
      some TenantConf.acme⟩,
    Status := ⟨some ⟨some (JSON.obj [("friendly_name", JSON.str "Acme")])⟩⟩ }

/-- A resource server of tenant `t1` with the given policy, removal mark and status. -/
def sampleResourceServer (policy : List V1EntityPolicyType) (deletion : Option String)
    (status : A0ResourceServerStatus) : A0ResourceServer :=
  { TypeMeta := ⟨"A0ResourceServer", "kubernetes.auth0.com/v1"⟩,
    ObjectMeta := ⟨"api", "default", none, deletion, some ["auth0-operator"]⟩,
    Spec := ⟨some policy, some ⟨none, "t1"⟩, none,
      some { ResourceServerConf.unset with Name := some "api" }⟩,
    Status := status }

/-- An environment in which the store holds the tenant `t1`, every remote object still
exists unless `gone`, Find matches nothing, every write is confirmed unless `failing`
(then it is applied in part only), a create returns the identifier "rs_new", and every
status write is accepted. -/
def sampleEnv (gone failing : Bool) : Env :=
  { store := fun k _ n =>
      if k = Kind.Tenant ∧ n = "t1" then some (ManagedResource.tenant sampleTenant) else none,
    liveRemote := fun _ _ => if gone then none else some (JSON.obj []),
    find := fun _ _ => .ok none,
    create := fun _ _ =>
      if failing then .incomplete .Transient else .confirmed ("rs_new", JSON.obj []),
    update := fun _ _ d => if failing then .incomplete .Transient else .confirmed d,
    delete := fun _ _ => if failing then .incomplete .Transient else .confirmed (),
    statusWrite := fun _ => true }


/-! ## Specs of all five root types -/

/-- A spec of any of the five root types. -/
inductive Spec where
  | tenant (s : A0TenantSpec)
  | client (s : A0ClientSpec)
  | clientGrant (s : A0ClientGrantSpec)
  | connection (s : A0ConnectionSpec)
  | resourceServer (s : A0ResourceServerSpec)

/-- The `Policy` field of the spec. -/
def Spec.policy : Spec → Option (List V1EntityPolicyType)
  | .tenant s => s.Policy
  | .client s => s.Policy
  | .clientGrant s => s.Policy
  | .connection s => s.Policy
  | .resourceServer s => s.Policy

/-- The spec with its `Policy` field replaced. -/
def Spec.withPolicy (p : Option (List V1EntityPolicyType)) : Spec → Spec
  | .tenant s => .tenant { s with Policy := p }
  | .client s => .client { s with Policy := p }
  | .clientGrant s => .clientGrant { s with Policy := p }
  | .connection s => .connection { s with Policy := p }
  | .resourceServer s => .resourceServer { s with Policy := p }

/-- The fields of the spec as the encoder sees them. -/
def Spec.fields : Spec → List FieldEnc
  | .tenant s => s.fields
  | .client s => s.fields
  | .clientGrant s => s.fields
  | .connection s => s.fields
  | .resourceServer s => s.fields

/-- The JSON encoding of the spec. -/
def Spec.toJSON (s : Spec) : JSON :=
  marshalStruct s.fields

/-- The declaration of the spec type. -/
def Spec.decl : Spec → StructDecl
  | .tenant _ => A0TenantSpec.decl
  | .client _ => A0ClientSpec.decl
  | .clientGrant _ => A0ClientGrantSpec.decl
  | .connection _ => A0ConnectionSpec.decl
  | .resourceServer _ => A0ResourceServerSpec.decl

/-- Decoding one element of a `[]V1EntityPolicyType`: a JSON string gives the string,
null leaves the element the empty string of the zero value and is no error, anything else
is a type error. -/
def decodePolicyType : JSON → Option V1EntityPolicyType
  | .str s => some s
  | .null => some ""
  | _ => none

/-- Decoding the `Policy` field of a spec (type `[]V1EntityPolicyType`, key "policy") from
the members of the encoded spec: a missing key leaves the nil slice of the zero value,
null sets the nil slice, an array gives the slice of its decoded elements, anything else
is a type error. -/
def decodePolicyField (members : List (String × JSON)) :
    Option (Option (List V1EntityPolicyType)) :=
  match lookupKey "policy" members with
  | none => some none
  | some .null => some none
  | some (.arr xs) => (xs.mapM decodePolicyType).map some
  | some _ => none

/-- The TenantFlags with no flag set. -/
def TenantFlags.unset : TenantFlags :=
  { ChangePasswordFlowV1 := none, EnableClientConnections := none,
    EnableApisSection := none, EnablePipelineV2 := none,
    EnableDynamicClientRegistration := none, EnableCustomDomainInEmails := none,
    UniversalLogin := none, EnableLegacyLogsSearchV2 := none,
    DisableClickjackProtectionHeaders := none, EnablePublicSignupUserExistsError := none,
    UseScope := none, AllowLegacyDelegationGrantTypes := none,
    AllowLegacyROGrantTypes := none, AllowLegacyTokenInfoEndpoint := none,
    EnableLegacyProfile := none, EnableIdTokenAPI := none,
    EnableIdTokenImplicitGrant := none }

/-- The ConnectionConf with no field set. -/
def ConnectionConf.unset : ConnectionConf :=
  { Name := none, DisplayName := none, Strategy := none, Options := none,
    ProvisioningTicketUrl := none, Metadata := none, Realms := none, ShowAsButton := none,
    IsDomainConnection := none }

/-! ## Markers with a value: defaults -/

/-- The text after `pre` in a marker that starts with `pre`. -/
def markerValue (pre marker : String) : Option String :=
  if pre.toList.isPrefixOf marker.toList then
    some (String.mk (marker.toList.drop pre.toList.length))
  else none

/-- The text of the `+kubebuilder:default:=` marker of a field, if it has one. -/
def FieldDecl.defaultText (f : FieldDecl) : Option String :=
  f.markers.findSome? (markerValue "kubebuilder:default:=")

/-- The JSON value a default text stands for: the literals true and false, any other text
as a string. -/
def parseDefault (s : String) : JSON :=
  if s = "false" then .bool false else if s = "true" then .bool true else .str s

/-- The declared default of a field, if it has one. -/
def FieldDecl.default (f : FieldDecl) : Option JSON :=
  f.defaultText.map parseDefault

/-- The defaults filled in when an object of the declared type is admitted: for every
field with a declared default whose key the object does not carry, or carries as null,
the key with the default value (the API server applies the defaults of the generated
schema to a submitted object before it is stored, and a null under a key that is not
marked nullable counts as a missing key; no field of the package is marked nullable). -/
def StructDecl.missingDefaults (d : StructDecl) (members : List (String × JSON)) :
    List (String × JSON) :=
  d.fields.filterMap fun f =>
    match f.default with
    | some v =>
      match lookupKey f.jsonKey members with
      | none => some (f.jsonKey, v)
      | some .null => some (f.jsonKey, v)
      | some _ => none
    | none => none

/-- The struct declares a default for the field with this json key. -/
def StructDecl.defaults (d : StructDecl) (key : String) : Bool :=
  d.fields.any fun f => decide (f.jsonKey = key) && f.default.isSome

/-- The members of an object of the declared type after the defaulting step of
admission: the members submitted, without the null members that a declared default
replaces, then the defaults filled in. -/
def StructDecl.applyDefaults (d : StructDecl) (members : List (String × JSON)) :
    List (String × JSON) :=
  (members.filter fun m => !(decide (m.2 = JSON.null) && d.defaults m.1)) ++
    d.missingDefaults members

/-- The fields of all declared structs that carry a default, as (struct, json key). -/
def defaultedFields : List (String × String) :=
  allStructDecls.foldr
    (fun d acc =>
      ((d.fields.filter fun f => f.default.isSome).map fun f => (d.name, f.jsonKey)) ++ acc)
    []

/-- The json keys an encoded struct of the declared type can carry: the key of every
field, and for the inlined `metav1.TypeMeta` its two keys. -/
def StructDecl.encodedKeys (d : StructDecl) : List String :=
  d.fields.foldr
    (fun f acc =>
      if f.tagOptions.contains "inline" then
        (if f.goType = "metav1.TypeMeta" then ["kind", "apiVersion"] ++ acc else acc)
      else f.jsonKey :: acc)
    []

/-- The key folded to lower case, as a decoder that matches keys without regard to case
compares it. -/
def foldCase (s : String) : String :=
  String.mk (s.toList.map Char.toLower)


/-- The `+` markers in the comment above each struct type, in source order per file
(common_types.go, clientgrant_types.go, client_types.go, connection_types.go,
resourceserver_types.go, tenant_types.go). -/
def typeMarkers : List (String × List String) :=
  [
   ("V1TenantReference", []),
   ("V1SecretReference", []),
   ("V1ConnectionReference", []),
   ("V1ResourceServerReference", []),
   ("A0ClientGrant", ["kubebuilder:object:root=true", "kubebuilder:subresource:status", "kubebuilder:resource:shortName=a0cgr", "genclient"]),
   ("A0ClientGrantList", ["kubebuilder:object:root=true"]),
   ("A0ClientGrantSpec", []),
   ("A0ClientGrantStatus", []),
   ("ClientGrantConf", []),
   ("V1ClientReference", []),
   ("A0Client", ["kubebuilder:object:root=true", "kubebuilder:subresource:status", "kubebuilder:resource:shortName=a0app", "genclient"]),
   ("A0ClientList", ["kubebuilder:object:root=true"]),
   ("A0ClientSpec", []),
   ("A0ClientStatus", []),
   ("ClientFind", []),
   ("ClientConf", []),
   ("SigningKey", []),
   ("ClientAuthenticationMethods", []),
   ("CredentialIdDef", []),
   ("PrivateKeyJwtDef", []),
   ("TlsClientAuthDef", []),
   ("SelfSignedTlsClientAuthDef", []),
   ("SignedRequestObject", []),
   ("Mobile", []),
   ("MobileAndroid", []),
   ("MobileIos", []),
   ("EncryptionKey", []),
   ("JwtConfiguration", []),
   ("Scopes", []),
   ("ScopeEntry", []),
   ("OidcLogoutConfig", []),
   ("BackchannelLogoutInitiators", []),
   ("RefreshToken", []),
   ("ClientResourceServerAssociation", []),
   ("DefaultOrganization", []),
   ("A0Connection", ["kubebuilder:object:root=true", "kubebuilder:subresource:status", "kubebuilder:resource:shortName=a0con", "genclient"]),
   ("A0ConnectionList", ["kubebuilder:object:root=true"]),
   ("A0ConnectionSpec", []),
   ("A0ConnectionStatus", []),
   ("ConnectionFind", []),
   ("ConnectionConf", []),
   ("A0ResourceServer", ["kubebuilder:object:root=true", "kubebuilder:subresource:status", "kubebuilder:resource:shortName=a0api", "genclient"]),
   ("A0ResourceServerList", ["kubebuilder:object:root=true"]),
   ("A0ResourceServerSpec", []),
   ("A0ResourceServerStatus", []),
   ("ResourceServerConf", []),
   ("ResourceServerScope", []),
   ("ResourceServerAuthorizationDetail", []),
   ("TokenEncryption", []),
   ("TokenEncryptionKey", []),
   ("ProofOfPossession", []),
   ("A0Tenant", ["kubebuilder:object:root=true", "kubebuilder:subresource:status", "kubebuilder:resource:shortName=a0tenant", "genclient"]),
   ("A0TenantList", ["kubebuilder:object:root=true"]),
   ("A0TenantSpec", []),
   ("A0TenantStatus", []),
   ("TenantAuth", []),
   ("TenantConf", []),
   ("TenantChangePassword", []),
   ("TenantGuardianMfaPage", []),
   ("TenantErrorPage", []),
   ("TenantDeviceFlow", []),
   ("TenantFlags", []),
   ("SessionCookie", [])]

/-! ## groupversion_info.go, doc.go, register.go -/

namespace Schema

/-- The library type `schema.GroupVersion`. -/
structure GroupVersion where
  Group : String
  Version : String
deriving DecidableEq

/-- The library type `schema.GroupVersionResource`. -/
structure GroupVersionResource where
  Group : String
  Version : String
  Resource : String
deriving DecidableEq

/-- The library type `schema.GroupResource`. -/
structure GroupResource where
  Group : String
  Resource : String
deriving DecidableEq

/-- The library type `schema.GroupVersionKind`. -/
structure GroupVersionKind where
  Group : String
  Version : String
  Kind : String
deriving DecidableEq

/-- The library method `GroupVersion.WithResource`. -/
def GroupVersion.WithResource (gv : GroupVersion) (resource : String) :
    GroupVersionResource :=
  ⟨gv.Group, gv.Version, resource⟩

/-- The library method `GroupVersion.WithKind`. -/
def GroupVersion.WithKind (gv : GroupVersion) (kind : String) : GroupVersionKind :=
  ⟨gv.Group, gv.Version, kind⟩

/-- The library method `GroupVersionResource.GroupResource`. -/
def GroupVersionResource.GroupResource (gvr : GroupVersionResource) : GroupResource :=
  ⟨gvr.Group, gvr.Resource⟩

end Schema

/-- The group name the package declares with `+groupName=kubernetes.auth0.com` (doc.go,
line 7; groupversion_info.go, line 3). -/
def groupName : String := "kubernetes.auth0.com"

/-- GroupVersion is group version used to register these objects (groupversion_info.go,
line 12). -/
def GroupVersion : Schema.GroupVersion :=
  { Group := "kubernetes.auth0.com", Version := "v1" }

/-- Resource takes an unqualified resource and returns a Group qualified GroupResource
(register.go, line 17). -/
def Resource (resource : String) : Schema.GroupResource :=
  (GroupVersion.WithResource resource).GroupResource

/-- A Go type as a scheme identifies it: its package and its name. -/
structure GoType where
  Pkg : String
  Name : String
deriving DecidableEq

/-- The library type `runtime.Scheme`, the part that records which Go type each group,
version and kind stands for (`gvkToType`) and which type each unversioned kind stands for
(`unversionedKinds`). Conversion and defaulting functions are not represented. -/
structure Scheme where
  gvkToType : List (Schema.GroupVersionKind × GoType)
  unversionedKinds : List (String × GoType)
  deriving DecidableEq

/-- The Go type registered under a kind, if any. -/
def Scheme.typeOf (s : Scheme) (gvk : Schema.GroupVersionKind) : Option GoType :=
  (s.gvkToType.find? fun e => decide (e.1 = gvk)).map Prod.snd

/-- The library method `Scheme.Recognizes`: the kind is registered. -/
def Scheme.Recognizes (s : Scheme) (gvk : Schema.GroupVersionKind) : Bool :=
  s.gvkToType.any fun e => decide (e.1 = gvk)

/-- The Go type registered as an unversioned kind, if any. -/
def Scheme.unversionedKind (s : Scheme) (kind : String) : Option GoType :=
  (s.unversionedKinds.find? fun e => decide (e.1 = kind)).map Prod.snd

/-- The library method `Scheme.AddKnownTypeWithName`: the kind stands for the type from now
on. The library panics, and the call never returns (`none`), when the version is empty
or when a different type is already registered under the kind (double registration of
different types). -/
def Scheme.AddKnownTypeWithName (s : Scheme) (gvk : Schema.GroupVersionKind)
    (goType : GoType) : Option Scheme :=
  if gvk.Version = "" then none
  else
    match s.typeOf gvk with
    | some old =>
      if old = goType then
        some { s with
          gvkToType := (gvk, goType) :: s.gvkToType.filter fun e => decide (e.1 ≠ gvk) }
      else none
    | none =>
      some { s with
        gvkToType := (gvk, goType) :: s.gvkToType.filter fun e => decide (e.1 ≠ gvk) }

/-- Registering a list of kinds with their types in order, each with
`AddKnownTypeWithName`; a panic on the way ends the call. -/
def Scheme.registerAll (s : Scheme) :
    List (Schema.GroupVersionKind × GoType) → Option Scheme
  | [] => some s
  | p :: rest =>
    match s.AddKnownTypeWithName p.1 p.2 with
    | none => none
    | some s1 => s1.registerAll rest

/-- The library method `Scheme.AddKnownTypes`: every type is registered, in order, under
the group version, with its type name as the kind; a panic on the way ends the call. -/
def Scheme.AddKnownTypes (s : Scheme) (gv : Schema.GroupVersion) (types : List GoType) :
    Option Scheme :=
  s.registerAll (types.map fun t => (gv.WithKind t.Name, t))

/-- The second half of the library method `Scheme.AddUnversionedTypes`: each type becomes
the unversioned kind of its name; the library panics when the kind name is already taken
by a different type. -/
def Scheme.setUnversionedKinds (s : Scheme) : List GoType → Option Scheme
  | [] => some s
  | t :: rest =>
    match s.unversionedKind t.Name with
    | some old =>
      if old = t then
        Scheme.setUnversionedKinds
          { s with unversionedKinds :=
              (t.Name, t) :: s.unversionedKinds.filter fun e => decide (e.1 ≠ t.Name) }
          rest
      else none
    | none =>
      Scheme.setUnversionedKinds
        { s with unversionedKinds :=
            (t.Name, t) :: s.unversionedKinds.filter fun e => decide (e.1 ≠ t.Name) }
        rest

/-- The library method `Scheme.AddUnversionedTypes`: the types are registered under the
version, then recorded as unversioned kinds. -/
def Scheme.AddUnversionedTypes (s : Scheme) (version : Schema.GroupVersion)
    (types : List GoType) : Option Scheme :=
  match s.AddKnownTypes version types with
  | none => none
  | some s1 => s1.setUnversionedKinds types

/-- The library variable `metav1.optionsTypes`. -/
def optionsTypes : List GoType :=
  [⟨"metav1", "ListOptions"⟩, ⟨"metav1", "GetOptions"⟩, ⟨"metav1", "DeleteOptions"⟩,
   ⟨"metav1", "CreateOptions"⟩, ⟨"metav1", "UpdateOptions"⟩, ⟨"metav1", "PatchOptions"⟩]

/-- The library variable `metav1.Unversioned`: group "" and version "v1". -/
def Unversioned : Schema.GroupVersion :=
  { Group := "", Version := "v1" }

/-- The types `metav1.AddToGroupVersion` registers as unversioned. -/
def unversionedTypes : List GoType :=
  [⟨"metav1", "Status"⟩, ⟨"metav1", "APIVersions"⟩, ⟨"metav1", "APIGroupList"⟩,
   ⟨"metav1", "APIGroup"⟩, ⟨"metav1", "APIResourceList"⟩]

/-- The library function `metav1.AddToGroupVersion`: WatchEvent is registered under the
group version and, as InternalEvent, under the internal version of the group; the option
types are registered under the group version; the unversioned types are registered under
group "" and version "v1". The conversion and defaulting functions it registers last are
not represented. -/
def AddToGroupVersion (s : Scheme) (gv : Schema.GroupVersion) : Option Scheme :=
  match s.AddKnownTypeWithName (gv.WithKind "WatchEvent") ⟨"metav1", "WatchEvent"⟩ with
  | none => none
  | some s1 =>
    match s1.AddKnownTypeWithName
        (Schema.GroupVersion.WithKind ⟨gv.Group, "__internal"⟩ "WatchEvent")
        ⟨"metav1", "InternalEvent"⟩ with
    | none => none
    | some s2 =>
      match s2.AddKnownTypes gv optionsTypes with
      | none => none
      | some s3 => s3.AddUnversionedTypes Unversioned unversionedTypes

/-- The types addKnownTypes passes to `scheme.AddKnownTypes` (register.go, lines 24 to
33), each a type of this package. -/
def knownTypes : List GoType :=
  [⟨"v1", "A0Client"⟩, ⟨"v1", "A0ClientList"⟩, ⟨"v1", "A0Connection"⟩,
   ⟨"v1", "A0ConnectionList"⟩, ⟨"v1", "A0ClientGrant"⟩, ⟨"v1", "A0ClientGrantList"⟩,
   ⟨"v1", "A0ResourceServer"⟩, ⟨"v1", "A0ResourceServerList"⟩, ⟨"v1", "A0Tenant"⟩,
   ⟨"v1", "A0TenantList"⟩]

/-- The Go function addKnownTypes (register.go, line 22): it adds the set of types defined
in this package to the supplied scheme, then the API machinery kinds, and returns nil.
The result is `none` when a registration panics and the call never returns; otherwise
the scheme as the call leaves it and the error returned (`none` is nil). -/
def addKnownTypes (scheme : Scheme) : Option (Scheme × Option String) :=
  match scheme.AddKnownTypes GroupVersion knownTypes with
  | none => none
  | some s1 =>
    match AddToGroupVersion s1 GroupVersion with
    | none => none
    | some s2 => some (s2, none)

/-- The library type `runtime.SchemeBuilder`: the functions to run on a scheme. -/
abbrev SchemeBuilderFuncs := List (Scheme → Option (Scheme × Option String))

/-- The library method `SchemeBuilder.AddToScheme`: the functions are run in order on the
scheme, and the first error ends the call. -/
def SchemeBuilderFuncs.AddToScheme :
    SchemeBuilderFuncs → Scheme → Option (Scheme × Option String)
  | [], s => some (s, none)
  | f :: rest, s =>
    match f s with
    | none => none
    | some (s1, none) => SchemeBuilderFuncs.AddToScheme rest s1
    | some (s1, some e) => some (s1, some e)

/-- SchemeBuilder initializes a scheme builder (register.go, line 11). -/
def SchemeBuilder : SchemeBuilderFuncs := [addKnownTypes]

/-- AddToScheme is a global function that registers the types with a scheme (register.go,
line 13). -/
def AddToScheme (s : Scheme) : Option (Scheme × Option String) :=
  SchemeBuilder.AddToScheme s

/-- Every registration one call of addKnownTypes makes, in order: group, version and
kind with the Go type. -/
def registrations : List (Schema.GroupVersionKind × GoType) :=
  (knownTypes.map fun t => (GroupVersion.WithKind t.Name, t)) ++
  [(GroupVersion.WithKind "WatchEvent", ⟨"metav1", "WatchEvent"⟩),
   (Schema.GroupVersion.WithKind ⟨GroupVersion.Group, "__internal"⟩ "WatchEvent",
     ⟨"metav1", "InternalEvent"⟩)] ++
  (optionsTypes.map fun t => (GroupVersion.WithKind t.Name, t)) ++
  (unversionedTypes.map fun t => (Unversioned.WithKind t.Name, t))

/-- The scheme holds no other type under a kind that addKnownTypes registers, versioned
or unversioned: each such kind is free, or already stands for the same type. -/
def Scheme.free (s : Scheme) : Bool :=
  (registrations.all fun p =>
    match s.typeOf p.1 with
    | none => true
    | some old => decide (old = p.2)) &&
  (unversionedTypes.all fun t =>
    match s.unversionedKind t.Name with
    | none => true
    | some old => decide (old = t))


/-- The root types the package declares: the struct types marked
`+kubebuilder:object:root=true`. -/
def rootTypes : List String :=
  (typeMarkers.filter fun t => t.2.contains "kubebuilder:object:root=true").map Prod.fst


/-! ## More of the design document: what a run leaves behind -/

/-- Modelled from the spec: the states that end a run, Settled, Blocked and Failed
(section 4.5); the Reconciler Core is missing from the sources. -/
def Phase.isTerminal : Phase → Bool
  | .Settled => true
  | .Blocked _ => true
  | .Failed _ => true
  | _ => false

/-- Modelled from the spec: the second resource is the first with, at most, another
`init` (section 3: init applies to the create request only); used to compare what the
planner, which is missing from the sources, does for the two. -/
def ManagedResource.sameButInit : ManagedResource → ManagedResource → Prop
  | .tenant o, .tenant o' => o' = { o with Spec := { o.Spec with Init := o'.Spec.Init } }
  | .client o, .client o' => o' = { o with Spec := { o.Spec with Init := o'.Spec.Init } }
  | .clientGrant o, .clientGrant o' =>
      o' = { o with Spec := { o.Spec with Init := o'.Spec.Init } }
  | .connection o, .connection o' =>
      o' = { o with Spec := { o.Spec with Init := o'.Spec.Init } }
  | .resourceServer o, .resourceServer o' =>
      o' = { o with Spec := { o.Spec with Init := o'.Spec.Init } }
  | _, _ => False

/-- The tenant `t1` of the scenario of section 8 before its first reconciliation, with the
given policy: conf sets friendly_name "Acme", the status is empty. -/
def scenarioTenant (policy : List V1EntityPolicyType) : A0Tenant :=
  { TypeMeta := ⟨"A0Tenant", "kubernetes.auth0.com/v1"⟩,
    ObjectMeta := ⟨"t1", "default", none, none, none⟩,
    Spec := ⟨some policy, "t1", none, none, some TenantConf.acme⟩,
    Status := ⟨none⟩ }

/-- The environment of the scenario of section 8: every remote object exists, Find
matches nothing, every write is confirmed, a create returns the identifier
"auth0|tnt_1", and every status write is accepted. -/
def scenarioEnv : Env :=
  { store := fun _ _ _ => none,
    liveRemote := fun _ _ => some (JSON.obj []),
    find := fun _ _ => .ok none,
    create := fun _ p => .confirmed ("auth0|tnt_1", p),
    update := fun _ _ d => .confirmed d,
    delete := fun _ _ => .confirmed (),
    statusWrite := fun _ => true }

/-- A resource server as `sampleResourceServer`, with an `init` that sets a signing
secret. -/
def sampleResourceServerWithInit (policy : List V1EntityPolicyType)
    (status : A0ResourceServerStatus) : A0ResourceServer :=
  { TypeMeta := ⟨"A0ResourceServer", "kubernetes.auth0.com/v1"⟩,
    ObjectMeta := ⟨"api", "default", none, none, some ["auth0-operator"]⟩,
    Spec := ⟨some policy, some ⟨none, "t1"⟩,
      some { ResourceServerConf.unset with SigningSecret := some "s3cret" },
      some { ResourceServerConf.unset with Name := some "api" }⟩,
    Status := status }


/-! ## Validation markers against json tags -/

/-- The field carries a validation marker: Required, or Optional. -/
def FieldDecl.marked (f : FieldDecl) : Bool :=
  f.required || f.optional

/-- The field is inlined: its tag says `inline`. -/
def FieldDecl.inlined (f : FieldDecl) : Bool :=
  f.tagOptions.contains "inline"

/-- The key and the `omitempty` of every field an encoded struct of the declared type can
carry, in order: for a field of its own the key of its tag, for the inlined
`metav1.TypeMeta` its two fields, both tagged omitempty. -/
def StructDecl.encodedTags (d : StructDecl) : List (String × Bool) :=
  d.fields.foldr
    (fun f acc =>
      if f.inlined then
        (if f.goType = "metav1.TypeMeta" then [("kind", true), ("apiVersion", true)] ++ acc
          else acc)
      else (f.jsonKey, f.omitempty) :: acc)
    []

/-- A value of any struct type the package declares. -/
inductive AnyStruct where
  | ofV1TenantReference (x : V1TenantReference)
  | ofV1SecretReference (x : V1SecretReference)
  | ofV1ConnectionReference (x : V1ConnectionReference)
  | ofV1ResourceServerReference (x : V1ResourceServerReference)
  | ofA0ClientGrant (x : A0ClientGrant)
  | ofA0ClientGrantList (x : A0ClientGrantList)
  | ofA0ClientGrantSpec (x : A0ClientGrantSpec)
  | ofA0ClientGrantStatus (x : A0ClientGrantStatus)
  | ofClientGrantConf (x : ClientGrantConf)
  | ofV1ClientReference (x : V1ClientReference)
  | ofA0Client (x : A0Client)
  | ofA0ClientList (x : A0ClientList)
  | ofA0ClientSpec (x : A0ClientSpec)
  | ofA0ClientStatus (x : A0ClientStatus)
  | ofClientFind (x : ClientFind)
  | ofClientConf (x : ClientConf)
  | ofSigningKey (x : SigningKey)
  | ofClientAuthenticationMethods (x : ClientAuthenticationMethods)
  | ofCredentialIdDef (x : CredentialIdDef)
  | ofPrivateKeyJwtDef (x : PrivateKeyJwtDef)
  | ofTlsClientAuthDef (x : TlsClientAuthDef)
  | ofSelfSignedTlsClientAuthDef (x : SelfSignedTlsClientAuthDef)
  | ofSignedRequestObject (x : SignedRequestObject)
  | ofMobile (x : Mobile)
  | ofMobileAndroid (x : MobileAndroid)
  | ofMobileIos (x : MobileIos)
  | ofEncryptionKey (x : EncryptionKey)
  | ofJwtConfiguration (x : JwtConfiguration)
  | ofScopes (x : Scopes)
  | ofScopeEntry (x : ScopeEntry)
  | ofOidcLogoutConfig (x : OidcLogoutConfig)
  | ofBackchannelLogoutInitiators (x : BackchannelLogoutInitiators)
  | ofRefreshToken (x : RefreshToken)
  | ofClientResourceServerAssociation (x : ClientResourceServerAssociation)
  | ofDefaultOrganization (x : DefaultOrganization)
  | ofA0Connection (x : A0Connection)
  | ofA0ConnectionList (x : A0ConnectionList)
  | ofA0ConnectionSpec (x : A0ConnectionSpec)
  | ofA0ConnectionStatus (x : A0ConnectionStatus)
  | ofConnectionFind (x : ConnectionFind)
  | ofConnectionConf (x : ConnectionConf)
  | ofA0ResourceServer (x : A0ResourceServer)
  | ofA0ResourceServerList (x : A0ResourceServerList)
  | ofA0ResourceServerSpec (x : A0ResourceServerSpec)
  | ofA0ResourceServerStatus (x : A0ResourceServerStatus)
  | ofResourceServerConf (x : ResourceServerConf)
  | ofResourceServerScope (x : ResourceServerScope)
  | ofResourceServerAuthorizationDetail (x : ResourceServerAuthorizationDetail)
  | ofTokenEncryption (x : TokenEncryption)
  | ofTokenEncryptionKey (x : TokenEncryptionKey)
  | ofProofOfPossession (x : ProofOfPossession)
  | ofA0Tenant (x : A0Tenant)
  | ofA0TenantList (x : A0TenantList)
  | ofA0TenantSpec (x : A0TenantSpec)
  | ofA0TenantStatus (x : A0TenantStatus)
  | ofTenantAuth (x : TenantAuth)
  | ofTenantConf (x : TenantConf)
  | ofTenantChangePassword (x : TenantChangePassword)
  | ofTenantGuardianMfaPage (x : TenantGuardianMfaPage)
  | ofTenantErrorPage (x : TenantErrorPage)
  | ofTenantDeviceFlow (x : TenantDeviceFlow)
  | ofTenantFlags (x : TenantFlags)
  | ofSessionCookie (x : SessionCookie)

/-- The fields of the value as the encoder sees them. -/
def AnyStruct.fields : AnyStruct → List FieldEnc
  | .ofV1TenantReference x => x.fields
  | .ofV1SecretReference x => x.fields
  | .ofV1ConnectionReference x => x.fields
  | .ofV1ResourceServerReference x => x.fields
  | .ofA0ClientGrant x => x.fields
  | .ofA0ClientGrantList x => x.fields
  | .ofA0ClientGrantSpec x => x.fields
  | .ofA0ClientGrantStatus x => x.fields
  | .ofClientGrantConf x => x.fields
  | .ofV1ClientReference x => x.fields
  | .ofA0Client x => x.fields
  | .ofA0ClientList x => x.fields
  | .ofA0ClientSpec x => x.fields
  | .ofA0ClientStatus x => x.fields
  | .ofClientFind x => x.fields
  | .ofClientConf x => x.fields
  | .ofSigningKey x => x.fields
  | .ofClientAuthenticationMethods x => x.fields
  | .ofCredentialIdDef x => x.fields
  | .ofPrivateKeyJwtDef x => x.fields
  | .ofTlsClientAuthDef x => x.fields
  | .ofSelfSignedTlsClientAuthDef x => x.fields
  | .ofSignedRequestObject x => x.fields
  | .ofMobile x => x.fields
  | .ofMobileAndroid x => x.fields
  | .ofMobileIos x => x.fields
  | .ofEncryptionKey x => x.fields
  | .ofJwtConfiguration x => x.fields
  | .ofScopes x => x.fields
  | .ofScopeEntry x => x.fields
  | .ofOidcLogoutConfig x => x.fields
  | .ofBackchannelLogoutInitiators x => x.fields
  | .ofRefreshToken x => x.fields
  | .ofClientResourceServerAssociation x => x.fields
  | .ofDefaultOrganization x => x.fields
  | .ofA0Connection x => x.fields
  | .ofA0ConnectionList x => x.fields
  | .ofA0ConnectionSpec x => x.fields
  | .ofA0ConnectionStatus x => x.fields
  | .ofConnectionFind x => x.fields
  | .ofConnectionConf x => x.fields
  | .ofA0ResourceServer x => x.fields
  | .ofA0ResourceServerList x => x.fields
  | .ofA0ResourceServerSpec x => x.fields
  | .ofA0ResourceServerStatus x => x.fields
  | .ofResourceServerConf x => x.fields
  | .ofResourceServerScope x => x.fields
  | .ofResourceServerAuthorizationDetail x => x.fields
  | .ofTokenEncryption x => x.fields
  | .ofTokenEncryptionKey x => x.fields
  | .ofProofOfPossession x => x.fields
  | .ofA0Tenant x => x.fields
  | .ofA0TenantList x => x.fields
  | .ofA0TenantSpec x => x.fields
  | .ofA0TenantStatus x => x.fields
  | .ofTenantAuth x => x.fields
  | .ofTenantConf x => x.fields
  | .ofTenantChangePassword x => x.fields
  | .ofTenantGuardianMfaPage x => x.fields
  | .ofTenantErrorPage x => x.fields
  | .ofTenantDeviceFlow x => x.fields
  | .ofTenantFlags x => x.fields
  | .ofSessionCookie x => x.fields

/-- The declaration of the struct type of the value. -/
def AnyStruct.decl : AnyStruct → StructDecl
  | .ofV1TenantReference _ => V1TenantReference.decl
  | .ofV1SecretReference _ => V1SecretReference.decl
  | .ofV1ConnectionReference _ => V1ConnectionReference.decl
  | .ofV1ResourceServerReference _ => V1ResourceServerReference.decl
  | .ofA0ClientGrant _ => A0ClientGrant.decl
  | .ofA0ClientGrantList _ => A0ClientGrantList.decl
  | .ofA0ClientGrantSpec _ => A0ClientGrantSpec.decl
  | .ofA0ClientGrantStatus _ => A0ClientGrantStatus.decl
  | .ofClientGrantConf _ => ClientGrantConf.decl
  | .ofV1ClientReference _ => V1ClientReference.decl
  | .ofA0Client _ => A0Client.decl
  | .ofA0ClientList _ => A0ClientList.decl
  | .ofA0ClientSpec _ => A0ClientSpec.decl
  | .ofA0ClientStatus _ => A0ClientStatus.decl
  | .ofClientFind _ => ClientFind.decl
  | .ofClientConf _ => ClientConf.decl
  | .ofSigningKey _ => SigningKey.decl
  | .ofClientAuthenticationMethods _ => ClientAuthenticationMethods.decl
  | .ofCredentialIdDef _ => CredentialIdDef.decl
  | .ofPrivateKeyJwtDef _ => PrivateKeyJwtDef.decl
  | .ofTlsClientAuthDef _ => TlsClientAuthDef.decl
  | .ofSelfSignedTlsClientAuthDef _ => SelfSignedTlsClientAuthDef.decl
  | .ofSignedRequestObject _ => SignedRequestObject.decl
  | .ofMobile _ => Mobile.decl
  | .ofMobileAndroid _ => MobileAndroid.decl
  | .ofMobileIos _ => MobileIos.decl
  | .ofEncryptionKey _ => EncryptionKey.decl
  | .ofJwtConfiguration _ => JwtConfiguration.decl
  | .ofScopes _ => Scopes.decl
  | .ofScopeEntry _ => ScopeEntry.decl
  | .ofOidcLogoutConfig _ => OidcLogoutConfig.decl
  | .ofBackchannelLogoutInitiators _ => BackchannelLogoutInitiators.decl
  | .ofRefreshToken _ => RefreshToken.decl
  | .ofClientResourceServerAssociation _ => ClientResourceServerAssociation.decl
  | .ofDefaultOrganization _ => DefaultOrganization.decl
  | .ofA0Connection _ => A0Connection.decl
  | .ofA0ConnectionList _ => A0ConnectionList.decl
  | .ofA0ConnectionSpec _ => A0ConnectionSpec.decl
  | .ofA0ConnectionStatus _ => A0ConnectionStatus.decl
  | .ofConnectionFind _ => ConnectionFind.decl
  | .ofConnectionConf _ => ConnectionConf.decl
  | .ofA0ResourceServer _ => A0ResourceServer.decl
  | .ofA0ResourceServerList _ => A0ResourceServerList.decl
  | .ofA0ResourceServerSpec _ => A0ResourceServerSpec.decl
  | .ofA0ResourceServerStatus _ => A0ResourceServerStatus.decl
  | .ofResourceServerConf _ => ResourceServerConf.decl
  | .ofResourceServerScope _ => ResourceServerScope.decl
  | .ofResourceServerAuthorizationDetail _ => ResourceServerAuthorizationDetail.decl
  | .ofTokenEncryption _ => TokenEncryption.decl
  | .ofTokenEncryptionKey _ => TokenEncryptionKey.decl
  | .ofProofOfPossession _ => ProofOfPossession.decl
  | .ofA0Tenant _ => A0Tenant.decl
  | .ofA0TenantList _ => A0TenantList.decl
  | .ofA0TenantSpec _ => A0TenantSpec.decl
  | .ofA0TenantStatus _ => A0TenantStatus.decl
  | .ofTenantAuth _ => TenantAuth.decl
  | .ofTenantConf _ => TenantConf.decl
  | .ofTenantChangePassword _ => TenantChangePassword.decl
  | .ofTenantGuardianMfaPage _ => TenantGuardianMfaPage.decl
  | .ofTenantErrorPage _ => TenantErrorPage.decl
  | .ofTenantDeviceFlow _ => TenantDeviceFlow.decl
  | .ofTenantFlags _ => TenantFlags.decl
  | .ofSessionCookie _ => SessionCookie.decl

/-- The JSON object the value is written as. -/
def AnyStruct.toJSON (v : AnyStruct) : JSON :=
  marshalStruct v.fields

/-! ## Which fields of a value hold something

For each struct type, per json key in declaration order, whether the Go field under the
key holds a value: a pointer that is not nil, a slice with at least one element, a string
that is not empty; a struct held by value always does. Read off the struct itself, not
off its encoding. -/

/-- The two fields of the inlined `metav1.TypeMeta`. -/
def TypeMeta.present (x : TypeMeta) : List (String × Bool) :=
  [("kind", !decide (x.Kind = "")), ("apiVersion", !decide (x.APIVersion = ""))]

def V1TenantReference.present (x : V1TenantReference) : List (String × Bool) :=
  [("namespace", !x.Namespace.isNone),
   ("name", !decide (x.Name = ""))]

def V1SecretReference.present (x : V1SecretReference) : List (String × Bool) :=
  [("name", !decide (x.Name = "")),
   ("namespace", !decide (x.Namespace = ""))]

def V1ConnectionReference.present (x : V1ConnectionReference) : List (String × Bool) :=
  [("namespace", !x.Namespace.isNone),
   ("name", !x.Name.isNone),
   ("id", !x.Id.isNone)]

def V1ResourceServerReference.present (x : V1ResourceServerReference) : List (String × Bool) :=
  [("identifier", !x.Identifier.isNone),
   ("scopes", !(x.Scopes.getD []).isEmpty)]

def A0ClientGrant.present (x : A0ClientGrant) : List (String × Bool) :=
  TypeMeta.present x.TypeMeta ++
  [("metadata", true),
   ("spec", true),
   ("status", true)]

def A0ClientGrantList.present (x : A0ClientGrantList) : List (String × Bool) :=
  TypeMeta.present x.TypeMeta ++
  [("metadata", true),
   ("items", !(x.Items.getD []).isEmpty)]

def A0ClientGrantSpec.present (x : A0ClientGrantSpec) : List (String × Bool) :=
  [("policy", !(x.Policy.getD []).isEmpty),
   ("tenantRef", !x.TenantRef.isNone),
   ("init", !x.Init.isNone),
   ("conf", !x.Conf.isNone)]

def A0ClientGrantStatus.present (x : A0ClientGrantStatus) : List (String × Bool) :=
  [("id", !x.Id.isNone),
   ("lastConf", !x.LastConf.isNone)]

def ClientGrantConf.present (x : ClientGrantConf) : List (String × Bool) :=
  [("clientRef", !x.ClientRef.isNone),
   ("audience", !x.Audience.isNone),
   ("scope", !(x.Scope.getD []).isEmpty)]

def V1ClientReference.present (x : V1ClientReference) : List (String × Bool) :=
  [("namespace", !x.Namespace.isNone),
   ("name", !x.Name.isNone),
   ("id", !x.Id.isNone)]

def A0Client.present (x : A0Client) : List (String × Bool) :=
  TypeMeta.present x.TypeMeta ++
  [("metadata", true),
   ("spec", true),
   ("status", true)]

def A0ClientList.present (x : A0ClientList) : List (String × Bool) :=
  TypeMeta.present x.TypeMeta ++
  [("metadata", true),
   ("items", !(x.Items.getD []).isEmpty)]

def A0ClientSpec.present (x : A0ClientSpec) : List (String × Bool) :=
  [("policy", !(x.Policy.getD []).isEmpty),
   ("tenantRef", !x.TenantRef.isNone),
   ("secretRef", !x.SecretRef.isNone),
   ("find", !x.Find.isNone),
   ("init", !x.Init.isNone),
   ("conf", !x.Conf.isNone)]

def A0ClientStatus.present (x : A0ClientStatus) : List (String × Bool) :=
  [("id", !x.Id.isNone),
   ("lastConf", !x.LastConf.isNone)]

def ClientFind.present (x : ClientFind) : List (String × Bool) :=
  [("client_id", !x.ClientId.isNone),
   ("callback_urls", !(x.CallbackUrls.getD []).isEmpty),
   ("callback_url_match_mode", !x.CallbackUrlMatchMode.isNone)]

def ClientConf.present (x : ClientConf) : List (String × Bool) :=
  [("signing_keys", !(x.SigningKeys.getD []).isEmpty),
   ("app_type", !x.ApplicationType.isNone),
   ("token_endpoint_auth_method", !x.TokenEndpointAuthMethod.isNone),
   ("client_authentication_methods", !x.ClientAuthenticationMethods.isNone),
   ("signed_request_object", !x.SignedRequestObject.isNone),
   ("addons", !x.AddOns.isNone),
   ("allowed_clients", !(x.AllowedClients.getD []).isEmpty),
   ("allowed_logout_urls", !(x.AllowedLogoutUrls.getD []).isEmpty),
   ("allowed_origins", !(x.AllowedOrigins.getD []).isEmpty),
   ("web_origins", !(x.WebOrigins.getD []).isEmpty),
   ("initiate_login_uri", !x.InitiateLoginUri.isNone),
   ("callbacks", !(x.Callbacks.getD []).isEmpty),
   ("client_aliases", !(x.ClientAliases.getD []).isEmpty),
   ("client_metadata", !x.ClientMetadata.isNone),
   ("custom_login_page_on", !x.IsCustomLoginPageOn.isNone),
   ("is_first_party", !x.IsFirstParty.isNone),
   ("custom_login_page", !x.CustomLoginPage.isNone),
   ("custom_login_page_preview", !x.CustomLoginPagePreview.isNone),
   ("encryption_key", !x.EncryptionKey.isNone),
   ("form_template", !x.FormTemplate.isNone),
   ("grant_types", !(x.GrantTypes.getD []).isEmpty),
   ("jwt_configuration", !x.JwtConfiguration.isNone),
   ("mobile", !x.Mobile.isNone),
   ("name", !x.Name.isNone),
   ("description", !x.Description.isNone),
   ("logo_uri", !x.LogoUri.isNone),
   ("oidc_conformant", !x.OidcConformant.isNone),
   ("oidc_logout", !x.OidcLogout.isNone),
   ("resource_servers", !(x.ResourceServers.getD []).isEmpty),
   ("sso", !x.Sso.isNone),
   ("refresh_token", !x.RefreshToken.isNone),
   ("organization_usage", !x.OrganizationUsage.isNone),
   ("organization_require_behavior", !x.OrganizationRequireBehavior.isNone),
   ("cross_origin_authentication", !x.CrossOriginAuthentication.isNone),
   ("require_pushed_authorization_requests", !x.RequirePushedAuthorizationRequests.isNone),
   ("default_organization", !x.DefaultOrganization.isNone),
   ("compliance_level", !x.ComplianceLevel.isNone),
   ("require_proof_of_possession", !x.RequireProofOfPossession.isNone),
   ("enabled_connections", !(x.EnabledConnections.getD []).isEmpty)]

def SigningKey.present (x : SigningKey) : List (String × Bool) :=
  [("cert", !x.Cert.isNone),
   ("key", !x.Key.isNone),
   ("pkcs7", !x.Pkcs7.isNone)]

def ClientAuthenticationMethods.present (x : ClientAuthenticationMethods) : List (String × Bool) :=
  [("private_key_jwt", !x.PrivateKeyJwt.isNone),
   ("tls_client_auth", !x.TlsClientAuth.isNone),
   ("self_signed_tls_client_auth", !x.SelfSignedTlsClientAuth.isNone)]

def CredentialIdDef.present (x : CredentialIdDef) : List (String × Bool) :=
  [("id", !x.Id.isNone)]

def PrivateKeyJwtDef.present (x : PrivateKeyJwtDef) : List (String × Bool) :=
  [("credentials", !(x.Credentials.getD []).isEmpty)]

def TlsClientAuthDef.present (x : TlsClientAuthDef) : List (String × Bool) :=
  [("credentials", !(x.Credentials.getD []).isEmpty)]

def SelfSignedTlsClientAuthDef.present (x : SelfSignedTlsClientAuthDef) : List (String × Bool) :=
  [("credentials", !(x.Credentials.getD []).isEmpty)]

def SignedRequestObject.present (x : SignedRequestObject) : List (String × Bool) :=
  [("required", !x.Required.isNone),
   ("credentials", !(x.Credentials.getD []).isEmpty)]

def Mobile.present (x : Mobile) : List (String × Bool) :=
  [("android", !x.Android.isNone),
   ("ios", !x.Ios.isNone)]

def MobileAndroid.present (x : MobileAndroid) : List (String × Bool) :=
  [("app_package_name", !x.AppPackageName.isNone),
   ("keystore_hash", !x.KeystoreHash.isNone)]

def MobileIos.present (x : MobileIos) : List (String × Bool) :=
  [("app_bundle_identifier", !x.AppBundleIdentifier.isNone),
   ("team_id", !x.TeamId.isNone)]

def EncryptionKey.present (x : EncryptionKey) : List (String × Bool) :=
  [("cert", !x.Certificate.isNone),
   ("pub", !x.PublicKey.isNone),
   ("subject", !x.Subject.isNone)]

def JwtConfiguration.present (x : JwtConfiguration) : List (String × Bool) :=
  [("secret_encoded", !x.IsSecretEncoded.isNone),
   ("lifetime_in_seconds", !x.LifetimeInSeconds.isNone),
   ("scopes", !x.Scopes.isNone),
   ("alg", !x.SigningAlgorithm.isNone)]

def Scopes.present (x : Scopes) : List (String × Bool) :=
  [("users", !x.Users.isNone),
   ("users_app_metadata", !x.UsersAppMetadata.isNone),
   ("clients", !x.Clients.isNone),
   ("client_keys", !x.ClientKeys.isNone),
   ("tokens", !x.Tokens.isNone),
   ("stats", !x.Stats.isNone)]

def ScopeEntry.present (x : ScopeEntry) : List (String × Bool) :=
  [("actions", !(x.Actions.getD []).isEmpty)]

def OidcLogoutConfig.present (x : OidcLogoutConfig) : List (String × Bool) :=
  [("backchannel_logout_urls", !(x.BackchannelLogoutUrls.getD []).isEmpty),
   ("backchannel_logout_initiators", !x.BackchannelLogoutInitiators.isNone)]

def BackchannelLogoutInitiators.present (x : BackchannelLogoutInitiators) : List (String × Bool) :=
  [("mode", !x.Mode.isNone),
   ("selected_initiators", !(x.SelectedInitiators.getD []).isEmpty)]

def RefreshToken.present (x : RefreshToken) : List (String × Bool) :=
  [("rotation_type", !x.RotationType.isNone),
   ("expiration_type", !x.ExpirationType.isNone),
   ("leeway", !x.Leeway.isNone),
   ("token_lifetime", !x.TokenLifetime.isNone),
   ("infinite_token_lifetime", !x.InfiniteTokenLifetime.isNone),
   ("idle_token_lifetime", !x.IdleTokenLifetime.isNone),
   ("infinite_idle_token_lifetime", !x.InfiniteIdleTokenLifetime.isNone)]

def ClientResourceServerAssociation.present (x : ClientResourceServerAssociation) : List (String × Bool) :=
  [("identifier", !x.Identifier.isNone),
   ("scopes", !(x.Scopes.getD []).isEmpty)]

def DefaultOrganization.present (x : DefaultOrganization) : List (String × Bool) :=
  [("organization_id", !x.OrganizationId.isNone),
   ("flows", !(x.Flows.getD []).isEmpty)]

def A0Connection.present (x : A0Connection) : List (String × Bool) :=
  TypeMeta.present x.TypeMeta ++
  [("metadata", true),
   ("spec", true),
   ("status", true)]

def A0ConnectionList.present (x : A0ConnectionList) : List (String × Bool) :=
  TypeMeta.present x.TypeMeta ++
  [("metadata", true),
   ("items", !(x.Items.getD []).isEmpty)]

def A0ConnectionSpec.present (x : A0ConnectionSpec) : List (String × Bool) :=
  [("policy", !(x.Policy.getD []).isEmpty),
   ("tenantRef", !x.TenantRef.isNone),
   ("find", !x.Find.isNone),
   ("init", !x.Init.isNone),
   ("conf", !x.Conf.isNone)]

def A0ConnectionStatus.present (x : A0ConnectionStatus) : List (String × Bool) :=
  [("id", !x.Id.isNone),
   ("lastConf", !x.LastConf.isNone)]

def ConnectionFind.present (x : ConnectionFind) : List (String × Bool) :=
  [("id", !x.ConnectionId.isNone)]

def ConnectionConf.present (x : ConnectionConf) : List (String × Bool) :=
  [("name", !x.Name.isNone),
   ("display_name", !x.DisplayName.isNone),
   ("strategy", !x.Strategy.isNone),
   ("options", !x.Options.isNone),
   ("provisioning_ticket_url", !x.ProvisioningTicketUrl.isNone),
   ("metadata", !x.Metadata.isNone),
   ("realms", !(x.Realms.getD []).isEmpty),
   ("show_as_button", !x.ShowAsButton.isNone),
   ("is_domain_connection", !x.IsDomainConnection.isNone)]

def A0ResourceServer.present (x : A0ResourceServer) : List (String × Bool) :=
  TypeMeta.present x.TypeMeta ++
  [("metadata", true),
   ("spec", true),
   ("status", true)]

def A0ResourceServerList.present (x : A0ResourceServerList) : List (String × Bool) :=
  TypeMeta.present x.TypeMeta ++
  [("metadata", true),
   ("items", !(x.Items.getD []).isEmpty)]

def A0ResourceServerSpec.present (x : A0ResourceServerSpec) : List (String × Bool) :=
  [("policy", !(x.Policy.getD []).isEmpty),
   ("tenantRef", !x.TenantRef.isNone),
   ("init", !x.Init.isNone),
   ("conf", !x.Conf.isNone)]

def A0ResourceServerStatus.present (x : A0ResourceServerStatus) : List (String × Bool) :=
  [("id", !x.Id.isNone),
   ("identifier", !x.Identifier.isNone),
   ("lastConf", !x.LastConf.isNone)]

def ResourceServerConf.present (x : ResourceServerConf) : List (String × Bool) :=
  [("id", !x.Id.isNone),
   ("identifier", !x.Identifier.isNone),
   ("name", !x.Name.isNone),
   ("scopes", !(x.Scopes.getD []).isEmpty),
   ("signing_alg", !x.SigningAlgorithm.isNone),
   ("signing_secret", !x.SigningSecret.isNone),
   ("allow_offline_access", !x.AllowOfflineAccess.isNone),
   ("token_lifetime", !x.TokenLifetime.isNone),
   ("token_lifetime_for_web", !x.TokenLifetimeForWeb.isNone),
   ("skip_consent_for_verifiable_first_party_clients", !x.SkipConsentForVerifiableFirstPartyClients.isNone),
   ("verification_location", !x.VerificationLocation.isNone),
   ("options", !x.Options.isNone),
   ("enforce_policies", !x.EnforcePolicy.isNone),
   ("token_dialect", !x.TokenDialect.isNone),
   ("consent_policy", !x.ConsentPolicy.isNone),
   ("authorization_details", !(x.AuthorizationDetails.getD []).isEmpty),
   ("token_encryption", !x.TokenEncryption.isNone),
   ("proof_of_possession", !x.ProofOfPossession.isNone)]

def ResourceServerScope.present (x : ResourceServerScope) : List (String × Bool) :=
  [("value", !x.Value.isNone),
   ("description", !x.Description.isNone)]

def ResourceServerAuthorizationDetail.present (x : ResourceServerAuthorizationDetail) : List (String × Bool) :=
  [("type", !x.Type_.isNone)]

def TokenEncryption.present (x : TokenEncryption) : List (String × Bool) :=
  [("encryption_key", !x.EncryptionKey.isNone),
   ("format", !x.Format.isNone)]

def TokenEncryptionKey.present (x : TokenEncryptionKey) : List (String × Bool) :=
  [("name", !x.Name.isNone),
   ("alg", !x.Algorithm.isNone),
   ("kid", !x.KeyId.isNone),
   ("pem", !x.Pem.isNone)]

def ProofOfPossession.present (x : ProofOfPossession) : List (String × Bool) :=
  [("mechanism", !x.Mechanism.isNone),
   ("required", !x.Required.isNone)]

def A0Tenant.present (x : A0Tenant) : List (String × Bool) :=
  TypeMeta.present x.TypeMeta ++
  [("metadata", true),
   ("spec", true),
   ("status", true)]

def A0TenantList.present (x : A0TenantList) : List (String × Bool) :=
  TypeMeta.present x.TypeMeta ++
  [("metadata", true),
   ("items", !(x.Items.getD []).isEmpty)]

def A0TenantSpec.present (x : A0TenantSpec) : List (String × Bool) :=
  [("policy", !(x.Policy.getD []).isEmpty),
   ("name", !decide (x.Name = "")),
   ("auth", !x.Auth.isNone),
   ("init", !x.Init.isNone),
   ("conf", !x.Conf.isNone)]

def A0TenantStatus.present (x : A0TenantStatus) : List (String × Bool) :=
  [("lastConf", !x.LastConf.isNone)]

def TenantAuth.present (x : TenantAuth) : List (String × Bool) :=
  [("domain", !x.Domain.isNone),
   ("secretRef", !x.SecretRef.isNone)]

def TenantConf.present (x : TenantConf) : List (String × Bool) :=
  [("friendly_name", !x.FriendlyName.isNone),
   ("support_email", !x.SupportEmail.isNone),
   ("support_url", !x.SupportUrl.isNone),
   ("enabled_locales", !(x.EnabledLocales.getD []).isEmpty),
   ("change_password", !x.ChangePassword.isNone),
   ("guardian_mfa_page", !x.GuardianMfaPage.isNone),
   ("default_audience", !x.DefaultAudience.isNone),
   ("default_directory", !x.DefaultDirectory.isNone),
   ("error_page", !x.ErrorPage.isNone),
   ("device_flow", !x.DeviceFlow.isNone),
   ("flags", !x.Flags.isNone),
   ("session_cookie", !x.SessionCookie.isNone),
   ("sessions", !x.Sessions.isNone),
   ("sandbox_version", !x.SandboxVersion.isNone),
   ("idle_session_lifetime", !x.IdleSessionLifetime.isNone),
   ("session_lifetime", !x.SessionLifetime.isNone),
   ("allowed_logout_urls", !(x.AllowedLogoutUrls.getD []).isEmpty),
   ("session_cookie_mode", !x.SessionCookieMode.isNone)]

def TenantChangePassword.present (x : TenantChangePassword) : List (String × Bool) :=
  [("enabled", !x.Enabled.isNone),
   ("html", !x.Html.isNone)]

def TenantGuardianMfaPage.present (x : TenantGuardianMfaPage) : List (String × Bool) :=
  [("enabled", !x.Enabled.isNone),
   ("html", !x.Html.isNone)]

def TenantErrorPage.present (x : TenantErrorPage) : List (String × Bool) :=
  [("html", !x.Html.isNone),
   ("show_log_link", !x.ShowLogLink.isNone),
   ("url", !x.Url.isNone)]

def TenantDeviceFlow.present (x : TenantDeviceFlow) : List (String × Bool) :=
  [("charset", !x.Charset.isNone),
   ("mask", !x.Mask.isNone)]

def TenantFlags.present (x : TenantFlags) : List (String × Bool) :=
  [("change_pwd_flow_v1", !x.ChangePasswordFlowV1.isNone),
   ("enable_client_connections", !x.EnableClientConnections.isNone),
   ("enable_apis_section", !x.EnableApisSection.isNone),
   ("enable_pipeline2", !x.EnablePipelineV2.isNone),
   ("enable_dynamic_client_registration", !x.EnableDynamicClientRegistration.isNone),
   ("enable_custom_domain_in_emails", !x.EnableCustomDomainInEmails.isNone),
   ("universal_login", !x.UniversalLogin.isNone),
   ("enable_legacy_logs_search_v2", !x.EnableLegacyLogsSearchV2.isNone),
   ("disable_clickjack_protection_headers", !x.DisableClickjackProtectionHeaders.isNone),
   ("enable_public_signup_user_exists_error", !x.EnablePublicSignupUserExistsError.isNone),
   ("use_scope", !x.UseScope.isNone),
   ("allow_legacy_delegation_grant_types", !x.AllowLegacyDelegationGrantTypes.isNone),
   ("allow_legacy_ro_grant_types", !x.AllowLegacyROGrantTypes.isNone),
   ("allow_legacy_tokeninfo_endpoint", !x.AllowLegacyTokenInfoEndpoint.isNone),
   ("enable_legacy_profile", !x.EnableLegacyProfile.isNone),
   ("enable_idtoken_api2", !x.EnableIdTokenAPI.isNone),
   ("enable_impersonation", !x.EnableIdTokenImplicitGrant.isNone)]

def SessionCookie.present (x : SessionCookie) : List (String × Bool) :=
  [("mode", !x.Mode.isNone)]

/-- For a value of any struct type, per json key, whether the field holds a value. -/
def AnyStruct.present : AnyStruct → List (String × Bool)
  | .ofV1TenantReference x => x.present
  | .ofV1SecretReference x => x.present
  | .ofV1ConnectionReference x => x.present
  | .ofV1ResourceServerReference x => x.present
  | .ofA0ClientGrant x => x.present
  | .ofA0ClientGrantList x => x.present
  | .ofA0ClientGrantSpec x => x.present
  | .ofA0ClientGrantStatus x => x.present
  | .ofClientGrantConf x => x.present
  | .ofV1ClientReference x => x.present
  | .ofA0Client x => x.present
  | .ofA0ClientList x => x.present
  | .ofA0ClientSpec x => x.present
  | .ofA0ClientStatus x => x.present
  | .ofClientFind x => x.present
  | .ofClientConf x => x.present
  | .ofSigningKey x => x.present
  | .ofClientAuthenticationMethods x => x.present
  | .ofCredentialIdDef x => x.present
  | .ofPrivateKeyJwtDef x => x.present
  | .ofTlsClientAuthDef x => x.present
  | .ofSelfSignedTlsClientAuthDef x => x.present
  | .ofSignedRequestObject x => x.present
  | .ofMobile x => x.present
  | .ofMobileAndroid x => x.present
  | .ofMobileIos x => x.present
  | .ofEncryptionKey x => x.present
  | .ofJwtConfiguration x => x.present
  | .ofScopes x => x.present
  | .ofScopeEntry x => x.present
  | .ofOidcLogoutConfig x => x.present
  | .ofBackchannelLogoutInitiators x => x.present
  | .ofRefreshToken x => x.present
  | .ofClientResourceServerAssociation x => x.present
  | .ofDefaultOrganization x => x.present
  | .ofA0Connection x => x.present
  | .ofA0ConnectionList x => x.present
  | .ofA0ConnectionSpec x => x.present
  | .ofA0ConnectionStatus x => x.present
  | .ofConnectionFind x => x.present
  | .ofConnectionConf x => x.present
  | .ofA0ResourceServer x => x.present
  | .ofA0ResourceServerList x => x.present
  | .ofA0ResourceServerSpec x => x.present
  | .ofA0ResourceServerStatus x => x.present
  | .ofResourceServerConf x => x.present
  | .ofResourceServerScope x => x.present
  | .ofResourceServerAuthorizationDetail x => x.present
  | .ofTokenEncryption x => x.present
  | .ofTokenEncryptionKey x => x.present
  | .ofProofOfPossession x => x.present
  | .ofA0Tenant x => x.present
  | .ofA0TenantList x => x.present
  | .ofA0TenantSpec x => x.present
  | .ofA0TenantStatus x => x.present
  | .ofTenantAuth x => x.present
  | .ofTenantConf x => x.present
  | .ofTenantChangePassword x => x.present
  | .ofTenantGuardianMfaPage x => x.present
  | .ofTenantErrorPage x => x.present
  | .ofTenantDeviceFlow x => x.present
  | .ofTenantFlags x => x.present
  | .ofSessionCookie x => x.present

/-- For a configuration value, per json key, whether the field holds a value. -/
def Conf.present : Conf → List (String × Bool)
  | .tenant c => c.present
  | .client c => c.present
  | .clientGrant c => c.present
  | .connection c => c.present
  | .resourceServer c => c.present

/-- A store that holds the tenant `t1` in the namespace "default" and nothing else. -/
def namespacedStore : Store :=
  fun k ns n =>
    if k = Kind.Tenant ∧ ns = "default" ∧ n = "t1" then
      some (ManagedResource.tenant sampleTenant)
    else none

/-- A resource server of tenant `t1`, named by a tenantRef without namespace, living in
the given namespace. -/
def resourceServerIn (ns : String) : A0ResourceServer :=
  { sampleResourceServer [PolicyTypeCreate] none ⟨none, none, none⟩ with
    ObjectMeta := { (sampleResourceServer [PolicyTypeCreate] none
      ⟨none, none, none⟩).ObjectMeta with Namespace := ns } }


/-! ## Theorems: policy constants -/

/-- C4: the policy constants are the strings "Create", "Update" and "Delete", they are
pairwise distinct, and a string is admitted by the declared enumeration of the policy type
exactly when it is one of the three constants. -/
theorem C4_policy_constants :
    PolicyTypeCreate = "Create" ∧ PolicyTypeUpdate = "Update" ∧ PolicyTypeDelete = "Delete" ∧
    PolicyTypeCreate ≠ PolicyTypeUpdate ∧ PolicyTypeCreate ≠ PolicyTypeDelete ∧
    PolicyTypeUpdate ≠ PolicyTypeDelete ∧
    ∀ s : V1EntityPolicyType, s ∈ V1EntityPolicyType.Enum ↔
      (s = PolicyTypeCreate ∨ s = PolicyTypeUpdate ∨ s = PolicyTypeDelete) := by
  refine ⟨rfl, rfl, rfl, by decide, by decide, by decide, ?_⟩
  intro s
  simp [V1EntityPolicyType.Enum, PolicyTypeCreate, PolicyTypeUpdate, PolicyTypeDelete]

/-! ## Theorems: the status round trip -/

/-- C1, counterexample: a client status whose lastConf points at an empty RawExtension is
written as an object with "lastConf": null, and decoding that gives a status with no
lastConf at all, which is a different status. -/
theorem C1_roundtrip_counterexample :
    Status.toJSON (.client ⟨none, some ⟨none⟩⟩) = JSON.obj [("lastConf", JSON.null)] ∧
    Status.fromJSON .Client (Status.toJSON (.client ⟨none, some ⟨none⟩⟩))
      = some (.client ⟨none, none⟩) ∧
    Status.fromJSON .Client (Status.toJSON (.client ⟨none, some ⟨none⟩⟩))
      ≠ some (.client ⟨none, some ⟨none⟩⟩) := by
  refine ⟨rfl, rfl, ?_⟩
  intro h
  have h2 : Status.fromJSON .Client (Status.toJSON (.client ⟨none, some ⟨none⟩⟩))
      = some (.client ⟨none, none⟩) := rfl
  rw [h2] at h
  simp at h

theorem decodeRawExtensionPtr_document (j : JSON) (h : j ≠ JSON.null) :
    decodeRawExtensionPtr j = some ⟨some j⟩ := by
  cases j <;> simp [decodeRawExtensionPtr] at h ⊢

theorem Status.document_of_holds (s : Status) (re : RawExtension)
    (h : s.lastConfHoldsDocument = true) (hre : s.lastConf = some re) :
    ∃ j, re = ⟨some j⟩ ∧ j ≠ JSON.null := by
  unfold Status.lastConfHoldsDocument at h
  rw [hre] at h
  obtain ⟨raw⟩ := re
  cases raw with
  | none => simp at h
  | some j =>
    refine ⟨j, rfl, ?_⟩
    rintro rfl
    simp at h

/-- C1, amended: for every status whose lastConf is absent or holds a document other than
null, decoding the JSON encoding gives back the same status: id, identifier and the
lastConf document are unchanged. -/
theorem C1_status_roundtrip (s : Status) (h : s.lastConfHoldsDocument = true) :
    Status.fromJSON s.kind s.toJSON = some s := by
  cases s with
  | client s =>
    obtain ⟨id, lc⟩ := s
    cases lc with
    | none =>
      cases id <;> rfl
    | some re =>
      obtain ⟨j, rfl, hj⟩ := Status.document_of_holds _ re h rfl
      cases id <;>
        simp [Status.fromJSON, Status.toJSON, Status.kind, A0ClientStatus.toJSON,
          A0ClientStatus.fields, marshalStruct, marshalFields, FieldEnc.ptr, unmarshalStruct,
          A0ClientStatus.setField, decodeStringPtr, RawExtension.toJSON,
          decodeRawExtensionPtr_document j hj]
  | clientGrant s =>
    obtain ⟨id, lc⟩ := s
    cases lc with
    | none =>
      cases id <;> rfl
    | some re =>
      obtain ⟨j, rfl, hj⟩ := Status.document_of_holds _ re h rfl
      cases id <;>
        simp [Status.fromJSON, Status.toJSON, Status.kind, A0ClientGrantStatus.toJSON,
          A0ClientGrantStatus.fields, marshalStruct, marshalFields, FieldEnc.ptr,
          unmarshalStruct, A0ClientGrantStatus.setField, decodeStringPtr, RawExtension.toJSON,
          decodeRawExtensionPtr_document j hj]
  | connection s =>
    obtain ⟨id, lc⟩ := s
    cases lc with
    | none =>
      cases id <;> rfl
    | some re =>
      obtain ⟨j, rfl, hj⟩ := Status.document_of_holds _ re h rfl
      cases id <;>
        simp [Status.fromJSON, Status.toJSON, Status.kind, A0ConnectionStatus.toJSON,
          A0ConnectionStatus.fields, marshalStruct, marshalFields, FieldEnc.ptr,
          unmarshalStruct, A0ConnectionStatus.setField, decodeStringPtr, RawExtension.toJSON,
          decodeRawExtensionPtr_document j hj]
  | resourceServer s =>
    obtain ⟨id, ident, lc⟩ := s
    cases lc with
    | none =>
      cases id <;> cases ident <;> rfl
    | some re =>
      obtain ⟨j, rfl, hj⟩ := Status.document_of_holds _ re h rfl
      cases id <;> cases ident <;>
        simp [Status.fromJSON, Status.toJSON, Status.kind, A0ResourceServerStatus.toJSON,
          A0ResourceServerStatus.fields, marshalStruct, marshalFields, FieldEnc.ptr,
          unmarshalStruct, A0ResourceServerStatus.setField, decodeStringPtr,
          RawExtension.toJSON, decodeRawExtensionPtr_document j hj]
  | tenant s =>
    obtain ⟨lc⟩ := s
    cases lc with
    | none => rfl
    | some re =>
      obtain ⟨j, rfl, hj⟩ := Status.document_of_holds _ re h rfl
      simp [Status.fromJSON, Status.toJSON, Status.kind, A0TenantStatus.toJSON,
        A0TenantStatus.fields, marshalStruct, marshalFields, FieldEnc.ptr,
        unmarshalStruct, A0TenantStatus.setField, RawExtension.toJSON,
        decodeRawExtensionPtr_document j hj]

/-- C1, witness: a resource-server status with id, identifier and a nested lastConf
document round-trips unchanged. -/
theorem C1_status_roundtrip_witness :
    sampleStatus.lastConfHoldsDocument = true ∧
    Status.fromJSON .ResourceServer sampleStatus.toJSON = some sampleStatus :=
  ⟨rfl, C1_status_roundtrip sampleStatus rfl⟩


/-! ## Theorems: what a configuration serializes to -/

theorem marshalFields_key_set (fs : List FieldEnc) (hall : ∀ f ∈ fs, f.omitempty = true)
    (k : String) (hk : k ∈ (marshalFields fs).map Prod.fst) :
    ∃ f ∈ fs, f.key = k ∧ f.empty = false := by
  simp only [marshalFields, List.mem_map, List.mem_filterMap] at hk
  obtain ⟨⟨k', v⟩, ⟨f, hf, hsome⟩, rfl⟩ := hk
  have ho := hall f hf
  by_cases he : f.empty = true
  · simp [ho, he] at hsome
  · simp [ho, he] at hsome
    exact ⟨f, hf, hsome.1, by simpa using he⟩

theorem Conf.fields_omitempty (c : Conf) : ∀ f ∈ c.fields, f.omitempty = true := by
  cases c with
  | tenant c => simp [Conf.fields, TenantConf.fields, FieldEnc.ptr, FieldEnc.slice]
  | client c => simp [Conf.fields, ClientConf.fields, FieldEnc.ptr, FieldEnc.slice]
  | clientGrant c => simp [Conf.fields, ClientGrantConf.fields, FieldEnc.ptr, FieldEnc.slice]
  | connection c => simp [Conf.fields, ConnectionConf.fields, FieldEnc.ptr, FieldEnc.slice]
  | resourceServer c =>
    simp [Conf.fields, ResourceServerConf.fields, FieldEnc.ptr, FieldEnc.slice]

theorem Conf.toJSON_eq (c : Conf) : c.toJSON = JSON.obj (marshalFields c.fields) := by
  cases c <;> rfl

theorem marshalFields_key_iff (fs : List FieldEnc) (k : String) :
    k ∈ (marshalFields fs).map Prod.fst ↔
      ∃ f ∈ fs, f.key = k ∧ (f.omitempty && f.empty) = false := by
  simp only [marshalFields, List.mem_map, List.mem_filterMap]
  constructor
  · rintro ⟨⟨k', v⟩, ⟨f, hf, hsome⟩, rfl⟩
    by_cases hd : (f.omitempty && f.empty) = true
    · simp [hd] at hsome
    · simp [hd] at hsome
      exact ⟨f, hf, hsome.1, by simpa using hd⟩
  · rintro ⟨f, hf, rfl, hkeep⟩
    exact ⟨(f.key, f.value), ⟨f, hf, by simp [hkeep]⟩, rfl⟩

theorem Conf.conf_fields_present (c : Conf) :
    (c.fields.map fun f => (f.key, !f.empty)) = c.present := by
  cases c <;> rfl

/-- C2: for every configuration value (TenantConf, ClientConf, ClientGrantConf,
ConnectionConf, ResourceServerConf), the JSON object it serializes to has a key exactly
for the fields of the value that hold something (a pointer that is not nil, a slice that
is not empty): a field never set is never written. -/
theorem C2_only_set_fields_serialized (c : Conf) (k : String) :
    k ∈ c.toJSON.keys ↔ (k, true) ∈ c.present := by
  rw [Conf.toJSON_eq, ← Conf.conf_fields_present]
  show k ∈ (marshalFields c.fields).map Prod.fst ↔ _
  rw [marshalFields_key_iff]
  constructor
  · rintro ⟨f, hf, hk, hkeep⟩
    have ho := Conf.fields_omitempty c f hf
    rw [ho] at hkeep
    exact List.mem_map.2 ⟨f, hf, by simp at hkeep; simp [hk, hkeep]⟩
  · intro h
    obtain ⟨f, hf, hpair⟩ := List.mem_map.1 h
    have hk : f.key = k := (Prod.mk.inj hpair).1
    have he : (!f.empty) = true := (Prod.mk.inj hpair).2
    exact ⟨f, hf, hk, by simp at he; simp [he]⟩

/-- C2, witness: the TenantConf whose only set field is FriendlyName = "Acme" serializes
to the one-key object with "friendly_name": "Acme", and that key is the key of its one
field that holds something; the TenantConf and the ClientGrantConf with no field set
serialize to the empty object. -/
theorem C2_only_set_fields_serialized_witness :
    Conf.toJSON (.tenant TenantConf.acme) = JSON.obj [("friendly_name", JSON.str "Acme")] ∧
    Conf.toJSON (.tenant TenantConf.unset) = JSON.obj [] ∧
    Conf.toJSON (.clientGrant ⟨none, none, none⟩) = JSON.obj [] ∧
    Conf.present (.clientGrant ⟨none, none, none⟩)
      = [("clientRef", false), ("audience", false), ("scope", false)] ∧
    (Conf.present (.tenant TenantConf.acme)).filter (fun p => p.2)
      = [("friendly_name", true)] ∧
    ("friendly_name", true) ∈ Conf.present (.tenant TenantConf.acme) :=
  ⟨rfl, rfl, rfl, rfl, by decide,
    (C2_only_set_fields_serialized (.tenant TenantConf.acme) "friendly_name").1 (by decide)⟩


/-! ## Theorems: the owning tenant -/

/-- C5, counterexample: the client spec with a nil TenantRef designates no tenant; it is
written with "tenantRef": null and does not pass the Required marker. -/
theorem C5_owner_counterexample :
    (OwnedSpec.client ⟨none, none, none, none, none, none⟩).owners = [] ∧
    (OwnedSpec.client ⟨none, none, none, none, none, none⟩).toJSON
      = JSON.obj [("tenantRef", JSON.null), ("conf", JSON.null)] ∧
    (OwnedSpec.client ⟨none, none, none, none, none, none⟩).admitted = false := by
  refine ⟨rfl, rfl, ?_⟩
  decide

/-- C5, amended: every A0Client, A0ClientGrant, A0Connection and A0ResourceServer spec
that passes the Required markers of its type designates exactly one owning tenant through
tenantRef. -/
theorem C5_admitted_spec_has_one_owner (s : OwnedSpec) (h : s.admitted = true) :
    ∃ t, s.tenantRef = some t ∧ s.owners = [t] := by
  cases s with
  | client s =>
    obtain ⟨pol, tr, sr, fd, ini, cf⟩ := s
    cases tr with
    | some t => exact ⟨t, rfl, rfl⟩
    | none =>
      exfalso
      rcases pol with _ | _ | ⟨p, ps⟩ <;> cases sr <;> cases fd <;> cases ini <;> cases cf <;>
        exact absurd (show false = true from h) Bool.false_ne_true
  | clientGrant s =>
    obtain ⟨pol, tr, ini, cf⟩ := s
    cases tr with
    | some t => exact ⟨t, rfl, rfl⟩
    | none =>
      exfalso
      rcases pol with _ | _ | ⟨p, ps⟩ <;> cases ini <;> cases cf <;>
        exact absurd (show false = true from h) Bool.false_ne_true
  | connection s =>
    obtain ⟨pol, tr, fd, ini, cf⟩ := s
    cases tr with
    | some t => exact ⟨t, rfl, rfl⟩
    | none =>
      exfalso
      rcases pol with _ | _ | ⟨p, ps⟩ <;> cases fd <;> cases ini <;> cases cf <;>
        exact absurd (show false = true from h) Bool.false_ne_true
  | resourceServer s =>
    obtain ⟨pol, tr, ini, cf⟩ := s
    cases tr with
    | some t => exact ⟨t, rfl, rfl⟩
    | none =>
      exfalso
      rcases pol with _ | _ | ⟨p, ps⟩ <;> cases ini <;> cases cf <;>
        exact absurd (show false = true from h) Bool.false_ne_true

/-- C5, witness: a resource-server spec with tenantRef t1 and an empty conf passes the
Required markers and designates exactly the tenant t1. -/
theorem C5_admitted_spec_has_one_owner_witness :
    (OwnedSpec.resourceServer ⟨none, some ⟨none, "t1"⟩, none,
        some ⟨none, none, none, none, none, none, none, none, none, none, none, none, none,
          none, none, none, none, none⟩⟩).admitted = true ∧
    ∃ t, (OwnedSpec.resourceServer ⟨none, some ⟨none, "t1"⟩, none,
        some ⟨none, none, none, none, none, none, none, none, none, none, none, none, none,
          none, none, none, none, none⟩⟩).tenantRef = some t ∧
      (OwnedSpec.resourceServer ⟨none, some ⟨none, "t1"⟩, none,
        some ⟨none, none, none, none, none, none, none, none, none, none, none, none, none,
          none, none, none, none, none⟩⟩).owners = [t] :=
  ⟨by decide, C5_admitted_spec_has_one_owner _ (by decide)⟩

/-! ## Theorems: the forms of a reference -/

/-- C6, counterexample: no tenant reference can be written in the direct form (its
encoding never has an "id" key and always has "name"), and no resource-server reference
can be written as a local pointer (its encoding never has a "name" key). -/
theorem C6_reference_forms_counterexample :
    (¬ ∃ r : V1TenantReference, isRemoteIdentifier r.toJSON = true) ∧
    (¬ ∃ r : V1TenantReference, "id" ∈ r.toJSON.keys) ∧
    (¬ ∃ r : V1ResourceServerReference, isLocalPointer r.toJSON = true) := by
  refine ⟨?_, ?_, ?_⟩
  · rintro ⟨⟨ns, name⟩, h⟩
    cases ns <;> exact absurd (show false = true from h) Bool.false_ne_true
  · rintro ⟨⟨ns, name⟩, h⟩
    cases ns <;>
      simp [V1TenantReference.toJSON, V1TenantReference.fields, marshalStruct, marshalFields,
        FieldEnc.ptr, FieldEnc.string, JSON.keys] at h
  · rintro ⟨⟨ident, scopes⟩, h⟩
    rcases scopes with _ | _ | ⟨x, xs⟩ <;> cases ident <;>
      exact absurd (show false = true from h) Bool.false_ne_true

/-- C6, amended: a client reference and a connection reference can be written in either
form, a local pointer by namespace and name or a remote identifier under "id"; a tenant
reference can only be written as a local pointer (namespace and name); a resource-server
reference can only be written in the direct form, by "identifier". -/
theorem C6_reference_forms :
    (∀ ns name : String,
      isLocalPointer (V1ClientReference.toJSON ⟨some ns, some name, none⟩) = true) ∧
    (∀ id : String,
      isRemoteIdentifier (V1ClientReference.toJSON ⟨none, none, some id⟩) = true) ∧
    (∀ ns name : String,
      isLocalPointer (V1ConnectionReference.toJSON ⟨some ns, some name, none⟩) = true) ∧
    (∀ id : String,
      isRemoteIdentifier (V1ConnectionReference.toJSON ⟨none, none, some id⟩) = true) ∧
    (∀ r : V1TenantReference, isLocalPointer r.toJSON = true) ∧
    (∀ r : V1TenantReference, isRemoteIdentifier r.toJSON = false) ∧
    (∀ id : String,
      isRemoteIdentifier (V1ResourceServerReference.toJSON ⟨some id, none⟩) = true) ∧
    (∀ r : V1ResourceServerReference, isLocalPointer r.toJSON = false) := by
  refine ⟨fun _ _ => rfl, fun _ => rfl, fun _ _ => rfl, fun _ => rfl, ?_, ?_, fun _ => rfl, ?_⟩
  · rintro ⟨ns, name⟩
    cases ns <;> rfl
  · rintro ⟨ns, name⟩
    cases ns <;> rfl
  · rintro ⟨ident, scopes⟩
    rcases scopes with _ | _ | ⟨x, xs⟩ <;> cases ident <;> rfl

/-! ## Theorems: the status surface -/

/-- C8, counterexample: the tenant status declares the single key "lastConf"; no tenant
status is written with an "id" key. -/
theorem C8_status_surface_counterexample :
    A0TenantStatus.decl.jsonKeys = ["lastConf"] ∧
    ¬ ("id" ∈ A0TenantStatus.decl.jsonKeys) ∧
    ¬ ∃ s : A0TenantStatus, "id" ∈ s.toJSON.keys := by
  refine ⟨by decide, by decide, ?_⟩
  rintro ⟨⟨lc⟩, h⟩
  cases lc <;>
    simp [A0TenantStatus.toJSON, A0TenantStatus.fields, marshalStruct, marshalFields,
      FieldEnc.ptr, JSON.keys] at h

/-- C8, amended: the statuses of Client, ClientGrant and Connection declare exactly "id"
and "lastConf", the status of ResourceServer declares "id", "identifier" and "lastConf",
and a status with these set is written with them; the status of Tenant declares
"lastConf" only. -/
theorem C8_status_surface :
    A0ClientStatus.decl.jsonKeys = ["id", "lastConf"] ∧
    A0ClientGrantStatus.decl.jsonKeys = ["id", "lastConf"] ∧
    A0ConnectionStatus.decl.jsonKeys = ["id", "lastConf"] ∧
    A0ResourceServerStatus.decl.jsonKeys = ["id", "identifier", "lastConf"] ∧
    A0TenantStatus.decl.jsonKeys = ["lastConf"] ∧
    (∀ (i : String) (d : JSON),
      A0ClientStatus.toJSON ⟨some i, some ⟨some d⟩⟩
        = JSON.obj [("id", JSON.str i), ("lastConf", d)] ∧
      A0ClientGrantStatus.toJSON ⟨some i, some ⟨some d⟩⟩
        = JSON.obj [("id", JSON.str i), ("lastConf", d)] ∧
      A0ConnectionStatus.toJSON ⟨some i, some ⟨some d⟩⟩
        = JSON.obj [("id", JSON.str i), ("lastConf", d)] ∧
      A0TenantStatus.toJSON ⟨some ⟨some d⟩⟩ = JSON.obj [("lastConf", d)]) ∧
    (∀ (i n : String) (d : JSON),
      A0ResourceServerStatus.toJSON ⟨some i, some n, some ⟨some d⟩⟩
        = JSON.obj [("id", JSON.str i), ("identifier", JSON.str n), ("lastConf", d)]) := by
  refine ⟨by decide, by decide, by decide, by decide, by decide, ?_, ?_⟩
  · intro i d
    exact ⟨rfl, rfl, rfl, rfl⟩
  · intro i n d
    rfl


/-! ## Theorems: reference resolution -/

/-- C7: for every client reference and every connection reference in which both id and
name are set, whatever the namespace, the store and the current namespace, resolution
returns the id and performs no local lookup. -/
theorem C7_id_takes_precedence (store : Store) (current : String) (ns : Option String)
    (i n : String) :
    resolve store current (V1ClientReference.reference ⟨ns, some n, some i⟩) = (.ok i, []) ∧
    resolve store current (V1ConnectionReference.reference ⟨ns, some n, some i⟩)
      = (.ok i, []) :=
  ⟨rfl, rfl⟩

/-- C7, example: with id = "abc" and name = "foo" the result is "abc", with no lookup,
in a store that holds nothing; the same references without the id are looked up by name
and not found. -/
theorem C7_id_takes_precedence_example :
    (resolve (fun _ _ _ => none) "default"
        (V1ClientReference.reference ⟨none, some "foo", some "abc"⟩) = (.ok "abc", []) ∧
      resolve (fun _ _ _ => none) "default"
        (V1ConnectionReference.reference ⟨none, some "foo", some "abc"⟩)
        = (.ok "abc", [])) ∧
    resolve (fun _ _ _ => none) "default"
      (V1ClientReference.reference ⟨none, some "foo", none⟩)
      = (.error .ReferenceNotFound, [⟨.Client, "default", "foo"⟩]) ∧
    resolve (fun _ _ _ => none) "default"
      (V1ConnectionReference.reference ⟨none, some "foo", none⟩)
      = (.error .ReferenceNotFound, [⟨.Connection, "default", "foo"⟩]) :=
  ⟨C7_id_takes_precedence (fun _ _ _ => none) "default" none "abc" "foo", rfl, rfl⟩

/-! ## Theorems: the reconciliation run -/

namespace ManagedResource

@[simp] theorem policy_setId (i : String) (r : ManagedResource) :
    (r.setId i).policy = r.policy := by cases r <;> rfl

@[simp] theorem policy_setIdentifier (n : Option String) (r : ManagedResource) :
    (r.setIdentifier n).policy = r.policy := by cases r <;> rfl

@[simp] theorem policy_setLastConf (d : JSON) (r : ManagedResource) :
    (r.setLastConf d).policy = r.policy := by cases r <;> rfl

@[simp] theorem policy_clearFinalizers (r : ManagedResource) :
    r.clearFinalizers.policy = r.policy := by cases r <;> rfl

@[simp] theorem kind_setLastConf (d : JSON) (r : ManagedResource) :
    (r.setLastConf d).kind = r.kind := by cases r <;> rfl

@[simp] theorem kind_clearFinalizers (r : ManagedResource) :
    r.clearFinalizers.kind = r.kind := by cases r <;> rfl

@[simp] theorem removed_setLastConf (d : JSON) (r : ManagedResource) :
    (r.setLastConf d).removed = r.removed := by cases r <;> rfl

@[simp] theorem removed_clearFinalizers (r : ManagedResource) :
    r.clearFinalizers.removed = r.removed := by cases r <;> rfl

@[simp] theorem lastConf_setId (i : String) (r : ManagedResource) :
    (r.setId i).status.lastConf = r.status.lastConf := by cases r <;> rfl

@[simp] theorem lastConf_clearFinalizers (r : ManagedResource) :
    r.clearFinalizers.status.lastConf = r.status.lastConf := by cases r <;> rfl

@[simp] theorem id_setLastConf (d : JSON) (r : ManagedResource) :
    (r.setLastConf d).status.id = r.status.id := by cases r <;> rfl

@[simp] theorem id_clearFinalizers (r : ManagedResource) :
    r.clearFinalizers.status.id = r.status.id := by cases r <;> rfl

end ManagedResource

theorem planFor_calls_no_operation (env : Env) (r : ManagedResource) :
    ∀ c ∈ (planFor env r).2, c.operation = none := by
  intro c hc
  unfold planFor at hc
  split at hc
  · split at hc <;> simp at hc
  · split at hc
    · split at hc
      · split at hc <;> simp at hc <;> subst hc <;> rfl
      · simp at hc
    · split at hc
      · split at hc <;> simp at hc
      · split at hc <;> simp at hc

theorem commit_cases (env : Env) (m : Machine) (u : ManagedResource) :
    (commit env m u = { m with phase := .Settled, resource := u }) ∨
    (commit env m u = { m with phase := .Failed .StatusConflict }) := by
  unfold commit
  split
  · exact Or.inl rfl
  · exact Or.inr rfl

theorem step_policy_gate (env : Env) (pol : Option (List V1EntityPolicyType))
    (op : Operation) (h : Allows pol op = false) (m : Machine)
    (hpol : m.resource.policy = pol)
    (hcalls : ∀ c ∈ m.calls, c.operation ≠ some op)
    (happ : ∀ p, m.phase = .Applying p → ∀ o, p.operation = some o → Allows pol o = true) :
    (step env m).resource.policy = pol ∧
    (∀ c ∈ (step env m).calls, c.operation ≠ some op) ∧
    (∀ p, (step env m).phase = .Applying p →
      ∀ o, p.operation = some o → Allows pol o = true) := by
  have hne : ∀ o, Allows pol o = true → o ≠ op := by
    intro o ho e
    rw [e, h] at ho
    exact Bool.false_ne_true ho
  unfold step
  split
  · -- Pending
    split <;> exact ⟨hpol, hcalls, by intro p hp; simp at hp⟩
  · -- Resolving
    split <;> exact ⟨hpol, hcalls, by intro p hp; simp at hp⟩
  · -- Planning
    have hplan := planFor_calls_no_operation env m.resource
    have hc2 : ∀ c ∈ m.calls ++ (planFor env m.resource).2, c.operation ≠ some op := by
      intro c hc
      rcases List.mem_append.1 hc with h1 | h2
      · exact hcalls c h1
      · rw [hplan c h2]; simp
    simp only
    split
    · exact ⟨hpol, hc2, by intro p hp; simp at hp⟩
    · rename_i p hp
      split
      · rename_i hop
        split
        · split
          · exact ⟨by simpa using hpol, hc2, by intro p hp; simp at hp⟩
          · exact ⟨hpol, hc2, by intro p hp; simp at hp⟩
        · refine ⟨hpol, hc2, ?_⟩
          intro q hq o ho
          simp only [Phase.Applying.injEq] at hq
          subst hq
          rw [hop] at ho
          simp at ho
      · rename_i o hop
        split
        · rename_i hallow
          refine ⟨hpol, hc2, ?_⟩
          intro q hq o2 ho2
          simp only [Phase.Applying.injEq] at hq
          subst hq
          rw [hop] at ho2
          simp only [Option.some.injEq] at ho2
          subst ho2
          rw [← hpol]
          exact hallow
        · split
          · exact ⟨by simpa using hpol, hc2, by intro p hp; simp at hp⟩
          · exact ⟨hpol, hc2, by intro p hp; simp at hp⟩
  · -- Applying
    rename_i p hp
    have hallow := happ p hp
    cases p with
    | NoOp => exact ⟨hpol, hcalls, by intro p hp; simp [applyPlan] at hp⟩
    | Adopt i =>
      simp only [applyPlan]
      rcases commit_cases env m (m.resource.setId i) with e | e <;> rw [e]
      · exact ⟨by simpa using hpol, hcalls, by intro p hp; simp at hp⟩
      · exact ⟨hpol, hcalls, by intro p hp; simp at hp⟩
    | Create payload =>
      have hop : Operation.Create ≠ op := hne _ (hallow _ rfl)
      have hc2 : ∀ c ∈ m.calls ++ [RemoteCall.Create m.resource.kind payload],
          c.operation ≠ some op := by
        intro c hc
        rcases List.mem_append.1 hc with h1 | h2
        · exact hcalls c h1
        · simp at h2; subst h2; simpa [RemoteCall.operation] using hop
      simp only [applyPlan]
      split
      · rename_i i remote _
        rcases commit_cases env
          { m with calls := m.calls ++ [RemoteCall.Create m.resource.kind payload] }
          (((m.resource.setId i).setIdentifier (identifierOf remote)).setLastConf
            (.obj m.resource.desired)) with e | e <;> rw [e]
        · exact ⟨by simpa using hpol, hc2, by intro p hp; simp at hp⟩
        · exact ⟨hpol, hc2, by intro p hp; simp at hp⟩
      · exact ⟨hpol, hc2, by intro p hp; simp at hp⟩
      · exact ⟨hpol, hc2, by intro p hp; simp at hp⟩
    | Recreate payload =>
      have hop : Operation.Create ≠ op := hne _ (hallow _ rfl)
      have hc2 : ∀ c ∈ m.calls ++ [RemoteCall.Create m.resource.kind payload],
          c.operation ≠ some op := by
        intro c hc
        rcases List.mem_append.1 hc with h1 | h2
        · exact hcalls c h1
        · simp at h2; subst h2; simpa [RemoteCall.operation] using hop
      simp only [applyPlan]
      split
      · rename_i i remote _
        rcases commit_cases env
          { m with calls := m.calls ++ [RemoteCall.Create m.resource.kind payload] }
          (((m.resource.setId i).setIdentifier (identifierOf remote)).setLastConf
            (.obj m.resource.desired)) with e | e <;> rw [e]
        · exact ⟨by simpa using hpol, hc2, by intro p hp; simp at hp⟩
        · exact ⟨hpol, hc2, by intro p hp; simp at hp⟩
      · exact ⟨hpol, hc2, by intro p hp; simp at hp⟩
      · exact ⟨hpol, hc2, by intro p hp; simp at hp⟩
    | Update i d =>
      have hop : Operation.Update ≠ op := hne _ (hallow _ rfl)
      have hc2 : ∀ c ∈ m.calls ++ [RemoteCall.Update m.resource.kind i d],
          c.operation ≠ some op := by
        intro c hc
        rcases List.mem_append.1 hc with h1 | h2
        · exact hcalls c h1
        · simp at h2; subst h2; simpa [RemoteCall.operation] using hop
      simp only [applyPlan]
      split
      · rcases commit_cases env
          { m with calls := m.calls ++ [RemoteCall.Update m.resource.kind i d] }
          (m.resource.setLastConf (.obj m.resource.desired)) with e | e <;> rw [e]
        · exact ⟨by simpa using hpol, hc2, by intro p hp; simp at hp⟩
        · exact ⟨hpol, hc2, by intro p hp; simp at hp⟩
      · exact ⟨hpol, hc2, by intro p hp; simp at hp⟩
      · exact ⟨hpol, hc2, by intro p hp; simp at hp⟩
    | Delete i =>
      have hop : Operation.Delete ≠ op := hne _ (hallow _ rfl)
      have hc2 : ∀ c ∈ m.calls ++ [RemoteCall.Delete m.resource.kind i],
          c.operation ≠ some op := by
        intro c hc
        rcases List.mem_append.1 hc with h1 | h2
        · exact hcalls c h1
        · simp at h2; subst h2; simpa [RemoteCall.operation] using hop
      simp only [applyPlan]
      split
      · exact ⟨by simpa using hpol, hc2, by intro p hp; simp at hp⟩
      · exact ⟨hpol, hc2, by intro p hp; simp at hp⟩
      · exact ⟨hpol, hc2, by intro p hp; simp at hp⟩
  · exact ⟨hpol, hcalls, happ⟩
  · exact ⟨hpol, hcalls, happ⟩
  · exact ⟨hpol, hcalls, happ⟩


theorem runFrom_policy_gate (env : Env) (pol : Option (List V1EntityPolicyType))
    (op : Operation) (h : Allows pol op = false) (n : Nat) :
    ∀ m : Machine, m.resource.policy = pol →
      (∀ c ∈ m.calls, c.operation ≠ some op) →
      (∀ p, m.phase = .Applying p → ∀ o, p.operation = some o → Allows pol o = true) →
      ∀ c ∈ (runFrom env n m).calls, c.operation ≠ some op := by
  induction n with
  | zero => intro m _ hcalls _; exact hcalls
  | succ n ih =>
    intro m hpol hcalls happ
    obtain ⟨h1, h2, h3⟩ := step_policy_gate env pol op h m hpol hcalls happ
    exact ih (step env m) h1 h2 h3

/-- C3: for every resource, every environment and every operation that is not in the
declared policy of the resource, no remote call for that operation is issued, after any
number of transitions of the run and at the end of the run, whatever plan is reached. -/
theorem C3_policy_enforced (env : Env) (r : ManagedResource) (op : Operation)
    (h : op.policyType ∉ r.policy.getD []) :
    (∀ n, ∀ c ∈ (runFrom env n ⟨.Pending, r, []⟩).calls, c.operation ≠ some op) ∧
    (∀ c ∈ (reconcile env r).calls, c.operation ≠ some op) := by
  have hallow : Allows r.policy op = false := by
    simpa [Allows] using h
  have key : ∀ n, ∀ c ∈ (runFrom env n ⟨.Pending, r, []⟩).calls, c.operation ≠ some op := by
    intro n
    exact runFrom_policy_gate env r.policy op hallow n ⟨.Pending, r, []⟩ rfl
      (by intro c hc; simp at hc) (by intro p hp; simp at hp)
  exact ⟨key, key 4⟩

/-- C3, witness: a resource server with policy [Create] whose declaration is removed, in
an environment where a remote delete would succeed: the plan is Delete, the gate denies
it, the run settles, and no Delete call is issued; with Delete in the policy the same
run issues the Delete. -/
theorem C3_policy_enforced_witness :
    (planFor (sampleEnv false false) (.resourceServer
        (sampleResourceServer [PolicyTypeCreate] (some "2024-01-01T00:00:00Z")
          ⟨some "rs_1", none, none⟩))).1 = .ok (.Delete "rs_1") ∧
    (reconcile (sampleEnv false false) (.resourceServer
        (sampleResourceServer [PolicyTypeCreate] (some "2024-01-01T00:00:00Z")
          ⟨some "rs_1", none, none⟩))).phase = .Settled ∧
    (reconcile (sampleEnv false false) (.resourceServer
        (sampleResourceServer [PolicyTypeCreate] (some "2024-01-01T00:00:00Z")
          ⟨some "rs_1", none, none⟩))).calls = [] ∧
    (reconcile (sampleEnv false false) (.resourceServer
        (sampleResourceServer [PolicyTypeCreate, PolicyTypeDelete]
          (some "2024-01-01T00:00:00Z") ⟨some "rs_1", none, none⟩))).calls
      = [RemoteCall.Delete .ResourceServer "rs_1"] ∧
    (∀ c ∈ (reconcile (sampleEnv false false) (.resourceServer
        (sampleResourceServer [PolicyTypeCreate] (some "2024-01-01T00:00:00Z")
          ⟨some "rs_1", none, none⟩))).calls, c.operation ≠ some .Delete) :=
  ⟨rfl, rfl, rfl, rfl,
    (C3_policy_enforced (sampleEnv false false) (.resourceServer
        (sampleResourceServer [PolicyTypeCreate] (some "2024-01-01T00:00:00Z")
          ⟨some "rs_1", none, none⟩)) .Delete (by decide)).2⟩


theorem commit_effect (env : Env) (m : Machine) (u : ManagedResource) :
    (commit env m u).calls = m.calls ∧
    ((commit env m u).resource = u ∨ (commit env m u).resource = m.resource) := by
  rcases commit_cases env m u with e | e <;> rw [e]
  · exact ⟨rfl, Or.inl rfl⟩
  · exact ⟨rfl, Or.inr rfl⟩

theorem applyPlan_lastConf (env : Env) (m : Machine) (p : Plan) :
    ∃ extra, (applyPlan env m p).calls = m.calls ++ extra ∧
      ((applyPlan env m p).resource.status.lastConf = m.resource.status.lastConf ∨
        ∃ c ∈ extra, env.confirmed c = true) := by
  cases p with
  | NoOp => exact ⟨[], by simp [applyPlan], Or.inl rfl⟩
  | Adopt i =>
    refine ⟨[], ?_, Or.inl ?_⟩
    · simp [applyPlan, (commit_effect env m (m.resource.setId i)).1]
    · simp only [applyPlan]
      rcases (commit_effect env m (m.resource.setId i)).2 with e | e <;> rw [e]
      simp
  | Create payload =>
    refine ⟨[RemoteCall.Create m.resource.kind payload], ?_, ?_⟩
    · simp only [applyPlan]
      split
      · exact (commit_effect env _ _).1
      · rfl
      · rfl
    · simp only [applyPlan]
      split
      · rename_i heq
        exact Or.inr ⟨_, List.mem_singleton.2 rfl, by simp [Env.confirmed, heq,
          WriteResult.isConfirmed]⟩
      · exact Or.inl rfl
      · exact Or.inl rfl
  | Recreate payload =>
    refine ⟨[RemoteCall.Create m.resource.kind payload], ?_, ?_⟩
    · simp only [applyPlan]
      split
      · exact (commit_effect env _ _).1
      · rfl
      · rfl
    · simp only [applyPlan]
      split
      · rename_i heq
        exact Or.inr ⟨_, List.mem_singleton.2 rfl, by simp [Env.confirmed, heq,
          WriteResult.isConfirmed]⟩
      · exact Or.inl rfl
      · exact Or.inl rfl
  | Update i d =>
    refine ⟨[RemoteCall.Update m.resource.kind i d], ?_, ?_⟩
    · simp only [applyPlan]
      split
      · exact (commit_effect env _ _).1
      · rfl
      · rfl
    · simp only [applyPlan]
      split
      · rename_i heq
        exact Or.inr ⟨_, List.mem_singleton.2 rfl, by simp [Env.confirmed, heq,
          WriteResult.isConfirmed]⟩
      · exact Or.inl rfl
      · exact Or.inl rfl
  | Delete i =>
    refine ⟨[RemoteCall.Delete m.resource.kind i], ?_, Or.inl ?_⟩
    · simp only [applyPlan]
      split <;> rfl
    · simp only [applyPlan]
      split
      · simp
      · rfl
      · rfl

theorem step_lastConf_effect (env : Env) (m : Machine) :
    ∃ extra, (step env m).calls = m.calls ++ extra ∧
      ((step env m).resource.status.lastConf = m.resource.status.lastConf ∨
        ∃ c ∈ extra, env.confirmed c = true) := by
  unfold step
  split
  · split <;> exact ⟨[], by simp, Or.inl rfl⟩
  · split <;> exact ⟨[], by simp, Or.inl rfl⟩
  · refine ⟨(planFor env m.resource).2, ?_, Or.inl ?_⟩
    · simp only []
      split
      · rfl
      · split
        · split
          · split <;> rfl
          · rfl
        · split
          · rfl
          · split <;> rfl
    · simp only []
      split
      · rfl
      · split
        · split
          · split
            · simp
            · rfl
          · rfl
        · split
          · rfl
          · split
            · simp
            · rfl
  · exact applyPlan_lastConf env m _
  · exact ⟨[], by simp, Or.inl rfl⟩
  · exact ⟨[], by simp, Or.inl rfl⟩
  · exact ⟨[], by simp, Or.inl rfl⟩

theorem runFrom_lastConf (env : Env) (last : Option RawExtension) (n : Nat) :
    ∀ m : Machine,
      ((∀ c ∈ m.calls, env.confirmed c = false) → m.resource.status.lastConf = last) →
      (∀ c ∈ (runFrom env n m).calls, env.confirmed c = false) →
      (runFrom env n m).resource.status.lastConf = last := by
  induction n with
  | zero => intro m hinv h; exact hinv h
  | succ n ih =>
    intro m hinv h
    refine ih (step env m) ?_ h
    intro hs
    obtain ⟨extra, hcalls, heff⟩ := step_lastConf_effect env m
    rw [hcalls] at hs
    rcases heff with e | ⟨c, hc, hconf⟩
    · rw [e]
      exact hinv (fun c hc => hs c (List.mem_append.2 (Or.inl hc)))
    · have := hs c (List.mem_append.2 (Or.inr hc))
      rw [hconf] at this
      exact absurd this (by decide)

/-- C9: for every reconciliation run, in every environment, if no remote call of the run
was answered with a confirmed write (each write failed, was applied in part only, or none
was issued), the lastConf of the resource after the run, and after any number of its
transitions, equals its lastConf before the run; so lastConf changes only when a remote
write was confirmed successful. -/
theorem C9_lastConf_needs_confirmed_write (env : Env) (r : ManagedResource) (n : Nat)
    (h : ∀ c ∈ (runFrom env n ⟨.Pending, r, []⟩).calls, env.confirmed c = false) :
    (runFrom env n ⟨.Pending, r, []⟩).resource.status.lastConf = r.status.lastConf :=
  runFrom_lastConf env r.status.lastConf n ⟨.Pending, r, []⟩ (fun _ => rfl) h


/-- C9, witness: a resource server whose conf differs from its lastConf, in an environment
where every write is applied in part only: the run issues the Update, ends in Failed, and
lastConf is what it was; in the environment where the write is confirmed, lastConf
becomes the conf. -/
theorem C9_lastConf_needs_confirmed_write_witness :
    (reconcile (sampleEnv false true) (.resourceServer
        (sampleResourceServer [PolicyTypeCreate, PolicyTypeUpdate] none
          ⟨some "rs_1", none, some ⟨some (JSON.obj [("name", JSON.str "old")])⟩⟩))).calls
      = [RemoteCall.Update .ResourceServer "rs_1" (JSON.obj [("name", JSON.str "api")])] ∧
    (reconcile (sampleEnv false true) (.resourceServer
        (sampleResourceServer [PolicyTypeCreate, PolicyTypeUpdate] none
          ⟨some "rs_1", none, some ⟨some (JSON.obj [("name", JSON.str "old")])⟩⟩))).phase
      = .Failed (.Remote .Transient) ∧
    (reconcile (sampleEnv false false) (.resourceServer
        (sampleResourceServer [PolicyTypeCreate, PolicyTypeUpdate] none
          ⟨some "rs_1", none, some ⟨some (JSON.obj [("name", JSON.str "old")])⟩⟩))
      ).resource.status.lastConf = some ⟨some (JSON.obj [("name", JSON.str "api")])⟩ ∧
    (runFrom (sampleEnv false true) 4 ⟨.Pending, .resourceServer
        (sampleResourceServer [PolicyTypeCreate, PolicyTypeUpdate] none
          ⟨some "rs_1", none, some ⟨some (JSON.obj [("name", JSON.str "old")])⟩⟩), []⟩
      ).resource.status.lastConf = some ⟨some (JSON.obj [("name", JSON.str "old")])⟩ :=
  ⟨rfl, rfl, rfl,
    C9_lastConf_needs_confirmed_write (sampleEnv false true) (.resourceServer
        (sampleResourceServer [PolicyTypeCreate, PolicyTypeUpdate] none
          ⟨some "rs_1", none, some ⟨some (JSON.obj [("name", JSON.str "old")])⟩⟩)) 4
      (by
        intro c hc
        have hcalls : (runFrom (sampleEnv false true) 4 ⟨.Pending, .resourceServer
            (sampleResourceServer [PolicyTypeCreate, PolicyTypeUpdate] none
              ⟨some "rs_1", none, some ⟨some (JSON.obj [("name", JSON.str "old")])⟩⟩),
            []⟩).calls
          = [RemoteCall.Update .ResourceServer "rs_1"
              (JSON.obj [("name", JSON.str "api")])] := rfl
        rw [hcalls] at hc
        rw [List.mem_singleton.1 hc]
        rfl)⟩

/-- C10, counterexample: a resource server with status.id "rs_1" and policy [Create] whose
remote object is gone: the plan is Recreate, a Create is issued although status.id is
set, and status.id becomes the new identifier "rs_new". -/
theorem C10_id_immutable_counterexample :
    (ManagedResource.resourceServer
        (sampleResourceServer [PolicyTypeCreate] none ⟨some "rs_1", none, none⟩)).status.id
      = some "rs_1" ∧
    (reconcile (sampleEnv true false) (.resourceServer
        (sampleResourceServer [PolicyTypeCreate] none ⟨some "rs_1", none, none⟩))).calls
      = [RemoteCall.Create .ResourceServer (JSON.obj [("name", JSON.str "api")])] ∧
    (reconcile (sampleEnv true false) (.resourceServer
        (sampleResourceServer [PolicyTypeCreate] none ⟨some "rs_1", none, none⟩))
      ).resource.status.id = some "rs_new" ∧
    (reconcile (sampleEnv true false) (.resourceServer
        (sampleResourceServer [PolicyTypeCreate] none ⟨some "rs_1", none, none⟩))
      ).resource.status.id ≠ some "rs_1" := by
  refine ⟨rfl, rfl, rfl, ?_⟩
  have h : (reconcile (sampleEnv true false) (.resourceServer
        (sampleResourceServer [PolicyTypeCreate] none ⟨some "rs_1", none, none⟩))
      ).resource.status.id = some "rs_new" := rfl
  rw [h]
  decide

theorem ManagedResource.remoteIdentity_of_id (r : ManagedResource) (i : String)
    (h : r.status.id = some i) : r.remoteIdentity = some i := by
  cases r with
  | tenant o => simp [ManagedResource.status, Status.id] at h
  | client o => exact h
  | clientGrant o => exact h
  | connection o => exact h
  | resourceServer o => exact h

theorem planFor_bound (env : Env) (r : ManagedResource) (i : String)
    (hid : r.status.id = some i)
    (hno : (env.liveRemote r.kind i).isSome = true ∨ Allows r.policy .Create = false) :
    (planFor env r).2 = [] ∧
    ∀ p, (planFor env r).1 = .ok p → p.operation ≠ some .Create ∧ ∀ j, p ≠ .Adopt j := by
  have hri := r.remoteIdentity_of_id i hid
  unfold planFor
  rw [hri]
  split
  · simp [Plan.operation]
  · simp only []
    split
    · rename_i hlive
      split
      · rename_i hallow
        rcases hno with h1 | h2
        · rw [hlive] at h1; simp at h1
        · rw [h2] at hallow; simp at hallow
      · simp
    · split <;> simp [Plan.operation]

theorem step_keeps_id (env : Env) (k : Kind) (pol : Option (List V1EntityPolicyType))
    (i : String)
    (hno : (env.liveRemote k i).isSome = true ∨ Allows pol .Create = false) (m : Machine)
    (hk : m.resource.kind = k) (hpol : m.resource.policy = pol)
    (hid : m.resource.status.id = some i)
    (hcalls : ∀ c ∈ m.calls, c.operation ≠ some .Create)
    (happ : ∀ p, m.phase = .Applying p → p.operation ≠ some .Create ∧ ∀ j, p ≠ .Adopt j) :
    (step env m).resource.kind = k ∧ (step env m).resource.policy = pol ∧
    (step env m).resource.status.id = some i ∧
    (∀ c ∈ (step env m).calls, c.operation ≠ some .Create) ∧
    (∀ p, (step env m).phase = .Applying p →
      p.operation ≠ some .Create ∧ ∀ j, p ≠ .Adopt j) := by
  unfold step
  split
  · split <;> exact ⟨hk, hpol, hid, hcalls, by intro p hp; simp at hp⟩
  · split <;> exact ⟨hk, hpol, hid, hcalls, by intro p hp; simp at hp⟩
  · obtain ⟨hnil, hplan⟩ := planFor_bound env m.resource i hid (by rw [hk, hpol]; exact hno)
    simp only [hnil, List.append_nil]
    split
    · exact ⟨hk, hpol, hid, hcalls, by intro p hp; simp at hp⟩
    · rename_i p hp
      have hp2 := hplan p hp
      split
      · split
        · split
          · exact ⟨by simpa using hk, by simpa using hpol, by simpa using hid, hcalls,
              by intro p hp; simp at hp⟩
          · exact ⟨hk, hpol, hid, hcalls, by intro p hp; simp at hp⟩
        · refine ⟨hk, hpol, hid, hcalls, ?_⟩
          intro q hq
          simp only [Phase.Applying.injEq] at hq
          subst hq
          exact hp2
      · split
        · refine ⟨hk, hpol, hid, hcalls, ?_⟩
          intro q hq
          simp only [Phase.Applying.injEq] at hq
          subst hq
          exact hp2
        · split
          · exact ⟨by simpa using hk, by simpa using hpol, by simpa using hid, hcalls,
              by intro p hp; simp at hp⟩
          · exact ⟨hk, hpol, hid, hcalls, by intro p hp; simp at hp⟩
  · rename_i p hp
    obtain ⟨hnc, hna⟩ := happ p hp
    cases p with
    | NoOp => exact ⟨hk, hpol, hid, hcalls, by intro p hp; simp [applyPlan] at hp⟩
    | Adopt j => exact absurd rfl (hna j)
    | Create payload => exact absurd rfl hnc
    | Recreate payload => exact absurd rfl hnc
    | Update j d =>
      have hc2 : ∀ c ∈ m.calls ++ [RemoteCall.Update m.resource.kind j d],
          c.operation ≠ some .Create := by
        intro c hc
        rcases List.mem_append.1 hc with h1 | h2
        · exact hcalls c h1
        · simp at h2; subst h2; simp [RemoteCall.operation]
      simp only [applyPlan]
      split
      · rcases commit_cases env
          { m with calls := m.calls ++ [RemoteCall.Update m.resource.kind j d] }
          (m.resource.setLastConf (.obj m.resource.desired)) with e | e <;> rw [e]
        · exact ⟨by simpa using hk, by simpa using hpol, by simpa using hid, hc2,
            by intro p hp; simp at hp⟩
        · exact ⟨hk, hpol, hid, hc2, by intro p hp; simp at hp⟩
      · exact ⟨hk, hpol, hid, hc2, by intro p hp; simp at hp⟩
      · exact ⟨hk, hpol, hid, hc2, by intro p hp; simp at hp⟩
    | Delete j =>
      have hc2 : ∀ c ∈ m.calls ++ [RemoteCall.Delete m.resource.kind j],
          c.operation ≠ some .Create := by
        intro c hc
        rcases List.mem_append.1 hc with h1 | h2
        · exact hcalls c h1
        · simp at h2; subst h2; simp [RemoteCall.operation]
      simp only [applyPlan]
      split
      · exact ⟨by simpa using hk, by simpa using hpol, by simpa using hid, hc2,
          by intro p hp; simp at hp⟩
      · exact ⟨hk, hpol, hid, hc2, by intro p hp; simp at hp⟩
      · exact ⟨hk, hpol, hid, hc2, by intro p hp; simp at hp⟩
  · exact ⟨hk, hpol, hid, hcalls, happ⟩
  · exact ⟨hk, hpol, hid, hcalls, happ⟩
  · exact ⟨hk, hpol, hid, hcalls, happ⟩

theorem runFrom_keeps_id (env : Env) (k : Kind) (pol : Option (List V1EntityPolicyType))
    (i : String)
    (hno : (env.liveRemote k i).isSome = true ∨ Allows pol .Create = false) (n : Nat) :
    ∀ m : Machine, m.resource.kind = k → m.resource.policy = pol →
      m.resource.status.id = some i →
      (∀ c ∈ m.calls, c.operation ≠ some .Create) →
      (∀ p, m.phase = .Applying p → p.operation ≠ some .Create ∧ ∀ j, p ≠ .Adopt j) →
      (runFrom env n m).resource.status.id = some i ∧
      ∀ c ∈ (runFrom env n m).calls, c.operation ≠ some .Create := by
  induction n with
  | zero => intro m _ _ hid hcalls _; exact ⟨hid, hcalls⟩
  | succ n ih =>
    intro m hk hpol hid hcalls happ
    obtain ⟨h1, h2, h3, h4, h5⟩ := step_keeps_id env k pol i hno m hk hpol hid hcalls happ
    exact ih (step env m) h1 h2 h3 h4 h5

/-- C10, amended: once the status.id of a resource is set, a reconciliation run leaves it
unchanged and issues no Create, after any number of transitions, provided the run is not
on the Recreate plan: the live remote object still exists, or the policy of the resource
does not contain Create. -/
theorem C10_id_kept_unless_recreate (env : Env) (r : ManagedResource) (i : String)
    (n : Nat) (hid : r.status.id = some i)
    (hno : (env.liveRemote r.kind i).isSome = true ∨ PolicyTypeCreate ∉ r.policy.getD []) :
    (runFrom env n ⟨.Pending, r, []⟩).resource.status.id = some i ∧
    ∀ c ∈ (runFrom env n ⟨.Pending, r, []⟩).calls, c.operation ≠ some .Create := by
  have hno2 : (env.liveRemote r.kind i).isSome = true ∨ Allows r.policy .Create = false := by
    rcases hno with h | h
    · exact Or.inl h
    · exact Or.inr (by simpa [Allows, Operation.policyType] using h)
  exact runFrom_keeps_id env r.kind r.policy i hno2 n ⟨.Pending, r, []⟩ rfl rfl hid
    (by intro c hc; simp at hc) (by intro p hp; simp at hp)

/-- C10, witness: a resource server with status.id "rs_1" whose conf changed, with the
remote object still there: the run issues an Update, no Create, and status.id is still
"rs_1". -/
theorem C10_id_kept_unless_recreate_witness :
    (reconcile (sampleEnv false false) (.resourceServer
        (sampleResourceServer [PolicyTypeCreate, PolicyTypeUpdate] none
          ⟨some "rs_1", none, none⟩))).calls
      = [RemoteCall.Update .ResourceServer "rs_1" (JSON.obj [("name", JSON.str "api")])] ∧
    ((runFrom (sampleEnv false false) 4 ⟨.Pending, .resourceServer
        (sampleResourceServer [PolicyTypeCreate, PolicyTypeUpdate] none
          ⟨some "rs_1", none, none⟩), []⟩).resource.status.id = some "rs_1" ∧
      ∀ c ∈ (runFrom (sampleEnv false false) 4 ⟨.Pending, .resourceServer
        (sampleResourceServer [PolicyTypeCreate, PolicyTypeUpdate] none
          ⟨some "rs_1", none, none⟩), []⟩).calls, c.operation ≠ some .Create) :=
  ⟨rfl,
    C10_id_kept_unless_recreate (sampleEnv false false) (.resourceServer
        (sampleResourceServer [PolicyTypeCreate, PolicyTypeUpdate] none
          ⟨some "rs_1", none, none⟩)) "rs_1" 4 rfl (Or.inl rfl)⟩


/-! ## Theorems: keys of an encoded struct -/

theorem marshalFields_key_mem (fs : List FieldEnc) (k : String)
    (hk : k ∈ (marshalFields fs).map Prod.fst) : ∃ f ∈ fs, f.key = k ∧
      (f.omitempty && f.empty) = false := by
  simp only [marshalFields, List.mem_map, List.mem_filterMap] at hk
  obtain ⟨⟨k', v⟩, ⟨f, hf, hsome⟩, rfl⟩ := hk
  by_cases hd : (f.omitempty && f.empty) = true
  · simp [hd] at hsome
  · simp [hd] at hsome
    exact ⟨f, hf, hsome.1, by simpa using hd⟩

theorem lookupKey_eq_none (k : String) (kvs : List (String × JSON))
    (h : k ∉ kvs.map Prod.fst) : lookupKey k kvs = none := by
  induction kvs with
  | nil => rfl
  | cons kv rest ih =>
    obtain ⟨l, v⟩ := kv
    simp only [List.map_cons, List.mem_cons, not_or] at h
    simp only [lookupKey, ih h.2]
    simp [Ne.symm h.1]

/-! ## Theorems: the find descriptor -/

/-- C12, counterexample: the specs of Tenant, ClientGrant and ResourceServer declare no
"find" key, and no resource-server spec is written with one. -/
theorem C12_find_counterexample :
    ¬ ("find" ∈ A0TenantSpec.decl.jsonKeys) ∧
    ¬ ("find" ∈ A0ClientGrantSpec.decl.jsonKeys) ∧
    ¬ ("find" ∈ A0ResourceServerSpec.decl.jsonKeys) ∧
    A0ResourceServerSpec.decl.jsonKeys = ["policy", "tenantRef", "init", "conf"] ∧
    ¬ ∃ s : A0ResourceServerSpec, "find" ∈ s.toJSON.keys := by
  refine ⟨by decide, by decide, by decide, by decide, ?_⟩
  rintro ⟨s, h⟩
  obtain ⟨f, hf, hkey, _⟩ := marshalFields_key_mem s.fields "find" h
  simp [A0ResourceServerSpec.fields, FieldEnc.ptr, FieldEnc.slice] at hf
  rcases hf with rfl | rfl | rfl | rfl <;> simp at hkey

theorem marshalFields_mem_key (fs : List FieldEnc) (f : FieldEnc) (hf : f ∈ fs)
    (hkeep : (f.omitempty && f.empty) = false) :
    f.key ∈ (marshalFields fs).map Prod.fst := by
  simp only [marshalFields, List.mem_map, List.mem_filterMap]
  exact ⟨(f.key, f.value), ⟨f, hf, by simp [hkeep]⟩, rfl⟩

/-- C12, amended: the specs of Client and Connection accept an optional find descriptor
(a pointer field with key "find", tagged omitempty and marked Optional), written when it
is set and left out when it is not; the specs of Tenant, ClientGrant and ResourceServer
declare no find descriptor. -/
theorem C12_find_declared :
    (∃ f ∈ A0ClientSpec.decl.fields, f.jsonKey = "find" ∧ f.goType = "*ClientFind" ∧
      f.omitempty = true ∧ f.optional = true) ∧
    (∃ f ∈ A0ConnectionSpec.decl.fields, f.jsonKey = "find" ∧ f.goType = "*ConnectionFind" ∧
      f.omitempty = true ∧ f.optional = true) ∧
    ClientFind.decl.jsonKeys = ["client_id", "callback_urls", "callback_url_match_mode"] ∧
    ConnectionFind.decl.jsonKeys = ["id"] ∧
    (∀ (s : A0ClientSpec) (d : ClientFind),
      "find" ∈ (A0ClientSpec.toJSON { s with Find := some d }).keys ∧
      "find" ∉ (A0ClientSpec.toJSON { s with Find := none }).keys) ∧
    (∀ (s : A0ConnectionSpec) (d : ConnectionFind),
      "find" ∈ (A0ConnectionSpec.toJSON { s with Find := some d }).keys ∧
      "find" ∉ (A0ConnectionSpec.toJSON { s with Find := none }).keys) ∧
    ¬ ("find" ∈ A0TenantSpec.decl.jsonKeys) ∧
    ¬ ("find" ∈ A0ClientGrantSpec.decl.jsonKeys) ∧
    ¬ ("find" ∈ A0ResourceServerSpec.decl.jsonKeys) := by
  refine ⟨by decide, by decide, by decide, by decide, ?_, ?_, by decide, by decide,
    by decide⟩
  · intro s d
    constructor
    · exact marshalFields_mem_key _ (FieldEnc.ptr "find" true ClientFind.toJSON (some d))
        (by simp [A0ClientSpec.fields]) rfl
    · intro h
      obtain ⟨f, hf, hkey, hkeep⟩ := marshalFields_key_mem _ "find" h
      simp [A0ClientSpec.fields, FieldEnc.ptr, FieldEnc.slice] at hf
      rcases hf with rfl | rfl | rfl | rfl | rfl | rfl <;> simp at hkey hkeep
  · intro s d
    constructor
    · exact marshalFields_mem_key _
        (FieldEnc.ptr "find" true ConnectionFind.toJSON (some d))
        (by simp [A0ConnectionSpec.fields]) rfl
    · intro h
      obtain ⟨f, hf, hkey, hkeep⟩ := marshalFields_key_mem _ "find" h
      simp [A0ConnectionSpec.fields, FieldEnc.ptr, FieldEnc.slice] at hf
      rcases hf with rfl | rfl | rfl | rfl | rfl <;> simp at hkey hkeep

/-! ## Theorems: the declared default -/

/-- C14, counterexample: a ConnectionConf declared with a name only is written without
"is_domain_connection", and the declared default fills in is_domain_connection = false
when the object is admitted. -/
theorem C14_default_counterexample :
    ({ ConnectionConf.unset with Name := some "db" } : ConnectionConf).IsDomainConnection
      = none ∧
    ConnectionConf.toJSON { ConnectionConf.unset with Name := some "db" }
      = JSON.obj [("name", JSON.str "db")] ∧
    ConnectionConf.decl.applyDefaults
        (ConnectionConf.toJSON { ConnectionConf.unset with Name := some "db" }).members
      = [("name", JSON.str "db"), ("is_domain_connection", JSON.bool false)] := by
  refine ⟨rfl, rfl, ?_⟩
  decide

theorem JSON.mem_keys_of_mem_members (j : JSON) (m : String × JSON)
    (h : m ∈ j.members) : m.1 ∈ j.keys := by
  cases j with
  | obj kvs => exact List.mem_map.2 ⟨m, h, rfl⟩
  | null => cases h
  | bool b => cases h
  | num n => cases h
  | str t => cases h
  | arr xs => cases h

theorem StructDecl.missingDefaults_map (d : StructDecl) (m : List (String × JSON)) :
    d.missingDefaults m =
      (d.fields.map fun f => (f.jsonKey, f.default)).filterMap fun p =>
        match p.2 with
        | some v =>
          match lookupKey p.1 m with
          | none => some (p.1, v)
          | some .null => some (p.1, v)
          | some _ => none
        | none => none := by
  unfold StructDecl.missingDefaults
  rw [List.filterMap_map]
  rfl

theorem StructDecl.defaults_map (d : StructDecl) (k : String) :
    d.defaults k =
      (d.fields.map fun f => (f.jsonKey, f.default)).any fun p =>
        decide (p.1 = k) && p.2.isSome := by
  unfold StructDecl.defaults
  induction d.fields with
  | nil => rfl
  | cons f fs ih => simp only [List.any_cons, List.map_cons, ih]

theorem ConnectionConf.decl_defaults :
    (ConnectionConf.decl.fields.map fun f => (f.jsonKey, f.default)) =
      [("name", none), ("display_name", none), ("strategy", none), ("options", none),
       ("provisioning_ticket_url", none), ("metadata", none), ("realms", none),
       ("show_as_button", none), ("is_domain_connection", some (JSON.bool false))] := by
  decide

theorem ConnectionConf.missingDefaults_eq (m : List (String × JSON))
    (h : lookupKey "is_domain_connection" m = none) :
    ConnectionConf.decl.missingDefaults m = [("is_domain_connection", JSON.bool false)] := by
  rw [StructDecl.missingDefaults_map, ConnectionConf.decl_defaults]
  simp [h]

theorem ConnectionConf.defaults_eq (k : String) :
    ConnectionConf.decl.defaults k = decide ("is_domain_connection" = k) := by
  rw [StructDecl.defaults_map, ConnectionConf.decl_defaults]
  simp

/-- C14, amended: a ConnectionConf declared without is_domain_connection is written
without it by the encoder, which fills in nothing; the default declared on the field
(`+kubebuilder:default:=false`) then fills in is_domain_connection = false when the object
is admitted, so the stored configuration carries it. It is the only field of the package
with a declared default: every other field left unset stays unset. -/
theorem C14_unset_field_gets_declared_default (c : ConnectionConf)
    (h : c.IsDomainConnection = none) :
    "is_domain_connection" ∉ c.toJSON.keys ∧
    ConnectionConf.decl.applyDefaults c.toJSON.members
      = c.toJSON.members ++ [("is_domain_connection", JSON.bool false)] ∧
    defaultedFields = [("ConnectionConf", "is_domain_connection")] := by
  have hnot : "is_domain_connection" ∉ c.toJSON.keys := by
    intro hk
    obtain ⟨f, hf, hkey, hkeep⟩ := marshalFields_key_mem c.fields "is_domain_connection" hk
    simp [ConnectionConf.fields, FieldEnc.ptr, FieldEnc.slice, h] at hf
    rcases hf with rfl | rfl | rfl | rfl | rfl | rfl | rfl | rfl | rfl <;>
      simp at hkey hkeep
  refine ⟨hnot, ?_, by decide⟩
  have hl : lookupKey "is_domain_connection" c.toJSON.members = none :=
    lookupKey_eq_none _ _ hnot
  have hkeep : (c.toJSON.members.filter fun m =>
      !(decide (m.2 = JSON.null) && ConnectionConf.decl.defaults m.1)) = c.toJSON.members := by
    rw [List.filter_eq_self]
    intro m hm
    have hne : "is_domain_connection" ≠ m.1 := by
      intro e
      apply hnot
      rw [e]
      exact JSON.mem_keys_of_mem_members _ m hm
    simp [ConnectionConf.defaults_eq, hne]
  rw [StructDecl.applyDefaults, hkeep, ConnectionConf.missingDefaults_eq _ hl]

/-- C14, witness: the ConnectionConf with only the name "db" set. -/
theorem C14_unset_field_gets_declared_default_witness :
    "is_domain_connection" ∉
        (ConnectionConf.toJSON { ConnectionConf.unset with Name := some "db" }).keys ∧
    ConnectionConf.decl.applyDefaults
        (ConnectionConf.toJSON { ConnectionConf.unset with Name := some "db" }).members
      = (ConnectionConf.toJSON { ConnectionConf.unset with Name := some "db" }).members ++
        [("is_domain_connection", JSON.bool false)] ∧
    defaultedFields = [("ConnectionConf", "is_domain_connection")] :=
  C14_unset_field_gets_declared_default { ConnectionConf.unset with Name := some "db" } rfl

/-! ## Theorems: group, resource and registration -/

/-- C16: for every string r, Resource(r) is the group-qualified resource whose group is
"kubernetes.auth0.com", the group of GroupVersion and the declared group name of the
package, and whose resource is r unchanged. -/
theorem C16_resource (r : String) :
    Resource r = ⟨"kubernetes.auth0.com", r⟩ ∧
    (Resource r).Group = GroupVersion.Group ∧
    GroupVersion.Group = groupName ∧
    (Resource r).Resource = r :=
  ⟨rfl, rfl, rfl, rfl⟩

/-! ## Theorems: the tenant flags -/

/-- C18, on the code: a TenantFlags in which only EnableIdTokenImplicitGrant is set is
written as the one-key object whose key is "enable_impersonation", the key the tag of
the field gives, whatever the value of the flag. -/
theorem C18_implicit_grant_flag_key (b : Bool) :
    TenantFlags.toJSON { TenantFlags.unset with EnableIdTokenImplicitGrant := some b }
      = JSON.obj [("enable_impersonation", JSON.bool b)] ∧
    (∃ f ∈ TenantFlags.decl.fields, f.goName = "EnableIdTokenImplicitGrant" ∧
      f.jsonKey = "enable_impersonation") :=
  ⟨rfl, by decide⟩

/-! ## Theorems: distinct keys -/

set_option maxRecDepth 100000 in
/-- C19: within every struct type of the package, the json keys of its fields (with the
two keys of an inlined TypeMeta) are pairwise distinct, also when compared without regard
to case. -/
theorem C19_keys_distinct :
    ∀ d ∈ allStructDecls, d.encodedKeys.Nodup ∧ (d.encodedKeys.map foldCase).Nodup := by
  decide

set_option maxRecDepth 100000 in
/-- C19, witness: the json keys of ClientConf, the largest struct of the package, are
pairwise distinct. -/
theorem C19_keys_distinct_witness :
    ClientConf.decl ∈ allStructDecls ∧
    ClientConf.decl.encodedKeys.length = 39 ∧
    ClientConf.decl.encodedKeys.Nodup ∧
    (ClientConf.decl.encodedKeys.map foldCase).Nodup :=
  ⟨by simp [allStructDecls], by decide,
    C19_keys_distinct ClientConf.decl (by simp [allStructDecls])⟩


theorem find?_filter_of_imp {α : Type} (p q : α → Bool) (l : List α)
    (h : ∀ a, p a = true → q a = true) : (l.filter q).find? p = l.find? p := by
  induction l with
  | nil => rfl
  | cons a l ih =>
    by_cases hq : q a = true
    · simp only [List.filter_cons, hq, if_true, List.find?_cons, ih]
    · have hp : p a = false := by
        cases hpa : p a
        · rfl
        · exact absurd (h a hpa) hq
      rw [List.filter_cons_of_neg hq, List.find?_cons_of_neg _ (by simp [hp]), ih]

theorem find?_insert {α β : Type} [DecidableEq α] (l : List (α × β)) (g g' : α) (t : β) :
    (((g, t) :: l.filter fun e => decide (e.1 ≠ g)).find? fun e => decide (e.1 = g')).map
        Prod.snd
      = if g = g' then some t else (l.find? fun e => decide (e.1 = g')).map Prod.snd := by
  by_cases hg : g = g'
  · simp [hg]
  · simp only [List.find?_cons, hg, decide_False, if_false]
    rw [find?_filter_of_imp]
    intro a ha
    have : a.1 = g' := by simpa using ha
    simp [this, Ne.symm hg]

theorem Scheme.Recognizes_eq (s : Scheme) (g : Schema.GroupVersionKind) :
    s.Recognizes g = (s.typeOf g).isSome := by
  obtain ⟨l, u⟩ := s
  unfold Scheme.Recognizes Scheme.typeOf
  induction l with
  | nil => rfl
  | cons a l ih =>
    by_cases h : a.1 = g
    · simp [h]
    · simp only [List.any_cons, List.find?_cons, h, decide_False, Bool.false_or]
      exact ih

theorem Scheme.AddKnownTypeWithName_ok (s : Scheme) (g : Schema.GroupVersionKind)
    (t : GoType) (hv : g.Version ≠ "")
    (hacc : (match s.typeOf g with
      | none => true
      | some old => decide (old = t)) = true) :
    ∃ s', s.AddKnownTypeWithName g t = some s' ∧
      s'.unversionedKinds = s.unversionedKinds ∧
      ∀ g', s'.typeOf g' = if g = g' then some t else s.typeOf g' := by
  refine ⟨{ s with gvkToType := (g, t) :: s.gvkToType.filter fun e => decide (e.1 ≠ g) },
    ?_, rfl, ?_⟩
  · unfold Scheme.AddKnownTypeWithName
    simp only [hv, if_false]
    cases h : s.typeOf g with
    | none => rfl
    | some old =>
      rw [h] at hacc
      have : old = t := by simpa using hacc
      simp [this]
  · intro g'
    exact find?_insert s.gvkToType g g' t

theorem Scheme.registerAll_ok (regs : List (Schema.GroupVersionKind × GoType)) :
    ∀ s : Scheme, (∀ p ∈ regs, p.1.Version ≠ "") → (regs.map Prod.fst).Nodup →
      (∀ p ∈ regs, (match s.typeOf p.1 with
        | none => true
        | some old => decide (old = p.2)) = true) →
      ∃ s', s.registerAll regs = some s' ∧
        s'.unversionedKinds = s.unversionedKinds ∧
        ∀ g, s'.typeOf g =
          match (regs.find? fun p => decide (p.1 = g)) with
          | some p => some p.2
          | none => s.typeOf g := by
  induction regs with
  | nil => intro s _ _ _; exact ⟨s, rfl, rfl, fun g => rfl⟩
  | cons p rest ih =>
    intro s hv hnd hacc
    simp only [List.map_cons, List.nodup_cons] at hnd
    obtain ⟨s1, h1, hu1, ht1⟩ := s.AddKnownTypeWithName_ok p.1 p.2
      (hv p (List.mem_cons_self _ _)) (hacc p (List.mem_cons_self _ _))
    have hrest : ∀ q ∈ rest, (match s1.typeOf q.1 with
        | none => true
        | some old => decide (old = q.2)) = true := by
      intro q hq
      have hne : p.1 ≠ q.1 := by
        intro e
        exact hnd.1 (e ▸ List.mem_map.2 ⟨q, hq, rfl⟩)
      rw [ht1 q.1, if_neg hne]
      exact hacc q (List.mem_cons_of_mem _ hq)
    obtain ⟨s', h2, hu2, ht2⟩ := ih s1 (fun q hq => hv q (List.mem_cons_of_mem _ hq))
      hnd.2 hrest
    refine ⟨s', ?_, hu2.trans hu1, ?_⟩
    · simp only [Scheme.registerAll, h1]
      exact h2
    · intro g
      rw [ht2 g, ht1 g]
      by_cases hg : p.1 = g
      · have hnone : (rest.find? fun q => decide (q.1 = g)) = none := by
          rw [List.find?_eq_none]
          intro q hq hqg
          have : q.1 = g := by simpa using hqg
          exact hnd.1 (hg ▸ this ▸ List.mem_map.2 ⟨q, hq, rfl⟩)
        simp [List.find?_cons, hg, hnone]
      · simp [List.find?_cons, hg]

theorem Scheme.registerAll_append (l1 l2 : List (Schema.GroupVersionKind × GoType)) :
    ∀ s : Scheme, s.registerAll (l1 ++ l2) =
      match s.registerAll l1 with
      | none => none
      | some s1 => s1.registerAll l2 := by
  induction l1 with
  | nil => intro s; rfl
  | cons p rest ih =>
    intro s
    simp only [List.cons_append, Scheme.registerAll]
    cases s.AddKnownTypeWithName p.1 p.2 with
    | none => rfl
    | some s1 => exact ih s1

theorem Scheme.setUnversionedKinds_ok (types : List GoType) :
    ∀ s : Scheme, (types.map GoType.Name).Nodup →
      (∀ t ∈ types, (match s.unversionedKind t.Name with
        | none => true
        | some old => decide (old = t)) = true) →
      ∃ s', s.setUnversionedKinds types = some s' ∧ s'.gvkToType = s.gvkToType ∧
        ∀ k, s'.unversionedKind k =
          match (types.find? fun t => decide (t.Name = k)) with
          | some t => some t
          | none => s.unversionedKind k := by
  induction types with
  | nil => intro s _ _; exact ⟨s, rfl, rfl, fun k => rfl⟩
  | cons t rest ih =>
    intro s hnd hacc
    simp only [List.map_cons, List.nodup_cons] at hnd
    have hk1 : ∀ k, Scheme.unversionedKind
        { s with unversionedKinds :=
            (t.Name, t) :: s.unversionedKinds.filter fun e => decide (e.1 ≠ t.Name) } k
          = if t.Name = k then some t else s.unversionedKind k := by
      intro k
      exact find?_insert s.unversionedKinds t.Name k t
    have hstep : ∀ q ∈ rest,
        (match Scheme.unversionedKind
            { s with unversionedKinds :=
                (t.Name, t) :: s.unversionedKinds.filter fun e => decide (e.1 ≠ t.Name) }
            q.Name with
          | none => true
          | some old => decide (old = q)) = true := by
      intro q hq
      have hne : t.Name ≠ q.Name := by
        intro e
        exact hnd.1 (e ▸ List.mem_map.2 ⟨q, hq, rfl⟩)
      rw [hk1, if_neg hne]
      exact hacc q (List.mem_cons_of_mem _ hq)
    obtain ⟨s', h2, hg2, hk2⟩ := ih _ hnd.2 hstep
    refine ⟨s', ?_, hg2, ?_⟩
    · have h0 := hacc t (List.mem_cons_self _ _)
      unfold Scheme.setUnversionedKinds
      cases h : s.unversionedKind t.Name with
      | none => simpa using h2
      | some old =>
        rw [h] at h0
        have : old = t := by simpa using h0
        simpa [this] using h2
    · intro k
      rw [hk2 k, hk1 k]
      by_cases hg : t.Name = k
      · have hnone : (rest.find? fun q => decide (q.Name = k)) = none := by
          rw [List.find?_eq_none]
          intro q hq hqk
          have : q.Name = k := by simpa using hqk
          exact hnd.1 (hg ▸ this ▸ List.mem_map.2 ⟨q, hq, rfl⟩)
        simp [List.find?_cons, hg, hnone]
      · simp [List.find?_cons, hg]

theorem rootTypes_eq :
    rootTypes = ["A0ClientGrant", "A0ClientGrantList", "A0Client", "A0ClientList",
      "A0Connection", "A0ConnectionList", "A0ResourceServer", "A0ResourceServerList",
      "A0Tenant", "A0TenantList"] := by
  decide

theorem find?_of_nodup {α β : Type} [DecidableEq α] (l : List (α × β)) :
    (l.map Prod.fst).Nodup → ∀ p ∈ l, (l.find? fun q => decide (q.1 = p.1)) = some p := by
  induction l with
  | nil => intro _ p hp; cases hp
  | cons a l ih =>
    intro hnd p hp
    simp only [List.map_cons, List.nodup_cons] at hnd
    rcases List.mem_cons.1 hp with rfl | hp
    · simp
    · have hne : a.1 ≠ p.1 := by
        intro e
        exact hnd.1 (e ▸ List.mem_map.2 ⟨p, hp, rfl⟩)
      simp only [List.find?_cons, hne, decide_False]
      exact ih hnd.2 p hp

theorem Scheme.registerAll_two (s : Scheme) (a b : Schema.GroupVersionKind × GoType) :
    s.registerAll [a, b] =
      match s.AddKnownTypeWithName a.1 a.2 with
      | none => none
      | some s1 => s1.AddKnownTypeWithName b.1 b.2 := by
  simp only [Scheme.registerAll]
  cases s.AddKnownTypeWithName a.1 a.2 with
  | none => rfl
  | some s1 =>
    dsimp only
    cases s1.AddKnownTypeWithName b.1 b.2 <;> rfl

theorem addKnownTypes_eq (scheme : Scheme) :
    addKnownTypes scheme =
      match scheme.registerAll registrations with
      | none => none
      | some s4 =>
        match s4.setUnversionedKinds unversionedTypes with
        | none => none
        | some s5 => some (s5, none) := by
  unfold registrations
  rw [Scheme.registerAll_append, Scheme.registerAll_append, Scheme.registerAll_append]
  unfold addKnownTypes Scheme.AddKnownTypes
  cases scheme.registerAll (knownTypes.map fun t => (GroupVersion.WithKind t.Name, t)) with
  | none => rfl
  | some s1 =>
    dsimp only
    rw [Scheme.registerAll_two]
    unfold AddToGroupVersion Scheme.AddUnversionedTypes Scheme.AddKnownTypes
    dsimp only
    cases s1.AddKnownTypeWithName (GroupVersion.WithKind "WatchEvent")
        ⟨"metav1", "WatchEvent"⟩ with
    | none => rfl
    | some s2 =>
      dsimp only
      cases s2.AddKnownTypeWithName
          (Schema.GroupVersion.WithKind ⟨GroupVersion.Group, "__internal"⟩ "WatchEvent")
          ⟨"metav1", "InternalEvent"⟩ with
      | none => rfl
      | some s3 =>
        dsimp only
        cases s3.registerAll (optionsTypes.map fun t => (GroupVersion.WithKind t.Name, t)) with
        | none => rfl
        | some s4 =>
          dsimp only
          cases s4.registerAll
              (unversionedTypes.map fun t => (Unversioned.WithKind t.Name, t)) with
          | none => rfl
          | some s5 => rfl

/-- C17, the claim as written fails: a scheme that already holds another Go type under
the kind A0Client of group kubernetes.auth0.com, version v1, makes the registration panic
(double registration of different types), so neither addKnownTypes nor AddToScheme returns
nil: they do not return. -/
theorem C17_registration_counterexample :
    addKnownTypes
        ⟨[(⟨"kubernetes.auth0.com", "v1", "A0Client"⟩, ⟨"other", "A0Client"⟩)], []⟩ = none ∧
    AddToScheme
        ⟨[(⟨"kubernetes.auth0.com", "v1", "A0Client"⟩, ⟨"other", "A0Client"⟩)], []⟩ = none ∧
    Scheme.free
        ⟨[(⟨"kubernetes.auth0.com", "v1", "A0Client"⟩, ⟨"other", "A0Client"⟩)], []⟩
      = false := by
  decide

/-- C17, amended: registering the types of the package with a scheme that holds no other
type under a kind the registration uses returns nil, from addKnownTypes and from
AddToScheme alike, and afterwards the scheme recognizes, under group kubernetes.auth0.com
and version v1, every root type the package declares, each kind standing for the type of
that name in this package: A0Client, A0ClientGrant, A0Connection, A0ResourceServer,
A0Tenant and the List type of each, ten types in all. The call makes twenty-three
registrations, the API machinery kinds among them; each is in the scheme afterwards, and
every other kind stands for what it stood for before. -/
theorem C17_registration (scheme : Scheme) (h : scheme.free = true) :
    ∃ s : Scheme,
      addKnownTypes scheme = some (s, none) ∧
      AddToScheme scheme = some (s, none) ∧
      rootTypes.length = 10 ∧
      (∀ t, t ∈ rootTypes ↔ t ∈ ["A0Client", "A0ClientGrant", "A0Connection",
        "A0ResourceServer", "A0Tenant", "A0ClientList", "A0ClientGrantList",
        "A0ConnectionList", "A0ResourceServerList", "A0TenantList"]) ∧
      (∀ t ∈ rootTypes,
        s.Recognizes ⟨"kubernetes.auth0.com", "v1", t⟩ = true ∧
        s.typeOf ⟨"kubernetes.auth0.com", "v1", t⟩ = some ⟨"v1", t⟩) ∧
      registrations.length = 23 ∧
      (∀ p ∈ registrations, s.typeOf p.1 = some p.2) ∧
      (∀ g, g ∉ registrations.map Prod.fst → s.typeOf g = scheme.typeOf g) ∧
      (∀ t ∈ unversionedTypes, s.unversionedKind t.Name = some t) := by
  have hnd : (registrations.map Prod.fst).Nodup := by decide
  have hfree := h
  simp only [Scheme.free, Bool.and_eq_true, List.all_eq_true] at hfree
  obtain ⟨s4, h4, hu4, ht4⟩ := Scheme.registerAll_ok registrations scheme (by decide) hnd
    hfree.1
  obtain ⟨s5, h5, hg5, hk5⟩ := Scheme.setUnversionedKinds_ok unversionedTypes s4 (by decide)
    (by
      intro t ht
      have := hfree.2 t ht
      simpa only [Scheme.unversionedKind, hu4] using this)
  have hadd : addKnownTypes scheme = some (s5, none) := by
    rw [addKnownTypes_eq, h4]
    simp only [h5]
  have hty : ∀ g, s5.typeOf g = s4.typeOf g := by
    intro g
    simp only [Scheme.typeOf, hg5]
  have hreg : ∀ p ∈ registrations, s5.typeOf p.1 = some p.2 := by
    intro p hp
    rw [hty, ht4, find?_of_nodup registrations hnd p hp]
  have hunv : ∀ t ∈ unversionedTypes, s5.unversionedKind t.Name = some t := by
    intro t ht
    rw [hk5]
    have hf : ∀ q ∈ unversionedTypes,
        (unversionedTypes.find? fun u => decide (u.Name = q.Name)) = some q := by decide
    rw [hf t ht]
  refine ⟨s5, hadd, ?_, by decide, ?_, ?_, by decide, hreg, ?_, hunv⟩
  · simp only [AddToScheme, SchemeBuilder, SchemeBuilderFuncs.AddToScheme, hadd]
  · intro t
    rw [rootTypes_eq]
    simp only [List.mem_cons, List.mem_singleton, List.not_mem_nil, or_false]
    tauto
  · intro t ht
    have hmem : ((⟨"kubernetes.auth0.com", "v1", t⟩ : Schema.GroupVersionKind),
        (⟨"v1", t⟩ : GoType)) ∈ registrations := by
      rw [rootTypes_eq] at ht
      simp only [List.mem_cons, List.mem_singleton, List.not_mem_nil, or_false] at ht
      rcases ht with rfl | rfl | rfl | rfl | rfl | rfl | rfl | rfl | rfl | rfl <;> decide
    have := hreg _ hmem
    exact ⟨by rw [Scheme.Recognizes_eq, this]; rfl, this⟩
  · intro g hg
    rw [hty, ht4]
    have hnone : (registrations.find? fun p => decide (p.1 = g)) = none := by
      rw [List.find?_eq_none]
      intro q hq hqg
      have : q.1 = g := by simpa using hqg
      exact hg (this ▸ List.mem_map.2 ⟨q, hq, rfl⟩)
    rw [hnone]

/-- C17, an instance: the empty scheme holds nothing, so the registration returns nil, and
afterwards the kind A0Tenant of group kubernetes.auth0.com, version v1, stands for the
type A0Tenant of this package; the kind WatchEvent of the same group and version, which
the package does not declare, is registered too. -/
theorem C17_registration_witness :
    Scheme.free ⟨[], []⟩ = true ∧
    (addKnownTypes ⟨[], []⟩).isSome = true ∧
    ((addKnownTypes ⟨[], []⟩).map fun r => r.2) = some none ∧
    ((addKnownTypes ⟨[], []⟩).map fun r =>
      r.1.typeOf ⟨"kubernetes.auth0.com", "v1", "A0Tenant"⟩) = some (some ⟨"v1", "A0Tenant"⟩) ∧
    ((addKnownTypes ⟨[], []⟩).map fun r =>
      r.1.Recognizes ⟨"kubernetes.auth0.com", "v1", "WatchEvent"⟩) = some true ∧
    ((addKnownTypes ⟨[], []⟩).map fun r => r.1.gvkToType.length) = some 23 ∧
    ∃ s : Scheme, addKnownTypes ⟨[], []⟩ = some (s, none) ∧
      AddToScheme ⟨[], []⟩ = some (s, none) ∧
      ∀ p ∈ registrations, s.typeOf p.1 = some p.2 := by
  refine ⟨by decide, by decide, by decide, by decide, by decide, by decide, ?_⟩
  obtain ⟨s, h1, h2, _, _, _, _, h7, _, _⟩ := C17_registration ⟨[], []⟩ (by decide)
  exact ⟨s, h1, h2, h7⟩

/-! ## Theorems: the empty policy -/

/-- C20: for every resource spec, the spec with a present but empty policy and the spec
with no policy serialize to the same JSON, which has no "policy" key, so decoding the
encoding of the spec with the empty policy list gives the policy field of a spec with no
policy (the nil slice), although the two specs differ. -/
theorem C20_empty_policy_is_absent (s : Spec) :
    (s.withPolicy (some [])).toJSON = (s.withPolicy none).toJSON ∧
    "policy" ∉ (s.withPolicy (some [])).toJSON.keys ∧
    decodePolicyField (s.withPolicy (some [])).toJSON.members = some none ∧
    (s.withPolicy none).policy = none ∧
    (s.withPolicy (some [])).policy = some [] ∧
    (s.withPolicy (some [])).policy ≠ (s.withPolicy none).policy := by
  have hkeys : "policy" ∉ (s.withPolicy (some [])).toJSON.keys := by
    intro hk
    obtain ⟨f, hf, hkey, hkeep⟩ := marshalFields_key_mem _ "policy" hk
    cases s with
    | tenant s =>
      simp [Spec.withPolicy, Spec.fields, A0TenantSpec.fields, FieldEnc.ptr, FieldEnc.slice,
        FieldEnc.string] at hf
      rcases hf with rfl | rfl | rfl | rfl | rfl <;> simp at hkey hkeep
    | client s =>
      simp [Spec.withPolicy, Spec.fields, A0ClientSpec.fields, FieldEnc.ptr,
        FieldEnc.slice] at hf
      rcases hf with rfl | rfl | rfl | rfl | rfl | rfl <;> simp at hkey hkeep
    | clientGrant s =>
      simp [Spec.withPolicy, Spec.fields, A0ClientGrantSpec.fields, FieldEnc.ptr,
        FieldEnc.slice] at hf
      rcases hf with rfl | rfl | rfl | rfl <;> simp at hkey hkeep
    | connection s =>
      simp [Spec.withPolicy, Spec.fields, A0ConnectionSpec.fields, FieldEnc.ptr,
        FieldEnc.slice] at hf
      rcases hf with rfl | rfl | rfl | rfl | rfl <;> simp at hkey hkeep
    | resourceServer s =>
      simp [Spec.withPolicy, Spec.fields, A0ResourceServerSpec.fields, FieldEnc.ptr,
        FieldEnc.slice] at hf
      rcases hf with rfl | rfl | rfl | rfl <;> simp at hkey hkeep
  refine ⟨?_, hkeys, ?_, ?_, ?_, ?_⟩
  · cases s <;> rfl
  · have hl : lookupKey "policy" (s.withPolicy (some [])).toJSON.members = none :=
      lookupKey_eq_none _ _ hkeys
    unfold decodePolicyField
    rw [hl]
  · cases s <;> rfl
  · cases s <;> rfl
  · cases s <;> simp [Spec.withPolicy, Spec.policy]


/-! ## Theorems: the namespace of a reference -/

/-- C15: for every tenant, client or connection reference whose namespace is empty (nil,
or the empty string), the referenced object is looked up in the namespace of the
referencing resource: the result of a reference by name is what the store holds under
that name in the resource's own namespace (not found when it holds nothing there, not
ready when the object there has no remote identity, its identity otherwise), and every
local lookup the resolver performs is in that namespace. A run of a resource server or
of a connection whose tenantRef names, with an empty namespace, a tenant that the
resource's own namespace does not hold is blocked with reference-not-found, whatever
other namespaces hold. -/
theorem C15_empty_namespace_is_own (store : Store) (r : ManagedResource)
    (ns : Option String) (h : ns = none ∨ ns = some "") (name : String)
    (nm id : Option String) :
    (resolve store r.objectMeta.Namespace (V1TenantReference.reference ⟨ns, name⟩)).2
      = [⟨.Tenant, r.objectMeta.Namespace, name⟩] ∧
    (resolve store r.objectMeta.Namespace
        (V1ClientReference.reference ⟨ns, some name, none⟩)).2
      = [⟨.Client, r.objectMeta.Namespace, name⟩] ∧
    (resolve store r.objectMeta.Namespace
        (V1ConnectionReference.reference ⟨ns, some name, none⟩)).2
      = [⟨.Connection, r.objectMeta.Namespace, name⟩] ∧
    (∀ l ∈ (resolve store r.objectMeta.Namespace
        (V1ClientReference.reference ⟨ns, nm, id⟩)).2, l.ns = r.objectMeta.Namespace) ∧
    (∀ l ∈ (resolve store r.objectMeta.Namespace
        (V1ConnectionReference.reference ⟨ns, nm, id⟩)).2,
      l.ns = r.objectMeta.Namespace) ∧
    (resolve store r.objectMeta.Namespace (V1TenantReference.reference ⟨ns, name⟩)).1
      = (match store .Tenant r.objectMeta.Namespace name with
        | none => .error .ReferenceNotFound
        | some target =>
          match target.remoteIdentity with
          | none => .error .ReferenceNotReady
          | some i => .ok i) ∧
    (resolve store r.objectMeta.Namespace
        (V1ClientReference.reference ⟨ns, some name, none⟩)).1
      = (match store .Client r.objectMeta.Namespace name with
        | none => .error .ReferenceNotFound
        | some target =>
          match target.remoteIdentity with
          | none => .error .ReferenceNotReady
          | some i => .ok i) ∧
    (resolve store r.objectMeta.Namespace
        (V1ConnectionReference.reference ⟨ns, some name, none⟩)).1
      = (match store .Connection r.objectMeta.Namespace name with
        | none => .error .ReferenceNotFound
        | some target =>
          match target.remoteIdentity with
          | none => .error .ReferenceNotReady
          | some i => .ok i) ∧
    (∀ (env : Env) (o : A0ResourceServer),
      o.Spec.TenantRef = some ⟨ns, name⟩ →
      env.store .Tenant o.ObjectMeta.Namespace name = none →
      (reconcile env (.resourceServer o)).phase = .Blocked .ReferenceNotFound) ∧
    (∀ (env : Env) (o : A0Connection),
      o.Spec.TenantRef = some ⟨ns, name⟩ →
      env.store .Tenant o.ObjectMeta.Namespace name = none →
      (reconcile env (.connection o)).phase = .Blocked .ReferenceNotFound) := by
  have resAt : ∀ (st : Store) (cur : String) (k : Kind) (n : String),
      (resolve st cur ⟨k, ns, some n, none⟩).1
        = (match st k cur n with
          | none => .error .ReferenceNotFound
          | some target =>
            match target.remoteIdentity with
            | none => .error .ReferenceNotReady
            | some i => .ok i) := by
    intro st cur k n
    cases hs : st k cur n with
    | none => rcases h with rfl | rfl <;> simp [resolve, hs]
    | some t =>
      cases ht : t.remoteIdentity <;> rcases h with rfl | rfl <;> simp [resolve, hs, ht]
  have key : ∀ (k : Kind) (n : String),
      (resolve store r.objectMeta.Namespace ⟨k, ns, some n, none⟩).2
        = [⟨k, r.objectMeta.Namespace, n⟩] := by
    intro k n
    rcases h with rfl | rfl <;>
    · simp only [resolve]
      split
      · rfl
      · split <;> rfl
  have res : ∀ (k : Kind) (n : String),
      (resolve store r.objectMeta.Namespace ⟨k, ns, some n, none⟩).1
        = (match store k r.objectMeta.Namespace n with
          | none => .error .ReferenceNotFound
          | some target =>
            match target.remoteIdentity with
            | none => .error .ReferenceNotReady
            | some i => .ok i) :=
    fun k n => resAt store r.objectMeta.Namespace k n
  have blockedAt : ∀ (st : Store) (cur : String), st .Tenant cur name = none →
      resolveAll st cur [V1TenantReference.reference ⟨ns, name⟩]
        = .error .ReferenceNotFound := by
    intro st cur hs
    have hr := resAt st cur .Tenant name
    rw [hs] at hr
    simp only [resolveAll]
    have hr2 : (resolve st cur (V1TenantReference.reference ⟨ns, name⟩)).1
        = .error .ReferenceNotFound := hr
    rw [hr2]
  refine ⟨key _ _, key _ _, key _ _, ?_, ?_, res _ _, res _ _, res _ _, ?_, ?_⟩
  · intro l hl
    cases id with
    | some i => simp [resolve, V1ClientReference.reference] at hl
    | none =>
      cases nm with
      | none => simp [resolve, V1ClientReference.reference] at hl
      | some n =>
        have := key .Client n
        simp only [V1ClientReference.reference] at hl
        rw [this] at hl
        simp at hl
        rw [hl]
  · intro l hl
    cases id with
    | some i => simp [resolve, V1ConnectionReference.reference] at hl
    | none =>
      cases nm with
      | none => simp [resolve, V1ConnectionReference.reference] at hl
      | some n =>
        have := key .Connection n
        simp only [V1ConnectionReference.reference] at hl
        rw [this] at hl
        simp at hl
        rw [hl]
  · intro env o hT hS
    have hb := blockedAt env.store o.ObjectMeta.Namespace hS
    simp [reconcile, runFrom, step, ManagedResource.kind, ManagedResource.tenantRef,
      ManagedResource.references, ManagedResource.objectMeta, hT, hb]
  · intro env o hT hS
    have hb := blockedAt env.store o.ObjectMeta.Namespace hS
    simp [reconcile, runFrom, step, ManagedResource.kind, ManagedResource.tenantRef,
      ManagedResource.references, ManagedResource.objectMeta, hT, hb]

/-- C15, witness: the store holds the tenant `t1` in the namespace "default" only. The
tenantRef of a resource server names "t1" with no namespace: for the resource server in
"default" the tenant is looked up in "default" and found, and the run goes on to plan and
create; for the same resource server in the namespace "other" the tenant is looked up in
"other", not found, and the run is blocked. -/
theorem C15_empty_namespace_is_own_witness :
    resolve namespacedStore
        (ManagedResource.resourceServer (resourceServerIn "default")).objectMeta.Namespace
        (V1TenantReference.reference ⟨none, "t1"⟩)
      = (.ok "t1", [⟨.Tenant, "default", "t1"⟩]) ∧
    resolve namespacedStore
        (ManagedResource.resourceServer (resourceServerIn "other")).objectMeta.Namespace
        (V1TenantReference.reference ⟨none, "t1"⟩)
      = (.error .ReferenceNotFound, [⟨.Tenant, "other", "t1"⟩]) ∧
    (reconcile { sampleEnv false false with store := namespacedStore }
        (.resourceServer (resourceServerIn "default"))).phase = .Settled ∧
    (reconcile { sampleEnv false false with store := namespacedStore }
        (.resourceServer (resourceServerIn "other"))).phase
      = .Blocked .ReferenceNotFound ∧
    (resolve namespacedStore
        (ManagedResource.resourceServer (resourceServerIn "other")).objectMeta.Namespace
        (V1TenantReference.reference ⟨none, "t1"⟩)).1
      = (match namespacedStore .Tenant
          (ManagedResource.resourceServer (resourceServerIn "other")).objectMeta.Namespace
          "t1" with
        | none => .error .ReferenceNotFound
        | some target =>
          match target.remoteIdentity with
          | none => .error .ReferenceNotReady
          | some i => .ok i) :=
  ⟨rfl, rfl, rfl, rfl,
    (C15_empty_namespace_is_own namespacedStore
      (.resourceServer (resourceServerIn "other"))
      none (Or.inl rfl) "t1" none none).2.2.2.2.2.1⟩


/-! ## Theorems: init and the update comparison -/

theorem ManagedResource.sameButInit_reads (r r' : ManagedResource) (h : r.sameButInit r') :
    r'.kind = r.kind ∧ r'.removed = r.removed ∧ r'.remoteIdentity = r.remoteIdentity ∧
    r'.find = r.find ∧ r'.policy = r.policy ∧ r'.status.lastConf = r.status.lastConf ∧
    r'.desired = r.desired := by
  cases r <;> cases r' <;> simp only [ManagedResource.sameButInit] at h <;>
    first
    | exact absurd h id
    | (rw [h]; exact ⟨rfl, rfl, rfl, rfl, rfl, rfl, rfl⟩)

theorem mem_mergeUnder_of_mem_conf (init conf : List (String × JSON)) (kv : String × JSON)
    (h : kv ∈ conf) : kv ∈ mergeUnder init conf :=
  List.mem_append.2 (Or.inr h)

theorem mem_mergeUnder_cases (init conf : List (String × JSON)) (kv : String × JSON)
    (h : kv ∈ mergeUnder init conf) :
    kv ∈ conf ∨ (kv ∈ init ∧ kv.1 ∉ conf.map Prod.fst) := by
  rcases List.mem_append.1 h with h1 | h2
  · right
    simp only [List.mem_filter] at h1
    refine ⟨h1.1, ?_⟩
    have := h1.2
    simpa using this
  · exact Or.inl h2

/-- C13: for two resources that differ at most in init, the comparison of lastConf with
conf and the delta of an update are the same, and the planner gives the same plan and
the same calls for both unless the plan is a create request (Create or Recreate); the
create request is init merged under conf: it has every member of conf, and a member of
init only under a key conf does not declare. -/
theorem C13_init_only_in_create (env : Env) (r r' : ManagedResource)
    (h : r.sameButInit r') :
    lastConfMatches r'.status.lastConf r'.desired
      = lastConfMatches r.status.lastConf r.desired ∧
    delta r'.status.lastConf r'.desired = delta r.status.lastConf r.desired ∧
    (∀ p, (planFor env r).1 = .ok p → (∀ x, p ≠ .Create x) → (∀ x, p ≠ .Recreate x) →
      planFor env r' = planFor env r) ∧
    (∀ kv ∈ r.desired, kv ∈ r.createPayload.members) ∧
    (∀ kv ∈ r.createPayload.members, kv ∈ r.desired ∨
      (r.init.isSome = true ∧ kv.1 ∉ r.desired.map Prod.fst)) := by
  obtain ⟨hk, hrem, hri, hfind, hpol, hlast, hdes⟩ := r.sameButInit_reads r' h
  refine ⟨by rw [hlast, hdes], by rw [hlast, hdes], ?_, ?_, ?_⟩
  · intro p hp hnc hnr
    unfold planFor at hp ⊢
    rw [hk, hrem, hri, hfind, hpol, hlast, hdes]
    split
    · rfl
    · rename_i hnrem
      split
      · rename_i hnone
        split
        · rename_i d hd
          split
          · rfl
          · rename_i hfnd
            simp [hnrem, hnone, hd, hfnd] at hp
            exact absurd hp.symm (hnc _)
          · rfl
        · rename_i hd
          simp [hnrem, hnone, hd] at hp
          exact absurd hp.symm (hnc _)
      · rename_i i hsome
        split
        · rename_i hlive
          split
          · rename_i hallow
            simp [hnrem, hsome, hlive, hallow] at hp
            exact absurd hp.symm (hnr _)
          · rfl
        · rfl
  · intro kv hkv
    exact mem_mergeUnder_of_mem_conf _ _ kv hkv
  · intro kv hkv
    simp only [ManagedResource.createPayload, JSON.members] at hkv
    rcases mem_mergeUnder_cases _ _ kv hkv with h1 | ⟨h2, h3⟩
    · exact Or.inl h1
    · refine Or.inr ⟨?_, h3⟩
      cases hi : r.init with
      | none => rw [hi] at h2; simp at h2
      | some j => rfl

/-- C13, witness: two resource servers bound to "rs_1" whose conf differs from lastConf,
one with an init that sets a signing secret and one without: both plan the same Update
with the delta name = "api", and the signing secret of init appears in the create
payload only. -/
theorem C13_init_only_in_create_witness :
    (planFor (sampleEnv false false) (.resourceServer (sampleResourceServerWithInit
        [PolicyTypeCreate, PolicyTypeUpdate] ⟨some "rs_1", none, none⟩))).1
      = .ok (.Update "rs_1" (JSON.obj [("name", JSON.str "api")])) ∧
    (ManagedResource.resourceServer (sampleResourceServerWithInit
        [PolicyTypeCreate, PolicyTypeUpdate] ⟨some "rs_1", none, none⟩)).createPayload
      = JSON.obj [("signing_secret", JSON.str "s3cret"), ("name", JSON.str "api")] ∧
    planFor (sampleEnv false false) (.resourceServer (sampleResourceServer
        [PolicyTypeCreate, PolicyTypeUpdate] none ⟨some "rs_1", none, none⟩))
      = planFor (sampleEnv false false) (.resourceServer (sampleResourceServerWithInit
        [PolicyTypeCreate, PolicyTypeUpdate] ⟨some "rs_1", none, none⟩)) :=
  ⟨rfl, rfl,
    (C13_init_only_in_create (sampleEnv false false)
      (.resourceServer (sampleResourceServerWithInit
        [PolicyTypeCreate, PolicyTypeUpdate] ⟨some "rs_1", none, none⟩))
      (.resourceServer (sampleResourceServer
        [PolicyTypeCreate, PolicyTypeUpdate] none ⟨some "rs_1", none, none⟩))
      rfl).2.2.1 (.Update "rs_1" (JSON.obj [("name", JSON.str "api")])) rfl
      (by intro x hx; cases hx) (by intro x hx; cases hx)⟩


/-! ## Theorems: the second plan -/

namespace ManagedResource

@[simp] theorem kind_setId (i : String) (r : ManagedResource) :
    (r.setId i).kind = r.kind := by cases r <;> rfl

@[simp] theorem kind_setIdentifier (n : Option String) (r : ManagedResource) :
    (r.setIdentifier n).kind = r.kind := by cases r <;> rfl

@[simp] theorem removed_setId (i : String) (r : ManagedResource) :
    (r.setId i).removed = r.removed := by cases r <;> rfl

@[simp] theorem removed_setIdentifier (n : Option String) (r : ManagedResource) :
    (r.setIdentifier n).removed = r.removed := by cases r <;> rfl

@[simp] theorem desired_setId (i : String) (r : ManagedResource) :
    (r.setId i).desired = r.desired := by cases r <;> rfl

@[simp] theorem desired_setIdentifier (n : Option String) (r : ManagedResource) :
    (r.setIdentifier n).desired = r.desired := by cases r <;> rfl

@[simp] theorem desired_setLastConf (d : JSON) (r : ManagedResource) :
    (r.setLastConf d).desired = r.desired := by cases r <;> rfl

@[simp] theorem desired_clearFinalizers (r : ManagedResource) :
    r.clearFinalizers.desired = r.desired := by cases r <;> rfl

@[simp] theorem lastConf_setLastConf (d : JSON) (r : ManagedResource) :
    (r.setLastConf d).status.lastConf = some ⟨some d⟩ := by cases r <;> rfl

theorem remoteIdentity_created (i : String) (n : Option String) (d : JSON)
    (r : ManagedResource) :
    (((r.setId i).setIdentifier n).setLastConf d).remoteIdentity.isSome = true := by
  cases r <;> rfl

theorem remoteIdentity_setLastConf (d : JSON) (r : ManagedResource)
    (h : r.remoteIdentity.isSome = true) :
    (r.setLastConf d).remoteIdentity.isSome = true := by
  cases r with
  | tenant o => rfl
  | client o => exact h
  | clientGrant o => exact h
  | connection o => exact h
  | resourceServer o => exact h

end ManagedResource

theorem lastConfMatches_self (d : List (String × JSON)) :
    lastConfMatches (some ⟨some (JSON.obj d)⟩) d = true := by
  simp [lastConfMatches]

theorem planFor_not_removed (env : Env) (r : ManagedResource) (hrem : r.removed = false) :
    (∀ c ∈ (planFor env r).2, env.confirmed c = false) ∧
    ∀ p, (planFor env r).1 = .ok p →
      (∀ j, p ≠ .Delete j) ∧ (∀ j dl, p = .Update j dl → r.remoteIdentity.isSome = true) := by
  unfold planFor
  simp only [hrem, Bool.false_eq_true, if_false]
  split
  · split
    · split <;> simp [Env.confirmed]
    · simp
  · rename_i i hi
    split
    · split <;> simp
    · split <;> simp [hi]

theorem step_converges (env : Env) (k : Kind) (d : List (String × JSON)) (m : Machine)
    (ha : m.resource.kind = k) (hb : m.resource.desired = d)
    (hc : m.resource.removed = false)
    (hd1 : m.phase = .Settled → (∃ c ∈ m.calls, env.confirmed c = true) →
      m.resource.remoteIdentity.isSome = true ∧
      lastConfMatches m.resource.status.lastConf d = true)
    (hd2 : m.phase.isTerminal = false → ∀ c ∈ m.calls, env.confirmed c = false)
    (he : ∀ p, m.phase = .Applying p →
      (∀ j, p ≠ .Delete j) ∧
      (∀ j dl, p = .Update j dl → m.resource.remoteIdentity.isSome = true)) :
    (step env m).resource.kind = k ∧ (step env m).resource.desired = d ∧
    (step env m).resource.removed = false ∧
    ((step env m).phase = .Settled → (∃ c ∈ (step env m).calls, env.confirmed c = true) →
      (step env m).resource.remoteIdentity.isSome = true ∧
      lastConfMatches (step env m).resource.status.lastConf d = true) ∧
    ((step env m).phase.isTerminal = false →
      ∀ c ∈ (step env m).calls, env.confirmed c = false) ∧
    (∀ p, (step env m).phase = .Applying p →
      (∀ j, p ≠ .Delete j) ∧
      (∀ j dl, p = .Update j dl → (step env m).resource.remoteIdentity.isSome = true)) := by
  have contra : (∀ c ∈ m.calls, env.confirmed c = false) →
      ∀ {P : Prop}, (∃ c ∈ m.calls, env.confirmed c = true) → P := by
    intro hno P hex
    obtain ⟨c, hcm, hct⟩ := hex
    rw [hno c hcm] at hct
    exact absurd hct (by decide)
  unfold step
  split
  · rename_i hph
    have hno := hd2 (by rw [hph]; rfl)
    split
    · exact ⟨ha, hb, hc, by intro h; simp at h, fun _ => hno, by intro p hp; simp at hp⟩
    · exact ⟨ha, hb, hc, by intro h; simp at h, fun _ => hno, by intro p hp; simp at hp⟩
  · rename_i hph
    have hno := hd2 (by rw [hph]; rfl)
    split
    · exact ⟨ha, hb, hc, by intro h; simp at h, fun _ => hno, by intro p hp; simp at hp⟩
    · exact ⟨ha, hb, hc, by intro h; simp at h, fun _ => hno, by intro p hp; simp at hp⟩
  · rename_i hph
    have hno := hd2 (by rw [hph]; rfl)
    obtain ⟨hfind, hplan⟩ := planFor_not_removed env m.resource hc
    have hno2 : ∀ c ∈ m.calls ++ (planFor env m.resource).2, env.confirmed c = false := by
      intro c hcm
      rcases List.mem_append.1 hcm with h1 | h2
      · exact hno c h1
      · exact hfind c h2
    have contra2 : ∀ {P : Prop},
        (∃ c ∈ m.calls ++ (planFor env m.resource).2, env.confirmed c = true) → P := by
      intro P hex
      obtain ⟨c, hcm, hct⟩ := hex
      rw [hno2 c hcm] at hct
      exact absurd hct (by decide)
    simp only [hc, Bool.false_eq_true, if_false]
    split
    · exact ⟨ha, hb, hc, by intro h; simp at h, fun _ => hno2, by intro p hp; simp at hp⟩
    · rename_i p hp
      have hp2 := hplan p hp
      split
      · split
        · exact ⟨ha, hb, hc, fun _ hex => contra2 hex, fun _ => hno2,
            by intro p hp; simp at hp⟩
        · refine ⟨ha, hb, hc, by intro h; simp at h, fun _ => hno2, ?_⟩
          intro q hq
          simp only [Phase.Applying.injEq] at hq
          subst hq
          exact hp2
      · split
        · refine ⟨ha, hb, hc, by intro h; simp at h, fun _ => hno2, ?_⟩
          intro q hq
          simp only [Phase.Applying.injEq] at hq
          subst hq
          exact hp2
        · exact ⟨ha, hb, hc, fun _ hex => contra2 hex, fun _ => hno2,
            by intro p hp; simp at hp⟩
  · rename_i p hph
    have hno := hd2 (by rw [hph]; rfl)
    obtain ⟨hndel, hupd⟩ := he p hph
    cases p with
    | NoOp =>
      exact ⟨ha, hb, hc, fun _ hex => contra hno hex, fun _ => hno,
        by intro p hp; simp [applyPlan] at hp⟩
    | Adopt i =>
      simp only [applyPlan]
      rcases commit_cases env m (m.resource.setId i) with e | e <;> rw [e]
      · exact ⟨by simpa using ha, by simpa using hb, by simpa using hc,
          fun _ hex => contra hno hex, fun _ => hno, by intro p hp; simp at hp⟩
      · exact ⟨ha, hb, hc, by intro h; simp at h, fun _ => hno, by intro p hp; simp at hp⟩
    | Create payload =>
      simp only [applyPlan]
      split
      · rename_i i remote _
        rcases commit_cases env
          { m with calls := m.calls ++ [RemoteCall.Create m.resource.kind payload] }
          (((m.resource.setId i).setIdentifier (identifierOf remote)).setLastConf
            (.obj m.resource.desired)) with e | e <;> rw [e]
        · refine ⟨by simpa using ha, by simpa using hb, by simpa using hc, ?_,
            by intro h; simp [Phase.isTerminal] at h, by intro p hp; simp at hp⟩
          intro _ _
          refine ⟨ManagedResource.remoteIdentity_created _ _ _ _, ?_⟩
          simp only [ManagedResource.lastConf_setLastConf, hb]
          exact lastConfMatches_self d
        · exact ⟨ha, hb, hc, by intro h; simp at h,
            by intro h; simp [Phase.isTerminal] at h, by intro p hp; simp at hp⟩
      · exact ⟨ha, hb, hc, by intro h; simp at h,
          by intro h; simp [Phase.isTerminal] at h, by intro p hp; simp at hp⟩
      · exact ⟨ha, hb, hc, by intro h; simp at h,
          by intro h; simp [Phase.isTerminal] at h, by intro p hp; simp at hp⟩
    | Recreate payload =>
      simp only [applyPlan]
      split
      · rename_i i remote _
        rcases commit_cases env
          { m with calls := m.calls ++ [RemoteCall.Create m.resource.kind payload] }
          (((m.resource.setId i).setIdentifier (identifierOf remote)).setLastConf
            (.obj m.resource.desired)) with e | e <;> rw [e]
        · refine ⟨by simpa using ha, by simpa using hb, by simpa using hc, ?_,
            by intro h; simp [Phase.isTerminal] at h, by intro p hp; simp at hp⟩
          intro _ _
          refine ⟨ManagedResource.remoteIdentity_created _ _ _ _, ?_⟩
          simp only [ManagedResource.lastConf_setLastConf, hb]
          exact lastConfMatches_self d
        · exact ⟨ha, hb, hc, by intro h; simp at h,
            by intro h; simp [Phase.isTerminal] at h, by intro p hp; simp at hp⟩
      · exact ⟨ha, hb, hc, by intro h; simp at h,
          by intro h; simp [Phase.isTerminal] at h, by intro p hp; simp at hp⟩
      · exact ⟨ha, hb, hc, by intro h; simp at h,
          by intro h; simp [Phase.isTerminal] at h, by intro p hp; simp at hp⟩
    | Update j dl =>
      have hbound := hupd j dl rfl
      simp only [applyPlan]
      split
      · rcases commit_cases env
          { m with calls := m.calls ++ [RemoteCall.Update m.resource.kind j dl] }
          (m.resource.setLastConf (.obj m.resource.desired)) with e | e <;> rw [e]
        · refine ⟨by simpa using ha, by simpa using hb, by simpa using hc, ?_,
            by intro h; simp [Phase.isTerminal] at h, by intro p hp; simp at hp⟩
          intro _ _
          refine ⟨ManagedResource.remoteIdentity_setLastConf _ _ hbound, ?_⟩
          simp only [ManagedResource.lastConf_setLastConf, hb]
          exact lastConfMatches_self d
        · exact ⟨ha, hb, hc, by intro h; simp at h,
            by intro h; simp [Phase.isTerminal] at h, by intro p hp; simp at hp⟩
      · exact ⟨ha, hb, hc, by intro h; simp at h,
          by intro h; simp [Phase.isTerminal] at h, by intro p hp; simp at hp⟩
      · exact ⟨ha, hb, hc, by intro h; simp at h,
          by intro h; simp [Phase.isTerminal] at h, by intro p hp; simp at hp⟩
    | Delete j => exact absurd rfl (hndel j)
  · exact ⟨ha, hb, hc, hd1, hd2, he⟩
  · exact ⟨ha, hb, hc, hd1, hd2, he⟩
  · exact ⟨ha, hb, hc, hd1, hd2, he⟩


theorem runFrom_converges (env : Env) (k : Kind) (d : List (String × JSON)) (n : Nat) :
    ∀ m : Machine, m.resource.kind = k → m.resource.desired = d →
      m.resource.removed = false →
      (m.phase = .Settled → (∃ c ∈ m.calls, env.confirmed c = true) →
        m.resource.remoteIdentity.isSome = true ∧
        lastConfMatches m.resource.status.lastConf d = true) →
      (m.phase.isTerminal = false → ∀ c ∈ m.calls, env.confirmed c = false) →
      (∀ p, m.phase = .Applying p →
        (∀ j, p ≠ .Delete j) ∧
        (∀ j dl, p = .Update j dl → m.resource.remoteIdentity.isSome = true)) →
      (runFrom env n m).resource.kind = k ∧ (runFrom env n m).resource.desired = d ∧
      (runFrom env n m).resource.removed = false ∧
      ((runFrom env n m).phase = .Settled →
        (∃ c ∈ (runFrom env n m).calls, env.confirmed c = true) →
        (runFrom env n m).resource.remoteIdentity.isSome = true ∧
        lastConfMatches (runFrom env n m).resource.status.lastConf d = true) := by
  induction n with
  | zero => intro m ha hb hc hd1 _ _; exact ⟨ha, hb, hc, hd1⟩
  | succ n ih =>
    intro m ha hb hc hd1 hd2 he
    obtain ⟨h1, h2, h3, h4, h5, h6⟩ := step_converges env k d m ha hb hc hd1 hd2 he
    exact ih (step env m) h1 h2 h3 h4 h5 h6

theorem planFor_converged (env : Env) (r : ManagedResource) (i : String)
    (hrem : r.removed = false) (hid : r.remoteIdentity = some i)
    (hlive : (env.liveRemote r.kind i).isSome = true)
    (hlast : lastConfMatches r.status.lastConf r.desired = true) :
    planFor env r = (.ok .NoOp, []) := by
  unfold planFor
  simp only [hrem, Bool.false_eq_true, if_false, hid]
  split
  · rename_i hnone
    rw [hnone] at hlive
    simp at hlive
  · simp [hlast]

/-- C11, counterexample: a tenant with an empty policy and conf friendly_name "Acme": the
first run plans Create, the gate denies it, the run settles with no call and no status
change, and the second plan is Create again, not NoOp. Likewise after a write that was
applied in part only, the second plan is the same Update. -/
theorem C11_idempotence_counterexample :
    (reconcile scenarioEnv (.tenant (scenarioTenant []))).phase = .Settled ∧
    (reconcile scenarioEnv (.tenant (scenarioTenant []))).calls = [] ∧
    planFor scenarioEnv (reconcile scenarioEnv (.tenant (scenarioTenant []))).resource
      = (.ok (.Create (JSON.obj [("friendly_name", JSON.str "Acme")])), []) ∧
    planFor scenarioEnv (reconcile scenarioEnv (.tenant (scenarioTenant []))).resource
      ≠ (.ok .NoOp, []) ∧
    planFor (sampleEnv false true) (reconcile (sampleEnv false true) (.resourceServer
        (sampleResourceServer [PolicyTypeCreate, PolicyTypeUpdate] none
          ⟨some "rs_1", none, some ⟨some (JSON.obj [("name", JSON.str "old")])⟩⟩))).resource
      = (.ok (.Update "rs_1" (JSON.obj [("name", JSON.str "api")])), []) := by
  refine ⟨rfl, rfl, rfl, ?_, rfl⟩
  have h : planFor scenarioEnv
      (reconcile scenarioEnv (.tenant (scenarioTenant []))).resource
      = (.ok (.Create (JSON.obj [("friendly_name", JSON.str "Acme")])), []) := rfl
  rw [h]
  intro hne
  cases hne

/-- C11, amended: for every resource whose declaration is not removed, when a
reconciliation run ended Settled after a remote write that was confirmed successful, and
the remote object bound to the resource is still there, planning a second time with no
change in between gives NoOp with no remote call. -/
theorem C11_second_plan_is_noop (env : Env) (r : ManagedResource)
    (hrem : r.removed = false)
    (hset : (reconcile env r).phase = .Settled)
    (hwrite : ∃ c ∈ (reconcile env r).calls, env.confirmed c = true)
    (hlive : ∀ i, (reconcile env r).resource.remoteIdentity = some i →
      (env.liveRemote r.kind i).isSome = true) :
    planFor env (reconcile env r).resource = (.ok .NoOp, []) := by
  obtain ⟨hk, hd, hr, hconv⟩ := runFrom_converges env r.kind r.desired 4 ⟨.Pending, r, []⟩
    rfl rfl hrem (by intro h; simp at h) (by intro _ c hc; simp at hc)
    (by intro p hp; simp at hp)
  obtain ⟨hbound, hlast⟩ := hconv hset hwrite
  cases hri : (reconcile env r).resource.remoteIdentity with
  | none =>
    have : (reconcile env r).resource.remoteIdentity.isSome = true := hbound
    rw [hri] at this
    simp at this
  | some i =>
    have hk2 : (reconcile env r).resource.kind = r.kind := hk
    have hd2 : (reconcile env r).resource.desired = r.desired := hd
    refine planFor_converged env _ i hr hri ?_ ?_
    · rw [hk2]; exact hlive i hri
    · rw [hd2]; exact hlast

/-- C11, witness: the tenant scenario of section 8. With policy [Create, Update] and conf
friendly_name "Acme" the first run plans Create, issues it, and leaves the status with
lastConf friendly_name "Acme"; the second plan is NoOp with no remote call, and the second
run issues none. -/
theorem C11_second_plan_is_noop_witness :
    (planFor scenarioEnv
        (.tenant (scenarioTenant [PolicyTypeCreate, PolicyTypeUpdate]))).1
      = .ok (.Create (JSON.obj [("friendly_name", JSON.str "Acme")])) ∧
    (reconcile scenarioEnv
        (.tenant (scenarioTenant [PolicyTypeCreate, PolicyTypeUpdate]))).calls
      = [RemoteCall.Create .Tenant (JSON.obj [("friendly_name", JSON.str "Acme")])] ∧
    (reconcile scenarioEnv
        (.tenant (scenarioTenant [PolicyTypeCreate, PolicyTypeUpdate]))).resource.status.toJSON
      = JSON.obj [("lastConf", JSON.obj [("friendly_name", JSON.str "Acme")])] ∧
    (reconcile scenarioEnv (reconcile scenarioEnv
        (.tenant (scenarioTenant [PolicyTypeCreate, PolicyTypeUpdate]))).resource).calls
      = [] ∧
    planFor scenarioEnv (reconcile scenarioEnv
        (.tenant (scenarioTenant [PolicyTypeCreate, PolicyTypeUpdate]))).resource
      = (.ok .NoOp, []) :=
  ⟨rfl, rfl, rfl, rfl,
    C11_second_plan_is_noop scenarioEnv
      (.tenant (scenarioTenant [PolicyTypeCreate, PolicyTypeUpdate])) rfl rfl
      ⟨RemoteCall.Create .Tenant (JSON.obj [("friendly_name", JSON.str "Acme")]),
        List.mem_singleton.2 rfl, rfl⟩
      (fun _ _ => rfl)⟩


/-! ## Theorems: validation markers and json tags -/

set_option maxRecDepth 100000 in
theorem marked_fields_table :
    ∀ d ∈ allStructDecls, ∀ f ∈ d.fields, f.marked = true →
      f.inlined = false ∧ (f.required = true ↔ f.omitempty = false) ∧
      (f.optional = true ↔ f.omitempty = true) := by
  decide

set_option maxRecDepth 100000 in
theorem encodedTags_keys_nodup :
    ∀ d ∈ allStructDecls, (d.encodedTags.map Prod.fst).Nodup := by
  decide

theorem AnyStruct.decl_mem (v : AnyStruct) : v.decl ∈ allStructDecls := by
  cases v <;> simp [AnyStruct.decl, allStructDecls]

theorem AnyStruct.fields_tags (v : AnyStruct) :
    (v.fields.map fun e => (e.key, e.omitempty)) = v.decl.encodedTags := by
  cases v <;> rfl

theorem StructDecl.mem_encodedTags (d : StructDecl) (f : FieldDecl) (hf : f ∈ d.fields)
    (hin : f.inlined = false) : (f.jsonKey, f.omitempty) ∈ d.encodedTags := by
  obtain ⟨name, fields⟩ := d
  simp only [StructDecl.encodedTags]
  simp only at hf
  induction fields with
  | nil => simp at hf
  | cons g rest ih =>
    simp only [List.foldr_cons]
    rcases List.mem_cons.1 hf with rfl | hrest
    · simp [hin]
    · have := ih hrest
      split
      · split
        · exact List.mem_append.2 (Or.inr this)
        · exact this
      · exact List.mem_cons_of_mem _ this

theorem eq_of_mem_of_nodup_keys {β : Type} (l : List (String × β)) (k : String) (a b : β)
    (hnd : (l.map Prod.fst).Nodup) (ha : (k, a) ∈ l) (hb : (k, b) ∈ l) : a = b := by
  induction l with
  | nil => simp at ha
  | cons x rest ih =>
    simp only [List.map_cons, List.nodup_cons] at hnd
    rcases List.mem_cons.1 ha with rfl | ha'
    · rcases List.mem_cons.1 hb with hb' | hb'
      · exact (Prod.mk.inj hb').2.symm
      · exact absurd (List.mem_map.2 ⟨(k, b), hb', rfl⟩) hnd.1
    · rcases List.mem_cons.1 hb with rfl | hb'
      · exact absurd (List.mem_map.2 ⟨(k, a), ha', rfl⟩) hnd.1
      · exact ih hnd.2 ha' hb'

theorem AnyStruct.fields_present (v : AnyStruct) :
    (v.fields.map fun e => (e.key, !e.empty)) = v.present := by
  cases v <;> rfl

/-- C21: for every value of every struct type of the package and every field of the type
that carries a validation marker, the field is marked Required exactly when its json tag
has no omitempty and marked Optional exactly when its json tag has omitempty; the key of
a required field is always written, and the key of an optional field is written exactly
when the field of the value holds something (a pointer that is not nil, a slice or a
string that is not empty), so only when it is set. -/
theorem C21_markers_match_tags (v : AnyStruct) (f : FieldDecl) (hf : f ∈ v.decl.fields)
    (hm : f.marked = true) :
    (f.required = true ↔ f.omitempty = false) ∧
    (f.optional = true ↔ f.omitempty = true) ∧
    (f.required = true → f.jsonKey ∈ v.toJSON.keys) ∧
    (f.optional = true → f.jsonKey ∈ v.toJSON.keys →
      ∃ e ∈ v.fields, e.key = f.jsonKey ∧ e.empty = false) ∧
    (f.optional = true →
      (f.jsonKey ∈ v.toJSON.keys ↔ (f.jsonKey, true) ∈ v.present)) := by
  obtain ⟨hin, hreq, hopt⟩ := marked_fields_table v.decl v.decl_mem f hf hm
  have htag : (f.jsonKey, f.omitempty) ∈ v.fields.map fun e => (e.key, e.omitempty) := by
    rw [v.fields_tags]
    exact StructDecl.mem_encodedTags v.decl f hf hin
  have hwritten : f.optional = true → f.jsonKey ∈ v.toJSON.keys →
      ∃ e ∈ v.fields, e.key = f.jsonKey ∧ e.empty = false := by
    intro ho hk
    obtain ⟨e, he, hkey, hkeep⟩ := marshalFields_key_mem v.fields f.jsonKey hk
    have he2 : (f.jsonKey, e.omitempty) ∈ v.fields.map fun e => (e.key, e.omitempty) :=
      List.mem_map.2 ⟨e, he, by rw [hkey]⟩
    have hnd : ((v.fields.map fun e => (e.key, e.omitempty)).map Prod.fst).Nodup := by
      rw [v.fields_tags]
      exact encodedTags_keys_nodup v.decl v.decl_mem
    have hsame : e.omitempty = f.omitempty :=
      eq_of_mem_of_nodup_keys _ f.jsonKey _ _ hnd he2 htag
    have homit : e.omitempty = true := by rw [hsame]; exact hopt.1 ho
    refine ⟨e, he, hkey, ?_⟩
    simpa [homit] using hkeep
  refine ⟨hreq, hopt, ?_, hwritten, ?_⟩
  · intro hr
    obtain ⟨e, he, hpair⟩ := List.mem_map.1 htag
    have hk : e.key = f.jsonKey := (Prod.mk.inj hpair).1
    have ho : e.omitempty = false := by
      rw [(Prod.mk.inj hpair).2]
      exact hreq.1 hr
    have := marshalFields_mem_key v.fields e he (by simp [ho])
    rw [hk] at this
    exact this
  · intro ho
    rw [← v.fields_present]
    constructor
    · intro hk
      obtain ⟨e, he, hkey, hempty⟩ := hwritten ho hk
      exact List.mem_map.2 ⟨e, he, by simp [hkey, hempty]⟩
    · intro hp
      obtain ⟨e, he, hpair⟩ := List.mem_map.1 hp
      have hk : e.key = f.jsonKey := (Prod.mk.inj hpair).1
      have hne : (!e.empty) = true := (Prod.mk.inj hpair).2
      have := marshalFields_mem_key v.fields e he (by simp at hne; simp [hne])
      rw [hk] at this
      exact this

/-- C21, witness: the required field tenantRef of A0ClientSpec has no omitempty and is
written even for the spec with nothing set, as "tenantRef": null, while the optional
fields of that spec, all unset, are not written; the optional fields of a
TenantChangePassword with nothing set are not written either. -/
theorem C21_markers_match_tags_witness :
    (⟨"TenantRef", "*V1TenantReference", "tenantRef", [],
        ["kubebuilder:validation:Required"]⟩ : FieldDecl).marked = true ∧
    A0ClientSpec.toJSON ⟨none, none, none, none, none, none⟩
      = JSON.obj [("tenantRef", JSON.null), ("conf", JSON.null)] ∧
    TenantChangePassword.toJSON ⟨none, none⟩ = JSON.obj [] ∧
    TenantChangePassword.toJSON ⟨some true, none⟩ = JSON.obj [("enabled", JSON.bool true)] ∧
    (AnyStruct.ofTenantChangePassword ⟨some true, none⟩).present
      = [("enabled", true), ("html", false)] ∧
    "tenantRef" ∈
      (AnyStruct.ofA0ClientSpec ⟨none, none, none, none, none, none⟩).toJSON.keys :=
  ⟨by decide, rfl, rfl, rfl, rfl,
    (C21_markers_match_tags (.ofA0ClientSpec ⟨none, none, none, none, none, none⟩)
      ⟨"TenantRef", "*V1TenantReference", "tenantRef", [], ["kubebuilder:validation:Required"]⟩
      (by simp [AnyStruct.decl, A0ClientSpec.decl]) (by decide)).2.2.1 (by decide)⟩


end V1
